import Mathlib

/-!
# Virtual USB mass-storage medium of the Ketyere handheld

A shallow embedding of `firmware/USB_DEVICE/App/USBMediumAccess.c` (16-bit FAT) and of
`firmware/USB_DEVICE/App/USBMediumAccess fat32.c` (the earlier FAT32 flavoured variant).

Conventions of the embedding:

* `U8`, `U16` and `U32` values are natural numbers; every C operation that can wrap is
  written with an explicit `% 2^w`.
* A `U8*` is an address into a `Memory` (address ↦ byte).  `&(p[i])` is the address `p + i`.
* `for` loops are `forLoop`, which runs its body for ascending values of the loop counter.
* Function pointers are Lean functions on the environment `Env` they can touch; `NULL` is
  `none`.
-/

namespace Ketyere

/-! ## Machine model -/

/-- Number of values of a `U32`. -/
abbrev U32_MOD : Nat := 4294967296

/-- Number of values of a `U16`. -/
abbrev U16_MOD : Nat := 65536

/-- Number of values of a `U8`. -/
abbrev U8_MOD : Nat := 256

/-- Byte memory reachable from a pointer: offset ↦ byte. -/
abbrev Memory := Nat → Nat

/-- The assignment `p[a] = v`. -/
def store (m : Memory) (a v : Nat) : Memory := fun k => if k = a then v else m k

/-- The loop `for (i = i0; <n more iterations>; i++) s = body(i, s)`: the body runs for
`i0, i0+1, ..., i0+n-1` in this order. -/
def forLoop {σ : Type} (body : Nat → σ → σ) : Nat → Nat → σ → σ
  | 0, _, s => s
  | n + 1, i, s => forLoop body n (i + 1) (body i s)

/-- The difference `a - b` of two `U32` values, in `U32` arithmetic. -/
def u32Sub (a b : Nat) : Nat := (a + (U32_MOD - b % U32_MOD)) % U32_MOD

/-- The library call `memset(p, c, n)`. -/
def memset (p c n : Nat) (m : Memory) : Memory :=
  forLoop (fun i m => store m (p + i) c) n 0 m

/-- The pointer obtained from a C array: inside the array it reads the array, past its end
it reads whatever lies behind it in memory (`beyond`). -/
def arrayPtr (a : List Nat) (beyond : Memory) : Memory :=
  fun i => if i < a.length then a.getD i 0 else beyond i

/-- The bytes of a C string literal, with its terminating NUL. -/
def cString (s : String) : List Nat := s.data.map Char.toNat ++ [0]

/-! ## Hardware seen by the file callbacks -/

/-- Level written to a GPIO pin. -/
inductive GPIO_PinState where
  | GPIO_PIN_RESET
  | GPIO_PIN_SET
  deriving DecidableEq, Repr

/-- Hardware operations issued by the file callbacks, as they appear at the interface of
the HAL and of `spi_flash.h`. -/
inductive HwOp where
  | backlightWritePin (PinState : GPIO_PinState)
  | flashRead (u32StartAddress u32Length : Nat)
  | flashEraseSector (u32SectorAddress : Nat)
  | flashWrite (u32StartAddress : Nat) (data : List Nat) (u32Length : Nat)
  deriving DecidableEq, Repr

/-- The NOR flash chip behind SPI1.  The chip is not code of the repository: how programming
and erasing change its contents is a parameter of the model. -/
structure FlashChip where
  contents : Memory
  program : Memory → Nat → List Nat → Memory
  eraseSector : Memory → Nat → Memory

/-- Everything a file callback can touch: the transfer buffer it is handed a pointer into,
the flash chip, and the trace of hardware operations performed so far (oldest first). -/
structure Env where
  mem : Memory
  chip : FlashChip
  ops : List HwOp

/-- The bytes `p[0] .. p[n-1]`. -/
def readBytes (m : Memory) (p n : Nat) : List Nat := (List.range n).map (fun i => m (p + i))

/-- `HAL_GPIO_WritePin( LCD_BACKLIGHT_GPIO_Port, LCD_BACKLIGHT_Pin, PinState )`. -/
def HAL_GPIO_WritePin_backlight (PinState : GPIO_PinState) (env : Env) : Env :=
  { env with ops := env.ops ++ [HwOp.backlightWritePin PinState] }

/-- `SPIFlash_Read_Polling` of spi_flash.c at its interface: `u32Length` bytes of the chip,
from `u32StartAddress` on, are stored at `pu8Buffer[0..]`. -/
def SPIFlash_Read_Polling (u32StartAddress pu8Buffer u32Length : Nat) (env : Env) : Env :=
  { env with
    mem := forLoop (fun u32Index m =>
        store m (pu8Buffer + u32Index) (env.chip.contents (u32StartAddress + u32Index)))
      u32Length 0 env.mem
    ops := env.ops ++ [HwOp.flashRead u32StartAddress u32Length] }

/-- `SPIFlash_EraseSector_Polling` of spi_flash.c at its interface. -/
def SPIFlash_EraseSector_Polling (u32SectorAddress : Nat) (env : Env) : Env :=
  { env with
    chip := { env.chip with
      contents := env.chip.eraseSector env.chip.contents u32SectorAddress }
    ops := env.ops ++ [HwOp.flashEraseSector u32SectorAddress] }

/-- `SPIFlash_Write_Polling` of spi_flash.c at its interface. -/
def SPIFlash_Write_Polling (u32StartAddress pu8Buffer u32Length : Nat) (env : Env) : Env :=
  { env with
    chip := { env.chip with
      contents := env.chip.program env.chip.contents u32StartAddress
        (readBytes env.mem pu8Buffer u32Length) }
    ops := env.ops ++
      [HwOp.flashWrite u32StartAddress (readBytes env.mem pu8Buffer u32Length) u32Length] }

/-! ## Types of USBMediumAccess.c -/

/-- The C type `pFileCallBackFunction`: `void f( U32 u32FileOffset, U8* pu8Buffer, U32 u32Size )`. -/
abbrev pFileCallBackFunction := Nat → Nat → Nat → Env → Env

/-- Type of read callback pointer. -/
inductive E_READ_CB_PTR_TYPE where
  | CONST_DATA_FILE
  | FUNCTION_CALLBACK_FILE
  deriving DecidableEq, Repr

/-- The union for file reading: the two members are the two ways the code reads the same
storage; `eReadCallbackType` of the descriptor says which one is meant. -/
structure U_READ_CB_PTR where
  pFuncRead : Option pFileCallBackFunction
  pu8ConstantArray : Memory

/-- File descriptor. -/
structure S_FILE_DESCRIPTOR where
  au8FileName : List Nat
  au8FileTime : List Nat
  au8FileDate : List Nat
  u32FileSize : Nat
  eReadCallbackType : E_READ_CB_PTR_TYPE
  uReadHandler : U_READ_CB_PTR
  pWriteHandler : Option pFileCallBackFunction

/-- Drive status (`E_USB_MEDIUM_STATE` of USBMediumAccess.h). -/
inductive E_USB_MEDIUM_STATE where
  | USB_MEDIUM_OK
  | USB_MEDIUM_FAIL
  deriving DecidableEq, Repr

/-- A call through a function pointer of the file table, as made by `ReadFile` or
`WriteFile`: which file, and the three arguments; for a write also the bytes handed over. -/
inductive FileCall where
  | read (u8FileIndex u32FileOffset pu8Buffer u32Size : Nat)
  | write (u8FileIndex u32FileOffset pu8Buffer u32Size : Nat) (data : List Nat)
  deriving DecidableEq, Repr

/-- State of the program: the environment of the callbacks, the calls made through the file
table so far (oldest first), and the static variable `geMediumState`. -/
structure State where
  env : Env
  calls : List FileCall
  geMediumState : E_USB_MEDIUM_STATE

/-- Modelled from the spec: `MASS_BLOCK_SIZE` is defined in usbd_storage_if.h, which is not
among the sources; the spec fixes the block size at 512 bytes. -/
abbrev MASS_BLOCK_SIZE : Nat := 512

/-- Entry `i` of the file table; the code only indexes below `gcu8NumFilesOnDrive`. -/
def fileAt (files : List S_FILE_DESCRIPTOR) (i : Nat) : S_FILE_DESCRIPTOR :=
  files.getD i
    { au8FileName := [], au8FileTime := [], au8FileDate := [], u32FileSize := 0,
      eReadCallbackType := E_READ_CB_PTR_TYPE.CONST_DATA_FILE,
      uReadHandler := { pFuncRead := none, pu8ConstantArray := fun _ => 0 },
      pWriteHandler := none }

/-- The constant `gcu8NumFilesOnDrive`: the number of table entries, stored in a `U8`. -/
def gcu8NumFilesOnDrive (files : List S_FILE_DESCRIPTOR) : Nat := files.length % U8_MOD

/-- The expression `(u32FileSize + MASS_BLOCK_SIZE - 1u) / MASS_BLOCK_SIZE` in `U32`
arithmetic. -/
def clusterCount (u32FileSize : Nat) : Nat :=
  ((u32FileSize + MASS_BLOCK_SIZE - 1) % U32_MOD) / MASS_BLOCK_SIZE

/-! ## Macros -/

/-- `TIME_HIGH(H,M,S)`: `((U8)(((((H)<<3))|((M)>>3))))`. -/
def TIME_HIGH (H M _S : Nat) : Nat := ((H <<< 3) ||| (M >>> 3)) % U8_MOD

/-- `TIME_LOW(H,M,S)`: `((U8)(((0))|((M)<<5)|(S)))`. -/
def TIME_LOW (_H M S : Nat) : Nat := ((0 ||| (M <<< 5)) ||| S) % U8_MOD

/-- `DATE_HIGH(Y,M,D)`: `((U8)(((((Y)-1980)<<1)|((M)>>3))))`. -/
def DATE_HIGH (Y M _D : Nat) : Nat := (((Y - 1980) <<< 1) ||| (M >>> 3)) % U8_MOD

/-- `DATE_LOW(Y,M,D)`: `((U8)((0)|((M)<<5)|(D)))`. -/
def DATE_LOW (_Y M D : Nat) : Nat := ((0 ||| (M <<< 5)) ||| D) % U8_MOD

/-! ## USBMediumAccess.c: the 16-bit FAT medium -/

namespace USBMediumAccess

/-- Sector size in bytes used by FAT filesystem. -/
abbrev FAT_SECTORSIZE : Nat := 512

/-- Number of sectors per cluster. -/
abbrev SECTORS_PER_CLUSTER : Nat := 0x01

/-- Sector with the first FAT. -/
abbrev FAT_BLOCKS_START : Nat := 1

/-- Number of FAT blocks. -/
abbrev NUM_FAT_BLOCKS : Nat := 256

/-- Maximum number of files in the drive root. -/
abbrev MAX_NUM_FILES_ROOT : Nat := 512

/-- Size of the generative file. -/
abbrev LONGFILE_SIZE : Nat := 200000

/-- Each file descriptor is 32 bytes long. -/
abbrev ROOT_DIRECTORY_SIZE_BLOCKS : Nat := MAX_NUM_FILES_ROOT * 32 / FAT_SECTORSIZE

/-- Block index of the first file. -/
abbrev FIRST_FILE_BLOCK : Nat := FAT_BLOCKS_START + 2 * NUM_FAT_BLOCKS + ROOT_DIRECTORY_SIZE_BLOCKS

/-- Data of the boot block.  `MASS_BLOCK_COUNT` comes from usbd_storage_if.h, which is not
among the sources, and is a parameter. -/
def cau8BootBlockData (MASS_BLOCK_COUNT : Nat) : List Nat :=
  [ 0xEB, 0x3E, 0x90,
    'M'.toNat, 'S'.toNat, 'D'.toNat, 'O'.toNat, 'S'.toNat, '5'.toNat, '.'.toNat, '0'.toNat,
    0xFF &&& (FAT_SECTORSIZE >>> 0), 0xFF &&& (FAT_SECTORSIZE >>> 8),
    SECTORS_PER_CLUSTER,
    0xFF &&& (FAT_BLOCKS_START >>> 0), 0xFF &&& (FAT_BLOCKS_START >>> 8),
    0x02,
    0xFF &&& (MAX_NUM_FILES_ROOT >>> 0), 0xFF &&& (MAX_NUM_FILES_ROOT >>> 8),
    0x00, 0x00,
    0xF0,
    0xFF &&& (NUM_FAT_BLOCKS >>> 0), 0xFF &&& (NUM_FAT_BLOCKS >>> 8),
    0x20, 0x00,
    0x01, 0x00,
    0x00, 0x00, 0x00, 0x00,
    0xFF &&& (MASS_BLOCK_COUNT >>> 0), 0xFF &&& (MASS_BLOCK_COUNT >>> 8),
    0xFF &&& (MASS_BLOCK_COUNT >>> 16), 0xFF &&& (MASS_BLOCK_COUNT >>> 24),
    0x80,
    0x00,
    0x29,
    0x00, 0x00, 0x00, 0x00,
    'K'.toNat, 'e'.toNat, 't'.toNat, 'y'.toNat, 'e'.toNat, 'r'.toNat, 'e'.toNat, ' '.toNat,
    'M'.toNat, 'S'.toNat, 'D'.toNat,
    'F'.toNat, 'A'.toNat, 'T'.toNat, '1'.toNat, '6'.toNat, ' '.toNat, ' '.toNat, ' '.toNat ]

/-- Volume label entry. -/
def cau8VolumeLabel : List Nat :=
  [ 'K'.toNat, 'e'.toNat, 't'.toNat, 'y'.toNat, 'e'.toNat, 'r'.toNat, 'e'.toNat, ' '.toNat,
    'M'.toNat, 'S'.toNat, 'D'.toNat,
    0x08,
    0x00,
    0x00,
    TIME_LOW 12 34 56, TIME_HIGH 12 34 56,
    DATE_LOW 2021 1 2, DATE_HIGH 2021 1 2,
    DATE_LOW 2021 1 2, DATE_HIGH 2021 1 2,
    0x00, 0x00,
    TIME_LOW 12 34 56, TIME_HIGH 12 34 56,
    DATE_LOW 2021 1 2, DATE_HIGH 2021 1 2,
    0x00, 0x00,
    0x00, 0x00, 0x00, 0x00 ]

/-- The byte `ReadBootBlock` stores for the loop counter `u32Index`. -/
def ReadBootBlock.byte (MASS_BLOCK_COUNT u32Index : Nat) : Nat :=
  if u32Index < (cau8BootBlockData MASS_BLOCK_COUNT).length then
    (cau8BootBlockData MASS_BLOCK_COUNT).getD u32Index 0
  else if 510 = u32Index then 0x55
  else if 511 = u32Index then 0xAA
  else 0x90

/-- Copies the boot block to a given buffer: the loop runs `u32Index` from `u32ByteOffset`
up to `u32ByteOffset + u32BufferSize` (a `U32` sum) and `u32BufferIndex` from 0. -/
def ReadBootBlock (MASS_BLOCK_COUNT u32ByteOffset pu8Buffer u32BufferSize : Nat)
    (mem : Memory) : Memory :=
  forLoop (fun u32BufferIndex m =>
      store m (pu8Buffer + u32BufferIndex)
        (ReadBootBlock.byte MASS_BLOCK_COUNT (u32ByteOffset + u32BufferIndex)))
    ((u32ByteOffset + u32BufferSize) % U32_MOD - u32ByteOffset) 0 mem

/-- The file search loop of `ReadFAT`, over the table entries not yet visited; the result
is the pair `(u8FileIndex, u32FileEnd)` on leaving the loop.  The loop visits the first
`gcu8NumFilesOnDrive` entries, fewer than 256, so the `U8` counter does not wrap. -/
def ReadFAT.scan (u32CurrentCluster : Nat) :
    List S_FILE_DESCRIPTOR → Nat → Nat → Nat × Nat
  | [], u8FileIndex, u32FileEnd => (u8FileIndex, u32FileEnd)
  | f :: rest, u8FileIndex, u32FileEnd =>
    let u32FileSize := f.u32FileSize
    let u32Clusters := clusterCount u32FileSize
    let u32FileEnd := (u32FileEnd + u32Clusters) % U32_MOD
    if u32CurrentCluster < u32FileEnd then (u8FileIndex, u32FileEnd)
    else ReadFAT.scan u32CurrentCluster rest (u8FileIndex + 1) u32FileEnd

/-- The value of `u16FATEntry` for the FAT byte address `u32ByteAddress`. -/
def ReadFAT.entry (MASS_BLOCK_COUNT : Nat) (files : List S_FILE_DESCRIPTOR)
    (u32ByteAddress : Nat) : Nat :=
  if u32ByteAddress < 2 then
    0xFF00 ||| (cau8BootBlockData MASS_BLOCK_COUNT).getD 21 0
  else if u32ByteAddress < 4 then
    0xFFFF
  else
    let u32CurrentCluster := (u32ByteAddress - 4) / 2
    let r := ReadFAT.scan u32CurrentCluster (files.take (gcu8NumFilesOnDrive files)) 0 0
    let u8FileIndex := r.1
    let u32FileEnd := r.2
    if u8FileIndex ≥ gcu8NumFilesOnDrive files then
      0xFFF7
    else if (u32CurrentCluster + 1) % U32_MOD < u32FileEnd then
      ((2 + u32CurrentCluster + 1) % U32_MOD) % U16_MOD
    else
      0xFFF8

/-- Copies the file allocation table to a given buffer. -/
def ReadFAT (MASS_BLOCK_COUNT : Nat) (files : List S_FILE_DESCRIPTOR)
    (u32BlockOffset pu8Buffer u32BufferSize : Nat) (mem : Memory) : Memory :=
  forLoop (fun u32Index m =>
      let u32ByteAddress := (u32BlockOffset * MASS_BLOCK_SIZE + u32Index) % U32_MOD
      let u16FATEntry := ReadFAT.entry MASS_BLOCK_COUNT files u32ByteAddress
      store m (pu8Buffer + u32Index) (0xFF &&& (u16FATEntry >>> (8 * (u32ByteAddress &&& 0x1)))))
    u32BufferSize 0 mem

/-- The loop of `ReadRootDir` that adds up the clusters of the files before the entry:
`u32StartCluster` after visiting the given table entries. -/
def ReadRootDir.startCluster (visited : List S_FILE_DESCRIPTOR) : Nat :=
  visited.foldl (fun u32StartCluster f => (u32StartCluster + clusterCount f.u32FileSize) % U32_MOD) 2

/-- The value of `u8Ret` for the root directory byte address `u32ByteAddress`. -/
def ReadRootDir.byte (files : List S_FILE_DESCRIPTOR) (u32ByteAddress : Nat) : Nat :=
  if 32 > u32ByteAddress then
    cau8VolumeLabel.getD u32ByteAddress 0
  else if (32 * (1 + gcu8NumFilesOnDrive files)) % U32_MOD > u32ByteAddress then
    let u32StartCluster := ReadRootDir.startCluster (files.take (u32ByteAddress / 32 - 1))
    let u8FileIndex := (u32ByteAddress / 32 - 1) % U8_MOD
    let u8OffsetIndex := (u32ByteAddress % 32) % U8_MOD
    if 11 > u8OffsetIndex then
      (fileAt files u8FileIndex).au8FileName.getD u8OffsetIndex 0
    else if 11 = u8OffsetIndex then
      if (fileAt files u8FileIndex).pWriteHandler.isNone then 0x01 else 0x00
    else if 12 = u8OffsetIndex then 0x00
    else if 13 = u8OffsetIndex then 0x00
    else if 16 > u8OffsetIndex then
      (fileAt files u8FileIndex).au8FileTime.getD (u8OffsetIndex - 14) 0
    else if 18 > u8OffsetIndex then
      (fileAt files u8FileIndex).au8FileDate.getD (u8OffsetIndex - 16) 0
    else if 20 > u8OffsetIndex then
      (fileAt files u8FileIndex).au8FileDate.getD (u8OffsetIndex - 18) 0
    else if 22 > u8OffsetIndex then
      0xFF &&& (u32StartCluster >>> (16 + 8 * (u8OffsetIndex &&& 0x1)))
    else if 24 > u8OffsetIndex then
      (fileAt files u8FileIndex).au8FileTime.getD (u8OffsetIndex - 22) 0
    else if 26 > u8OffsetIndex then
      (fileAt files u8FileIndex).au8FileDate.getD (u8OffsetIndex - 24) 0
    else if 28 > u8OffsetIndex then
      0xFF &&& (u32StartCluster >>> (0 + 8 * (u8OffsetIndex &&& 0x1)))
    else
      0xFF &&& (((fileAt files u8FileIndex).u32FileSize % U32_MOD) >>> (8 * (u8OffsetIndex &&& 0x3)))
  else
    0

/-- Reads the root directory including the volume descriptor. -/
def ReadRootDir (files : List S_FILE_DESCRIPTOR)
    (u32BlockOffset pu8Buffer u32BufferSize : Nat) (mem : Memory) : Memory :=
  forLoop (fun u32Index m =>
      let u32ByteAddress := (u32BlockOffset * MASS_BLOCK_SIZE + u32Index) % U32_MOD
      store m (pu8Buffer + u32Index) (ReadRootDir.byte files u32ByteAddress))
    u32BufferSize 0 mem

/-- The file search loop of `ReadFile`, over the table entries not yet visited; the result
is the triple `(u8FileIndex, u32FileStart, u32FileEnd)` on leaving the loop.  The loop visits
the first `gcu8NumFilesOnDrive` entries, fewer than 256, so the `U8` counter does not wrap. -/
def ReadFile.scan (u32BlockOffset : Nat) :
    List S_FILE_DESCRIPTOR → Nat → Nat → Nat → Nat × Nat × Nat
  | [], u8FileIndex, u32FileStart, u32FileEnd => (u8FileIndex, u32FileStart, u32FileEnd)
  | f :: rest, u8FileIndex, u32FileStart, u32FileEnd =>
    let u32FileSize := f.u32FileSize
    let u32FileEnd := (u32FileEnd + clusterCount u32FileSize) % U32_MOD
    if u32BlockOffset < u32FileEnd then (u8FileIndex, u32FileStart, u32FileEnd)
    else ReadFile.scan u32BlockOffset rest (u8FileIndex + 1) u32FileEnd u32FileEnd

/-- Reads the contents of files. -/
def ReadFile (files : List S_FILE_DESCRIPTOR)
    (u32BlockOffset pu8Buffer u32BufferSize : Nat) (s : State) : State :=
  let r := ReadFile.scan u32BlockOffset (files.take (gcu8NumFilesOnDrive files)) 0 0 0
  let u8FileIndex := r.1
  let u32FileStart := r.2.1
  if u8FileIndex ≥ gcu8NumFilesOnDrive files then
    s
  else
    let u32FileOffset := u32Sub u32BlockOffset u32FileStart
    if (fileAt files u8FileIndex).eReadCallbackType = E_READ_CB_PTR_TYPE.CONST_DATA_FILE then
      { s with env := { s.env with
          mem := forLoop (fun u32Index m =>
              store m (pu8Buffer + u32Index)
                ((fileAt files u8FileIndex).uReadHandler.pu8ConstantArray
                  ((u32FileOffset * MASS_BLOCK_SIZE + u32Index) % U32_MOD)))
            u32BufferSize 0 s.env.mem } }
    else
      match (fileAt files u8FileIndex).uReadHandler.pFuncRead with
      | none => s
      | some pFuncRead =>
        { s with
          env := pFuncRead ((u32FileOffset * MASS_BLOCK_SIZE) % U32_MOD) pu8Buffer
            u32BufferSize s.env
          calls := s.calls ++ [FileCall.read u8FileIndex
            ((u32FileOffset * MASS_BLOCK_SIZE) % U32_MOD) pu8Buffer u32BufferSize] }

/-- The file search loop of `WriteFile`, over the table entries not yet visited; the result
is the triple `(u8FileIndex, u32FileStart, u32FileEnd)` on leaving the loop. -/
def WriteFile.scan (u32BlockOffset : Nat) :
    List S_FILE_DESCRIPTOR → Nat → Nat → Nat → Nat × Nat × Nat
  | [], u8FileIndex, u32FileStart, u32FileEnd => (u8FileIndex, u32FileStart, u32FileEnd)
  | f :: rest, u8FileIndex, u32FileStart, u32FileEnd =>
    let u32FileSize := f.u32FileSize
    let u32FileEnd := (u32FileEnd + clusterCount u32FileSize) % U32_MOD
    if u32BlockOffset < u32FileEnd then (u8FileIndex, u32FileStart, u32FileEnd)
    else WriteFile.scan u32BlockOffset rest (u8FileIndex + 1) u32FileEnd u32FileEnd

/-- Writes to a file. -/
def WriteFile (files : List S_FILE_DESCRIPTOR)
    (u32BlockOffset pu8Buffer u32BufferSize : Nat) (s : State) : State :=
  let r := WriteFile.scan u32BlockOffset (files.take (gcu8NumFilesOnDrive files)) 0 0 0
  let u8FileIndex := r.1
  let u32FileStart := r.2.1
  if u8FileIndex ≥ gcu8NumFilesOnDrive files then
    s
  else
    let u32FileOffset := u32Sub u32BlockOffset u32FileStart
    match (fileAt files u8FileIndex).pWriteHandler with
    | none => s
    | some pWriteHandler =>
      { s with
        env := pWriteHandler ((u32FileOffset * MASS_BLOCK_SIZE) % U32_MOD) pu8Buffer
          u32BufferSize s.env
        calls := s.calls ++ [FileCall.write u8FileIndex
          ((u32FileOffset * MASS_BLOCK_SIZE) % U32_MOD) pu8Buffer u32BufferSize
          (readBytes s.env.mem pu8Buffer u32BufferSize)] }

/-- Initializes the medium. -/
def USBMediumAccess_Init (s : State) : State :=
  { s with geMediumState := E_USB_MEDIUM_STATE.USB_MEDIUM_OK }

/-- Returns the status of the medium. -/
def USBMediumAccess_GetStatus (s : State) : E_USB_MEDIUM_STATE × State :=
  (s.geMediumState, s)

/-- Ejects the medium. -/
def USBMediumAccess_Eject (s : State) : State :=
  { s with geMediumState := E_USB_MEDIUM_STATE.USB_MEDIUM_FAIL }

/-- One iteration of the loop of `USBMediumAccess_Read`, for the loop counter `u32Index`. -/
def USBMediumAccess_Read.body (MASS_BLOCK_COUNT : Nat) (files : List S_FILE_DESCRIPTOR)
    (u32StartBlock pu8Buffer u32Index : Nat) (s : State) : State :=
  let u32CurrentBlock := (u32StartBlock + u32Index) % U32_MOD
  if 0 = u32CurrentBlock then
    { s with env := { s.env with
        mem := ReadBootBlock MASS_BLOCK_COUNT 0 (pu8Buffer + u32Index) MASS_BLOCK_SIZE s.env.mem } }
  else if FAT_BLOCKS_START + 2 * NUM_FAT_BLOCKS > u32CurrentBlock then
    if FAT_BLOCKS_START + NUM_FAT_BLOCKS ≤ u32CurrentBlock then
      { s with env := { s.env with
          mem := ReadFAT MASS_BLOCK_COUNT files
            (u32CurrentBlock - FAT_BLOCKS_START - NUM_FAT_BLOCKS)
            (pu8Buffer + u32Index) MASS_BLOCK_SIZE s.env.mem } }
    else
      { s with env := { s.env with
          mem := ReadFAT MASS_BLOCK_COUNT files (u32CurrentBlock - FAT_BLOCKS_START)
            (pu8Buffer + u32Index) MASS_BLOCK_SIZE s.env.mem } }
  else if FIRST_FILE_BLOCK > u32CurrentBlock then
    { s with env := { s.env with
        mem := ReadRootDir files (u32CurrentBlock - (FAT_BLOCKS_START + 2 * NUM_FAT_BLOCKS))
          (pu8Buffer + u32Index) MASS_BLOCK_SIZE s.env.mem } }
  else
    ReadFile files (u32CurrentBlock - FIRST_FILE_BLOCK) (pu8Buffer + u32Index) MASS_BLOCK_SIZE
      { s with env := { s.env with
          mem := memset (pu8Buffer + u32Index) 0 MASS_BLOCK_SIZE s.env.mem } }

/-- Reads blocks from the virtual media. -/
def USBMediumAccess_Read (MASS_BLOCK_COUNT : Nat) (files : List S_FILE_DESCRIPTOR)
    (u32StartBlock pu8Buffer u32BlockNum : Nat) (s : State) : State :=
  forLoop (USBMediumAccess_Read.body MASS_BLOCK_COUNT files u32StartBlock pu8Buffer)
    u32BlockNum 0 s

/-- One iteration of the loop of `USBMediumAccess_Write`, for the loop counter `u32Index`. -/
def USBMediumAccess_Write.body (files : List S_FILE_DESCRIPTOR)
    (u32StartBlock pu8Buffer u32Index : Nat) (s : State) : State :=
  let u32CurrentBlock := (u32StartBlock + u32Index) % U32_MOD
  if FIRST_FILE_BLOCK ≤ u32StartBlock then
    WriteFile files (u32Sub u32CurrentBlock FIRST_FILE_BLOCK)
      (pu8Buffer + u32Index) MASS_BLOCK_SIZE s
  else
    s

/-- Writes blocks to the virtual media. -/
def USBMediumAccess_Write (files : List S_FILE_DESCRIPTOR)
    (u32StartBlock pu8Buffer u32BlockNum : Nat) (s : State) : State :=
  forLoop (USBMediumAccess_Write.body files u32StartBlock pu8Buffer) u32BlockNum 0 s

/-! ### Virtual disk contents -/

/-- The array `cau8ReadmeFile`. -/
def cau8ReadmeFile : List Nat :=
  cString ("This is a mass storage device example on the ,,Ketyere\x27\x27 hardware. \r\n" ++
    "It support multiple files defined in the \"filesOnDrive\" array, with file content either hardcoded in an array, or generated by a callback function.\r\n" ++
    "To make the FAT table simple, all unused clusters are marked as bad to prevent new file creation or file movement.\r\n" ++
    "But the existing file can be modified to send data back to the hardware.\r\n")

/-- The array `cau8LEDControlFile`. -/
def cau8LEDControlFile : List Nat :=
  cString "1\r\nThe first byte in this file controls the LCD backlight on board. Use a texteditor without autosave to avoid the disk full error.\r\n"

/-- Callback `LEDControlCallback`: the loop body ends in `break`, so it runs at most once,
for `u32BufferIndex = 0`. -/
def LEDControlCallback : pFileCallBackFunction :=
  fun u32FileOffset pu8Buffer u32Size env =>
    if 0 < u32Size then
      if 0 = u32FileOffset then
        if (env.mem (pu8Buffer + 0)) &&& 0x01 ≠ 0 then
          HAL_GPIO_WritePin_backlight GPIO_PinState.GPIO_PIN_SET env
        else
          HAL_GPIO_WritePin_backlight GPIO_PinState.GPIO_PIN_RESET env
      else env
    else env

/-- Callback `FlashReadCallback`. -/
def FlashReadCallback : pFileCallBackFunction :=
  fun u32FileOffset pu8Buffer u32Size env =>
    SPIFlash_Read_Polling u32FileOffset pu8Buffer u32Size env

/-- Callback `FlashWriteCallback`. -/
def FlashWriteCallback : pFileCallBackFunction :=
  fun u32FileOffset pu8Buffer u32Size env =>
    let env := if 0 = u32FileOffset % 65536 then
      SPIFlash_EraseSector_Polling u32FileOffset env else env
    SPIFlash_Write_Polling u32FileOffset pu8Buffer u32Size env

/-- The value of `u8ReturnVal` in `LongfileCallback` for the current `u32FileOffset`. -/
def LongfileCallback.byte (u32FileOffset : Nat) : Nat :=
  if u32FileOffset < LONGFILE_SIZE then
    let u16LineCount := (u32FileOffset / 32) % U16_MOD
    let u8LineOffset := (u32FileOffset % 32) % U8_MOD
    if 30 = u8LineOffset then '\r'.toNat
    else if 31 = u8LineOffset then '\n'.toNat
    else if u16LineCount % 32 = u8LineOffset then '*'.toNat
    else ' '.toNat
  else 0

/-- Callback `LongfileCallback`: `u32FileOffset` is incremented along with
`u32BufferIndex`. -/
def LongfileCallback : pFileCallBackFunction :=
  fun u32FileOffset pu8Buffer u32Size env =>
    { env with
      mem := forLoop (fun u32BufferIndex m =>
          store m (pu8Buffer + u32BufferIndex)
            (LongfileCallback.byte ((u32FileOffset + u32BufferIndex) % U32_MOD)))
        u32Size 0 env.mem }

/-- Files on the virtual drive.  `pastReadme` and `pastLEDControl` are the memory contents
behind the two constant arrays. -/
def gcsFilesOnDrive (pastReadme pastLEDControl : Memory) : List S_FILE_DESCRIPTOR :=
  [ { au8FileName := ['R'.toNat, 'E'.toNat, 'A'.toNat, 'D'.toNat, 'M'.toNat, 'E'.toNat,
        ' '.toNat, ' '.toNat, 'T'.toNat, 'X'.toNat, 'T'.toNat]
      au8FileTime := [TIME_LOW 12 34 56, TIME_HIGH 12 34 56]
      au8FileDate := [DATE_LOW 2023 1 20, DATE_HIGH 2023 1 20]
      u32FileSize := cau8ReadmeFile.length - 1
      eReadCallbackType := E_READ_CB_PTR_TYPE.CONST_DATA_FILE
      uReadHandler := { pFuncRead := none, pu8ConstantArray := arrayPtr cau8ReadmeFile pastReadme }
      pWriteHandler := none },
    { au8FileName := ['L'.toNat, 'O'.toNat, 'N'.toNat, 'G'.toNat, 'F'.toNat, 'I'.toNat,
        'L'.toNat, 'E'.toNat, 'T'.toNat, 'X'.toNat, 'T'.toNat]
      au8FileTime := [TIME_LOW 12 34 56, TIME_HIGH 12 34 56]
      au8FileDate := [DATE_LOW 2023 1 20, DATE_HIGH 2023 1 20]
      u32FileSize := LONGFILE_SIZE
      eReadCallbackType := E_READ_CB_PTR_TYPE.FUNCTION_CALLBACK_FILE
      uReadHandler := { pFuncRead := some LongfileCallback, pu8ConstantArray := fun _ => 0 }
      pWriteHandler := none },
    { au8FileName := ['L'.toNat, 'E'.toNat, 'D'.toNat, '_'.toNat, 'C'.toNat, 'T'.toNat,
        'R'.toNat, 'L'.toNat, 'T'.toNat, 'X'.toNat, 'T'.toNat]
      au8FileTime := [TIME_LOW 12 34 56, TIME_HIGH 12 34 56]
      au8FileDate := [DATE_LOW 2023 1 20, DATE_HIGH 2023 1 20]
      u32FileSize := cau8LEDControlFile.length - 1
      eReadCallbackType := E_READ_CB_PTR_TYPE.CONST_DATA_FILE
      uReadHandler := { pFuncRead := none,
                        pu8ConstantArray := arrayPtr cau8LEDControlFile pastLEDControl }
      pWriteHandler := some LEDControlCallback },
    { au8FileName := ['S'.toNat, 'P'.toNat, 'I'.toNat, 'F'.toNat, 'L'.toNat, 'A'.toNat,
        'S'.toNat, 'H'.toNat, 'B'.toNat, 'I'.toNat, 'N'.toNat]
      au8FileTime := [TIME_LOW 12 34 56, TIME_HIGH 12 34 56]
      au8FileDate := [DATE_LOW 2023 1 20, DATE_HIGH 2023 1 20]
      u32FileSize := 16 * 1024 * 1024
      eReadCallbackType := E_READ_CB_PTR_TYPE.FUNCTION_CALLBACK_FILE
      uReadHandler := { pFuncRead := some FlashReadCallback, pu8ConstantArray := fun _ => 0 }
      pWriteHandler := some FlashWriteCallback } ]

end USBMediumAccess

/-! ## USBMediumAccess fat32.c: the FAT32 flavoured medium -/

namespace USBMediumAccessFat32

/-- Sector size in bytes used by FAT filesystem. -/
abbrev FAT_SECTORSIZE : Nat := 512

/-- Number of sectors per cluster. -/
abbrev SECTORS_PER_CLUSTER : Nat := 0x01

/-- First block of the FATs. -/
abbrev FAT_BLOCKS_START : Nat := 8

/-- Number of blocks of one FAT. -/
abbrev NUM_FAT_BLOCKS : Nat := 64

/-- Block index of the first file. -/
abbrev FIRST_FILE_BLOCK : Nat := 161

/-- Size of the generative file. -/
abbrev LONGFILE_SIZE : Nat := 2000

/-- `TIME_HIGH(H,M,S)` of the FAT32 variant: `(((((H)<<3))|((M)>>3)))`, without a cast. -/
def TIME_HIGH (H M _S : Nat) : Nat := (H <<< 3) ||| (M >>> 3)

/-- `TIME_LOW(H,M,S)` of the FAT32 variant: `(((0))|((M)<<5)|(S))`, without a cast. -/
def TIME_LOW (_H M S : Nat) : Nat := (0 ||| (M <<< 5)) ||| S

/-- `DATE_HIGH(Y,M,D)` of the FAT32 variant: `(((((Y)-1980)<<1)|((M)>>3)))`. -/
def DATE_HIGH (Y M _D : Nat) : Nat := ((Y - 1980) <<< 1) ||| (M >>> 3)

/-- `DATE_LOW(Y,M,D)` of the FAT32 variant: `((0)|((M)<<5)|(D))`. -/
def DATE_LOW (_Y M D : Nat) : Nat := (0 ||| (M <<< 5)) ||| D

/-- Data of the boot block (FAT32 format).  `MASS_BLOCK_COUNT` comes from
usbd_storage_if.h, which is not among the sources, and is a parameter. -/
def cau8BootBlockData (MASS_BLOCK_COUNT : Nat) : List Nat :=
  [ 0xEB, 0x3E, 0x90,
    'M'.toNat, 'S'.toNat, 'D'.toNat, 'O'.toNat, 'S'.toNat, '5'.toNat, '.'.toNat, '0'.toNat,
    0xFF &&& (FAT_SECTORSIZE >>> 0), 0xFF &&& (FAT_SECTORSIZE >>> 0),
    SECTORS_PER_CLUSTER,
    0xFF &&& (FAT_BLOCKS_START >>> 0), 0xFF &&& (FAT_BLOCKS_START >>> 8),
    0x02,
    0x00, 0x00,
    0x00, 0x00,
    0xF0,
    0x40, 0x00,
    0x20, 0x00,
    0x01, 0x00,
    0x00, 0x00, 0x00, 0x00,
    0xFF &&& (MASS_BLOCK_COUNT >>> 0), 0xFF &&& (MASS_BLOCK_COUNT >>> 8),
    0xFF &&& (MASS_BLOCK_COUNT >>> 16), 0xFF &&& (MASS_BLOCK_COUNT >>> 24),
    0x40, 0x00, 0x00, 0x00,
    0x00, 0x00,
    0x00, 0x00,
    0xFF &&& ((FIRST_FILE_BLOCK / SECTORS_PER_CLUSTER) >>> 0),
    0xFF &&& ((FIRST_FILE_BLOCK / SECTORS_PER_CLUSTER) >>> 8),
    0xFF &&& ((FIRST_FILE_BLOCK / SECTORS_PER_CLUSTER) >>> 16),
    0xFF &&& ((FIRST_FILE_BLOCK / SECTORS_PER_CLUSTER) >>> 24),
    0x01, 0x00,
    0x06, 0x00,
    0x00, 0x00, 0x00, 0x00, 0x00, 0x00, 0x00, 0x00,
    0x00, 0x00, 0x00, 0x00,
    0x80,
    0x00,
    0x29,
    0x00, 0x00, 0x00, 0x00,
    'K'.toNat, 'e'.toNat, 't'.toNat, 'y'.toNat, 'e'.toNat, 'r'.toNat, 'e'.toNat, ' '.toNat,
    'M'.toNat, 'S'.toNat, 'D'.toNat,
    'F'.toNat, 'A'.toNat, 'T'.toNat, '3'.toNat, '2'.toNat, ' '.toNat, ' '.toNat, ' '.toNat ]

/-- Volume label entry; the initialisers are converted to `U8`. -/
def cau8VolumeLabel : List Nat :=
  [ 'K'.toNat, 'e'.toNat, 't'.toNat, 'y'.toNat, 'e'.toNat, 'r'.toNat, 'e'.toNat, ' '.toNat,
    'M'.toNat, 'S'.toNat, 'D'.toNat,
    0x08,
    0x00,
    0x00,
    TIME_LOW 12 34 56 % U8_MOD, TIME_HIGH 12 34 56 % U8_MOD,
    DATE_LOW 2021 1 2 % U8_MOD, DATE_HIGH 2021 1 2 % U8_MOD,
    DATE_LOW 2021 1 2 % U8_MOD, DATE_HIGH 2021 1 2 % U8_MOD,
    0x00, 0x00,
    TIME_LOW 12 34 56 % U8_MOD, TIME_HIGH 12 34 56 % U8_MOD,
    DATE_LOW 2021 1 2 % U8_MOD, DATE_HIGH 2021 1 2 % U8_MOD,
    0x00, 0x00,
    0x00, 0x00, 0x00, 0x00 ]

/-- The byte `ReadBootBlock` stores for the loop counter `u32Index`. -/
def ReadBootBlock.byte (MASS_BLOCK_COUNT u32Index : Nat) : Nat :=
  if u32Index < (cau8BootBlockData MASS_BLOCK_COUNT).length then
    (cau8BootBlockData MASS_BLOCK_COUNT).getD u32Index 0
  else if 510 = u32Index then 0x55
  else if 511 = u32Index then 0xAA
  else 0x90

/-- Copies the boot block to a given buffer. -/
def ReadBootBlock (MASS_BLOCK_COUNT u32ByteOffset pu8Buffer u32BufferSize : Nat)
    (mem : Memory) : Memory :=
  forLoop (fun u32BufferIndex m =>
      store m (pu8Buffer + u32BufferIndex)
        (ReadBootBlock.byte MASS_BLOCK_COUNT (u32ByteOffset + u32BufferIndex)))
    ((u32ByteOffset + u32BufferSize) % U32_MOD - u32ByteOffset) 0 mem

/-- The byte `ReadFSInfo` stores for the loop counter `u32Index`. -/
def ReadFSInfo.byte (u32Index : Nat) : Nat :=
  let cau8LeadSig : List Nat := [0x52, 0x52, 0x61, 0x41]
  let cau8StrucSig : List Nat := [0x72, 0x72, 0x41, 0x61]
  let cau8TrailSig : List Nat := [0x00, 0x00, 0x55, 0xAA]
  if 4 > u32Index then cau8LeadSig.getD u32Index 0
  else if 484 > u32Index then 0x00
  else if 488 > u32Index then cau8StrucSig.getD (u32Index - 484) 0
  else if 492 > u32Index then 0xFF
  else if 496 > u32Index then 0xFF
  else if 508 > u32Index then 0x00
  else if 512 > u32Index then cau8TrailSig.getD (u32Index - 508) 0
  else 0x00

/-- Copies the FSInfo block to a given buffer. -/
def ReadFSInfo (u32ByteOffset pu8Buffer u32BufferSize : Nat) (mem : Memory) : Memory :=
  forLoop (fun u32BufferIndex m =>
      store m (pu8Buffer + u32BufferIndex) (ReadFSInfo.byte (u32ByteOffset + u32BufferIndex)))
    ((u32ByteOffset + u32BufferSize) % U32_MOD - u32ByteOffset) 0 mem

/-- The expression `(u32FileSize + MASS_BLOCK_SIZE - 1u) / MASS_BLOCK_COUNT` of `ReadFAT`
and `ReadFile`: the divisor is the block count. -/
def clustersByCount (MASS_BLOCK_COUNT u32FileSize : Nat) : Nat :=
  ((u32FileSize + MASS_BLOCK_SIZE - 1) % U32_MOD) / MASS_BLOCK_COUNT

/-- The file search loop of `ReadFAT`, over the table entries not yet visited; the result
is the pair `(u8FileIndex, u32FileEnd)` on leaving the loop. -/
def ReadFAT.scan (MASS_BLOCK_COUNT u32CurrentCluster : Nat) :
    List S_FILE_DESCRIPTOR → Nat → Nat → Nat × Nat
  | [], u8FileIndex, u32FileEnd => (u8FileIndex, u32FileEnd)
  | f :: rest, u8FileIndex, u32FileEnd =>
    let u32FileSize := f.u32FileSize
    let u32Clusters := clustersByCount MASS_BLOCK_COUNT u32FileSize
    let u32FileEnd := (u32FileEnd + u32Clusters) % U32_MOD
    if u32CurrentCluster < u32FileEnd then (u8FileIndex, u32FileEnd)
    else ReadFAT.scan MASS_BLOCK_COUNT u32CurrentCluster rest (u8FileIndex + 1) u32FileEnd

/-- One iteration of the byte loop of `ReadFAT`.  The state is the buffer memory together
with `u32FileEnd`, which is initialised once before the loop and keeps its value from one
byte to the next.  The result is the new state. -/
def ReadFAT.step (MASS_BLOCK_COUNT : Nat) (files : List S_FILE_DESCRIPTOR)
    (u32BlockOffset pu8Buffer u32Index : Nat) (st : Memory × Nat) : Memory × Nat :=
  let u32ByteAddress := (u32BlockOffset * MASS_BLOCK_SIZE + u32Index) % U32_MOD
  if u32ByteAddress < 4 then
    let u32FATEntry := 0xFFFFFF00 ||| (cau8BootBlockData MASS_BLOCK_COUNT).getD 21 0
    (store st.1 (pu8Buffer + u32Index)
      (0xFF &&& (u32FATEntry >>> (8 * (3 - (u32ByteAddress &&& 0x3))))), st.2)
  else
    let u32CurrentCluster := (MASS_BLOCK_SIZE * ((u32ByteAddress - 4) / 4)) % U32_MOD
    let r := ReadFAT.scan MASS_BLOCK_COUNT u32CurrentCluster
      (files.take (gcu8NumFilesOnDrive files)) 0 st.2
    let u8FileIndex := r.1
    let u32FileEnd := r.2
    let u32FATEntry :=
      if u8FileIndex ≥ gcu8NumFilesOnDrive files then 0xFFFFFFF7
      else if (u32CurrentCluster + 1) % U32_MOD < u32FileEnd then
        (u32CurrentCluster + 1) % U32_MOD
      else 0xFFFFFFF8
    (store st.1 (pu8Buffer + u32Index)
      (0xFF &&& (u32FATEntry >>> (8 * (3 - (u32ByteAddress &&& 0x3))))), u32FileEnd)

/-- Copies the file allocation table to a given buffer. -/
def ReadFAT (MASS_BLOCK_COUNT : Nat) (files : List S_FILE_DESCRIPTOR)
    (u32BlockOffset pu8Buffer u32BufferSize : Nat) (mem : Memory) : Memory :=
  (forLoop (ReadFAT.step MASS_BLOCK_COUNT files u32BlockOffset pu8Buffer) u32BufferSize 0
    (mem, (FIRST_FILE_BLOCK * MASS_BLOCK_SIZE) % U32_MOD)).1

/-- The value of `u32FATEntry` at the end of the iteration of `ReadFAT` for the FAT byte
address `u32ByteAddress`, when the iteration is entered with the given `u32FileEnd`. -/
def ReadFAT.entry (MASS_BLOCK_COUNT : Nat) (files : List S_FILE_DESCRIPTOR)
    (u32ByteAddress u32FileEnd : Nat) : Nat :=
  if u32ByteAddress < 4 then
    0xFFFFFF00 ||| (cau8BootBlockData MASS_BLOCK_COUNT).getD 21 0
  else
    let u32CurrentCluster := (MASS_BLOCK_SIZE * ((u32ByteAddress - 4) / 4)) % U32_MOD
    let r := ReadFAT.scan MASS_BLOCK_COUNT u32CurrentCluster
      (files.take (gcu8NumFilesOnDrive files)) 0 u32FileEnd
    if r.1 ≥ gcu8NumFilesOnDrive files then 0xFFFFFFF7
    else if (u32CurrentCluster + 1) % U32_MOD < r.2 then (u32CurrentCluster + 1) % U32_MOD
    else 0xFFFFFFF8

/-- The loop of `ReadRootDir` that adds up the clusters of the files before the entry,
starting from `FIRST_FILE_BLOCK`. -/
def ReadRootDir.startCluster (visited : List S_FILE_DESCRIPTOR) : Nat :=
  visited.foldl (fun u32StartCluster f => (u32StartCluster + clusterCount f.u32FileSize) % U32_MOD)
    FIRST_FILE_BLOCK

/-- The value of `u8Ret` for the root directory byte address `u32ByteAddress`. -/
def ReadRootDir.byte (files : List S_FILE_DESCRIPTOR) (u32ByteAddress : Nat) : Nat :=
  if 32 > u32ByteAddress then
    cau8VolumeLabel.getD u32ByteAddress 0
  else if (32 * (1 + gcu8NumFilesOnDrive files)) % U32_MOD > u32ByteAddress then
    let u32StartCluster := ReadRootDir.startCluster (files.take (u32ByteAddress / 32 - 1))
    let u8FileIndex := (u32ByteAddress / 32 - 1) % U8_MOD
    let u8OffsetIndex := (u32ByteAddress % 32) % U8_MOD
    if 11 > u8OffsetIndex then
      (fileAt files u8FileIndex).au8FileName.getD u8OffsetIndex 0
    else if 11 = u8OffsetIndex then
      if (fileAt files u8FileIndex).pWriteHandler.isNone then 0x01 else 0x00
    else if 12 = u8OffsetIndex then 0x00
    else if 13 = u8OffsetIndex then 0x00
    else if 16 > u8OffsetIndex then
      (fileAt files u8FileIndex).au8FileTime.getD (u8OffsetIndex - 14) 0
    else if 18 > u8OffsetIndex then
      (fileAt files u8FileIndex).au8FileDate.getD (u8OffsetIndex - 16) 0
    else if 20 > u8OffsetIndex then
      (fileAt files u8FileIndex).au8FileDate.getD (u8OffsetIndex - 18) 0
    else if 22 > u8OffsetIndex then
      0xFF &&& (u32StartCluster >>> (16 + 8 * (u8OffsetIndex &&& 0x1)))
    else if 24 > u8OffsetIndex then
      (fileAt files u8FileIndex).au8FileTime.getD (u8OffsetIndex - 22) 0
    else if 26 > u8OffsetIndex then
      (fileAt files u8FileIndex).au8FileDate.getD (u8OffsetIndex - 24) 0
    else if 28 > u8OffsetIndex then
      0xFF &&& (u32StartCluster >>> (0 + 8 * (u8OffsetIndex &&& 0x1)))
    else
      0xFF &&& (((fileAt files u8FileIndex).u32FileSize % U32_MOD) >>> (8 * (u8OffsetIndex &&& 0x3)))
  else
    0

/-- Reads the root directory including the volume descriptor. -/
def ReadRootDir (files : List S_FILE_DESCRIPTOR)
    (u32BlockOffset pu8Buffer u32BufferSize : Nat) (mem : Memory) : Memory :=
  forLoop (fun u32Index m =>
      let u32ByteAddress := (u32BlockOffset * MASS_BLOCK_SIZE + u32Index) % U32_MOD
      store m (pu8Buffer + u32Index) (ReadRootDir.byte files u32ByteAddress))
    u32BufferSize 0 mem

/-- The file search loop of `ReadFile`, over the table entries not yet visited; the result
is the pair `(u8FileIndex, u32FileEnd)` on leaving the loop. -/
def ReadFile.scan (MASS_BLOCK_COUNT u32BlockOffset : Nat) :
    List S_FILE_DESCRIPTOR → Nat → Nat → Nat × Nat
  | [], u8FileIndex, u32FileEnd => (u8FileIndex, u32FileEnd)
  | f :: rest, u8FileIndex, u32FileEnd =>
    let u32FileSize := f.u32FileSize
    let u32FileEnd := (u32FileEnd + clustersByCount MASS_BLOCK_COUNT u32FileSize) % U32_MOD
    if u32BlockOffset < u32FileEnd then (u8FileIndex, u32FileEnd)
    else ReadFile.scan MASS_BLOCK_COUNT u32BlockOffset rest (u8FileIndex + 1) u32FileEnd

/-- Reads the contents of files. -/
def ReadFile (MASS_BLOCK_COUNT : Nat) (files : List S_FILE_DESCRIPTOR)
    (u32BlockOffset pu8Buffer u32BufferSize : Nat) (s : State) : State :=
  let r := ReadFile.scan MASS_BLOCK_COUNT u32BlockOffset
    (files.take (gcu8NumFilesOnDrive files)) 0 0
  let u8FileIndex := r.1
  let u32FileEnd := r.2
  if u8FileIndex ≥ gcu8NumFilesOnDrive files then
    s
  else
    let u32FileOffset := u32Sub u32FileEnd u32BlockOffset
    if (fileAt files u8FileIndex).eReadCallbackType = E_READ_CB_PTR_TYPE.CONST_DATA_FILE then
      { s with env := { s.env with
          mem := forLoop (fun u32Index m =>
              store m (pu8Buffer + u32Index)
                ((fileAt files u8FileIndex).uReadHandler.pu8ConstantArray
                  ((u32FileOffset + u32Index) % U32_MOD)))
            u32BufferSize 0 s.env.mem } }
    else
      match (fileAt files u8FileIndex).uReadHandler.pFuncRead with
      | none => s
      | some pFuncRead =>
        { s with
          env := pFuncRead u32FileOffset pu8Buffer u32BufferSize s.env
          calls := s.calls ++ [FileCall.read u8FileIndex u32FileOffset pu8Buffer u32BufferSize] }

/-- One iteration of the loop of `USBMediumAccess_Read`, for the loop counter `u32Index`. -/
def USBMediumAccess_Read.body (MASS_BLOCK_COUNT : Nat) (files : List S_FILE_DESCRIPTOR)
    (u32StartBlock pu8Buffer u32Index : Nat) (s : State) : State :=
  let u32CurrentBlock := (u32StartBlock + u32Index) % U32_MOD
  if 0 = u32CurrentBlock ∨ 6 = u32CurrentBlock then
    { s with env := { s.env with
        mem := ReadBootBlock MASS_BLOCK_COUNT 0 (pu8Buffer + u32Index) MASS_BLOCK_SIZE s.env.mem } }
  else if 1 = u32CurrentBlock ∨ 7 = u32CurrentBlock then
    { s with env := { s.env with
        mem := ReadFSInfo 0 (pu8Buffer + u32Index) MASS_BLOCK_SIZE s.env.mem } }
  else if FAT_BLOCKS_START + 2 * NUM_FAT_BLOCKS > u32CurrentBlock then
    if 65 ≥ u32CurrentBlock then
      { s with env := { s.env with
          mem := ReadFAT MASS_BLOCK_COUNT files (u32Sub u32CurrentBlock 65)
            (pu8Buffer + u32Index) MASS_BLOCK_SIZE s.env.mem } }
    else
      { s with env := { s.env with
          mem := ReadFAT MASS_BLOCK_COUNT files u32CurrentBlock
            (pu8Buffer + u32Index) MASS_BLOCK_SIZE s.env.mem } }
  else if FIRST_FILE_BLOCK > u32CurrentBlock then
    { s with env := { s.env with
        mem := ReadRootDir files (u32CurrentBlock - 128)
          (pu8Buffer + u32Index) MASS_BLOCK_SIZE s.env.mem } }
  else
    ReadFile MASS_BLOCK_COUNT files (u32CurrentBlock - FIRST_FILE_BLOCK) (pu8Buffer + u32Index)
      MASS_BLOCK_SIZE
      { s with env := { s.env with
          mem := memset (pu8Buffer + u32Index) 0 MASS_BLOCK_SIZE s.env.mem } }

/-- Reads blocks from the virtual media. -/
def USBMediumAccess_Read (MASS_BLOCK_COUNT : Nat) (files : List S_FILE_DESCRIPTOR)
    (u32StartBlock pu8Buffer u32BlockNum : Nat) (s : State) : State :=
  forLoop (USBMediumAccess_Read.body MASS_BLOCK_COUNT files u32StartBlock pu8Buffer)
    u32BlockNum 0 s

end USBMediumAccessFat32

/-! ## game/tetris.c: the playfield and the tetroid -/

namespace Tetris

/-- Playfield horizontal size in blocks. -/
abbrev PLAYFIELD_SIZE_X : Nat := 10

/-- Playfield vertical size in blocks. -/
abbrev PLAYFIELD_SIZE_Y : Nat := 20

/-- Maximum horizontal size of the tetroid in blocks. -/
abbrev TETROID_SIZE_X : Nat := 4

/-- Maximum vertical size of the tetroid in blocks. -/
abbrev TETROID_SIZE_Y : Nat := 4

/-- A two-dimensional `BOOL` array `a[x][y]`.  The function is total: its values outside the
declared bounds stand for what an index outside the array reads. -/
abbrev Grid := Nat → Nat → Bool

/-- The assignment `a[x][y] = v`. -/
def setCell (a : Grid) (x y : Nat) (v : Bool) : Grid :=
  fun i j => if i = x ∧ j = y then v else a i j

/-- The static variables of tetris.c that `FixTetroid`, `RollNewTetroid` and `RotateTetroid`
use. -/
structure Game where
  gabBlocks : Grid
  gabTetroid : Grid
  gi8TetroidX : Int
  gi8TetroidY : Int
  gu32Score : Nat

/-- The test "the coordinate is inside the tetroid boundaries" of `FixTetroid`.  The sums
`gi8TetroidX + TETROID_SIZE_X` and `gi8TetroidY + TETROID_SIZE_Y` have an unsigned operand
and are computed in `unsigned int`; the comparisons `>=` are between `int` values. -/
def insideTetroid (g : Game) (u8IndexX u8IndexY : Nat) : Bool :=
  decide ((u8IndexX : Int) ≥ g.gi8TetroidX)
  && decide ((u8IndexX : Int) < (g.gi8TetroidX + (TETROID_SIZE_X : Int)) % (U32_MOD : Int))
  && decide ((u8IndexY : Int) ≥ g.gi8TetroidY)
  && decide ((u8IndexY : Int) < (g.gi8TetroidY + (TETROID_SIZE_Y : Int)) % (U32_MOD : Int))

/-- The first loop nest of `FixTetroid`: the blocks of the tetroid are set in the playfield. -/
def FixTetroid.merge (g : Game) : Grid :=
  forLoop (fun u8IndexX b =>
      forLoop (fun u8IndexY b =>
          if insideTetroid g u8IndexX u8IndexY = true then
            if g.gabTetroid ((u8IndexX : Int) - g.gi8TetroidX).toNat
                ((u8IndexY : Int) - g.gi8TetroidY).toNat = true then
              setCell b u8IndexX u8IndexY true
            else b
          else b)
        PLAYFIELD_SIZE_Y 0 b)
    PLAYFIELD_SIZE_X 0 g.gabBlocks

/-- The loop of `FixTetroid` that checks if the line `u8IndexY` is full: the value of
`bFullLine` after it. -/
def FixTetroid.lineFull (b : Grid) (u8IndexY : Nat) : Bool :=
  forLoop (fun u8IndexX bFullLine =>
      if b u8IndexX u8IndexY = false then false else bFullLine)
    PLAYFIELD_SIZE_X 0 true

/-- The loop nest of `FixTetroid` that moves everything one line down, `u8Iter` running from
`u8IndexY` while it is below `PLAYFIELD_SIZE_Y - 1`. -/
def FixTetroid.moveDown (b : Grid) (u8IndexY : Nat) : Grid :=
  forLoop (fun u8Iter b =>
      forLoop (fun u8IndexX b => setCell b u8IndexX u8Iter (b u8IndexX (u8Iter + 1)))
        PLAYFIELD_SIZE_X 0 b)
    (PLAYFIELD_SIZE_Y - 1 - u8IndexY) u8IndexY b

/-- The `while( u8IndexY < PLAYFIELD_SIZE_Y )` loop of `FixTetroid` on the state
`(gabBlocks, u8IndexY, u32ScoreIncrease)`, run for at most `fuel` passes of its body: the
state on leaving the loop, or `none` when the loop is still running after `fuel` passes. -/
def FixTetroid.lines : Nat → Grid × Nat × Nat → Option (Grid × Nat × Nat)
  | 0, st => if st.2.1 < PLAYFIELD_SIZE_Y then none else some st
  | fuel + 1, st =>
    if st.2.1 < PLAYFIELD_SIZE_Y then
      if FixTetroid.lineFull st.1 st.2.1 = true then
        FixTetroid.lines fuel (FixTetroid.moveDown st.1 st.2.1, st.2.1, (st.2.2 * 10) % U32_MOD)
      else
        FixTetroid.lines fuel (st.1, (st.2.1 + 1) % U8_MOD, st.2.2)
    else some st

/-- Generates a new tetroid; `rand` is the value returned by `rand()`. -/
def RollNewTetroid (rand : Nat) (gabTetroid : Grid) : Grid :=
  let u8TypeIndex := (rand % 7) % U8_MOD
  let t : Grid := fun x y => if x < TETROID_SIZE_X ∧ y < TETROID_SIZE_Y then false
    else gabTetroid x y
  if u8TypeIndex = 0 then
    setCell (setCell (setCell (setCell t 1 3 true) 1 2 true) 1 1 true) 1 0 true
  else if u8TypeIndex = 1 then
    setCell (setCell (setCell (setCell t 2 3 true) 2 2 true) 2 1 true) 1 1 true
  else if u8TypeIndex = 2 then
    setCell (setCell (setCell (setCell t 1 3 true) 1 2 true) 1 1 true) 2 1 true
  else if u8TypeIndex = 3 then
    setCell (setCell (setCell (setCell t 1 2 true) 2 2 true) 1 1 true) 2 1 true
  else if u8TypeIndex = 4 then
    setCell (setCell (setCell (setCell t 1 2 true) 2 2 true) 1 1 true) 0 1 true
  else if u8TypeIndex = 5 then
    setCell (setCell (setCell (setCell t 0 2 true) 1 2 true) 2 2 true) 1 1 true
  else if u8TypeIndex = 6 then
    setCell (setCell (setCell (setCell t 0 2 true) 1 2 true) 1 1 true) 2 1 true
  else t

/-- Makes the tetroid part of the playfield.  `fuel` bounds the passes of the `while` loop
and `rand` is the value `rand()` returns in `RollNewTetroid`; the result is `none` when the
loop has not ended within `fuel` passes. -/
def FixTetroid (fuel rand : Nat) (g : Game) : Option Game :=
  match FixTetroid.lines fuel (FixTetroid.merge g, 0, 1) with
  | none => none
  | some st =>
    some { gabBlocks := st.1
           gabTetroid := RollNewTetroid rand g.gabTetroid
           gi8TetroidX := ((PLAYFIELD_SIZE_X - TETROID_SIZE_X) / 2 : Nat)
           gi8TetroidY := ((PLAYFIELD_SIZE_Y - 1 : Nat) : Int)
           gu32Score := (g.gu32Score + st.2.2) % U32_MOD }

/-- Rotates the current tetroid.  `abRotatedTetroid` is the content of the local array on
entry, which is not initialised; the `memcpy` at the end copies its 4 x 4 cells. -/
def RotateTetroid (bClockWise : Bool) (abRotatedTetroid gabTetroid : Grid) : Grid :=
  let r := forLoop (fun u8IndexX r =>
      forLoop (fun u8IndexY r =>
          if bClockWise = true then
            setCell r (TETROID_SIZE_Y - u8IndexY - 1) u8IndexX (gabTetroid u8IndexX u8IndexY)
          else
            setCell r u8IndexY (TETROID_SIZE_X - u8IndexX - 1) (gabTetroid u8IndexX u8IndexY))
        TETROID_SIZE_Y 0 r)
    TETROID_SIZE_X 0 abRotatedTetroid
  fun x y => if x < TETROID_SIZE_X ∧ y < TETROID_SIZE_Y then r x y else gabTetroid x y

/-- The number of full lines among the `n` lines `u8IndexY, u8IndexY + 1, ...` of a
playfield, a line being full when the check of `FixTetroid` finds it full. -/
def fullLines (b : Grid) : Nat → Nat → Nat
  | _, 0 => 0
  | u8IndexY, n + 1 =>
    (if FixTetroid.lineFull b u8IndexY = true then 1 else 0) + fullLines b (u8IndexY + 1) n

/-- A game whose playfield has every block set, with an empty tetroid at the place where
`FixTetroid` puts a new one. -/
def fullPlayfield : Game :=
  { gabBlocks := fun _ _ => true
    gabTetroid := fun _ _ => false
    gi8TetroidX := 3
    gi8TetroidY := 19
    gu32Score := 0 }

/-- A game whose lowest line lacks the two blocks at `x = 4` and `x = 5`, all other lines
being empty, with the square tetroid placed so that it fills them. -/
def lastGap : Game :=
  { gabBlocks := fun x y => decide (y = 0 ∧ x ≠ 4 ∧ x ≠ 5)
    gabTetroid := fun x y => decide ((x = 1 ∨ x = 2) ∧ (y = 1 ∨ y = 2))
    gi8TetroidX := 3
    gi8TetroidY := -1
    gu32Score := 7 }

end Tetris

/-! ## src/buttons.c: the button matrix -/

namespace Buttons

/-- Number of rows (outputs with 1 as default output). -/
abbrev BUTTONS_NUM_ROWS : Nat := 3

/-- Number of columns (inputs with pull-up resistor). -/
abbrev BUTTONS_NUM_COLS : Nat := 3

/-- Number of buttons present. -/
abbrev NUM_BUTTONS : Nat := BUTTONS_NUM_ROWS * BUTTONS_NUM_COLS

/-- Button bounce time period in msec. -/
abbrev BOUNCE_PERIOD : Nat := 50

/-- Each push button has a state like this. -/
inductive E_BUTTONS_STATE where
  | BUTTON_INACTIVE
  | BUTTON_BOUNCING
  | BUTTON_ACTIVE
  | BUTTON_RELEASING
  deriving DecidableEq, Repr

/-- Modelled from the spec: `E_BUTTONS_EVENT` is used by buttons.c and tetris.c but is
declared in no header among the sources; its values are the three the code names. -/
inductive E_BUTTONS_EVENT where
  | BUTTON_NOEVENT
  | BUTTON_PRESSED
  | BUTTON_RELEASED
  deriving DecidableEq, Repr

/-- The variables of buttons.c: the three global arrays, the static `u32RowIndex` of
`Buttons_TimerIT`, and the trace of the writes to the row pins (row index and level, oldest
first). -/
structure Matrix where
  gaeButtonsState : Nat → E_BUTTONS_STATE
  gaeButtonsEvent : Nat → E_BUTTONS_EVENT
  gau32ButtonsTimer : Nat → Nat
  u32RowIndex : Nat
  rowWrites : List (Nat × GPIO_PinState)

/-- The assignment `a[k] = v`. -/
def setAt {α : Type} (a : Nat → α) (k : Nat) (v : α) : Nat → α :=
  fun i => if i = k then v else a i

/-- One iteration of the "sample columns" loop of `Buttons_TimerIT`, for the column
`u32Index`.  `pinSet` tells whether `HAL_GPIO_ReadPin` returns `GPIO_PIN_SET` for the column,
`tick` is the value of `HAL_GetTick()`.  The test `else if( BUTTON_ACTIVE )` is on a non-zero
constant, so the branch with `Error_Handler` is never taken. -/
def Buttons_TimerIT.column (pinSet : Nat → Bool) (tick : Nat) (u32Index : Nat) (m : Matrix) :
    Matrix :=
  let k := (m.u32RowIndex * BUTTONS_NUM_ROWS + u32Index) % U32_MOD
  let eState := m.gaeButtonsState k
  if pinSet u32Index = true then
    if E_BUTTONS_STATE.BUTTON_INACTIVE = eState then
      { m with
        gau32ButtonsTimer := setAt m.gau32ButtonsTimer k ((tick + BOUNCE_PERIOD) % U32_MOD)
        gaeButtonsState := setAt m.gaeButtonsState k E_BUTTONS_STATE.BUTTON_BOUNCING }
    else if E_BUTTONS_STATE.BUTTON_BOUNCING = eState then
      if m.gau32ButtonsTimer k > tick then
        { m with
          gaeButtonsState := setAt m.gaeButtonsState k E_BUTTONS_STATE.BUTTON_ACTIVE
          gaeButtonsEvent := setAt m.gaeButtonsEvent k E_BUTTONS_EVENT.BUTTON_PRESSED }
      else m
    else if E_BUTTONS_STATE.BUTTON_RELEASING = eState then
      { m with
        gau32ButtonsTimer := setAt m.gau32ButtonsTimer k ((tick + BOUNCE_PERIOD) % U32_MOD) }
    else m
  else
    if E_BUTTONS_STATE.BUTTON_INACTIVE = eState then m
    else if E_BUTTONS_STATE.BUTTON_BOUNCING = eState then
      { m with
        gau32ButtonsTimer := setAt m.gau32ButtonsTimer k ((tick + BOUNCE_PERIOD) % U32_MOD) }
    else if E_BUTTONS_STATE.BUTTON_RELEASING = eState then
      if m.gau32ButtonsTimer k > tick then
        { m with
          gaeButtonsState := setAt m.gaeButtonsState k E_BUTTONS_STATE.BUTTON_INACTIVE
          gaeButtonsEvent := setAt m.gaeButtonsEvent k E_BUTTONS_EVENT.BUTTON_RELEASED }
      else m
    else
      { m with
        gau32ButtonsTimer := setAt m.gau32ButtonsTimer k ((tick + BOUNCE_PERIOD) % U32_MOD)
        gaeButtonsState := setAt m.gaeButtonsState k E_BUTTONS_STATE.BUTTON_RELEASING }

/-- Callback from msec timer routine.  The tick counter does not advance during the call. -/
def Buttons_TimerIT (pinSet : Nat → Bool) (tick : Nat) (m : Matrix) : Matrix :=
  let m1 := forLoop (Buttons_TimerIT.column pinSet tick) BUTTONS_NUM_COLS 0 m
  let m2 := { m1 with
    rowWrites := m1.rowWrites ++ [(m1.u32RowIndex, GPIO_PinState.GPIO_PIN_RESET)] }
  let u32RowIndex := (m2.u32RowIndex + 1) % U32_MOD
  let u32RowIndex := if u32RowIndex ≥ BUTTONS_NUM_ROWS then 0 else u32RowIndex
  { m2 with
    u32RowIndex := u32RowIndex
    rowWrites := m2.rowWrites ++ [(u32RowIndex, GPIO_PinState.GPIO_PIN_SET)] }

/-- A matrix in which button `k` is in the given state with the given debounce timer, every
other button being inactive, with no event pending and row `row` being scanned. -/
def oneButton (k : Nat) (e : E_BUTTONS_STATE) (timer row : Nat) : Matrix :=
  { gaeButtonsState := fun i => if i = k then e else E_BUTTONS_STATE.BUTTON_INACTIVE
    gaeButtonsEvent := fun _ => E_BUTTONS_EVENT.BUTTON_NOEVENT
    gau32ButtonsTimer := fun i => if i = k then timer else 0
    u32RowIndex := row
    rowWrites := [] }

end Buttons

/-! ## src/sound_synth.c: the oscillators -/

namespace SoundSynth

/-- ADSR state machine state. -/
inductive E_ADSR_STATE where
  | ADSR_ATTACK
  | ADSR_DECAY
  | ADSR_SUSTAIN
  | ADSR_RELEASE
  deriving DecidableEq, Repr

/-- Oscillator type.  `pi16WaveTable` is the memory read through the pointer: index ↦ word,
also past the `u16WaveTableSize` words of the table. -/
structure S_SYNTH_OSCILLATOR where
  u32Phase : Nat
  u32PhaseIncrease : Nat
  pi16WaveTable : Nat → Int
  u16WaveTableSize : Nat
  eADSRState : E_ADSR_STATE
  u16ADSROutput : Nat
  u32ADSRTimer : Nat
  u32Attack : Nat
  u32Decay : Nat
  u16Sustain : Nat
  u32Release : Nat

/-- Number of values of a `U64`. -/
abbrev U64_MOD : Nat := 18446744073709551616

/-- One iteration of the first loop of `SoundSynth_Sample`: the phase of the oscillator is
increased. -/
def SoundSynth_Sample.phase (o : S_SYNTH_OSCILLATOR) : S_SYNTH_OSCILLATOR :=
  let u32Phase := o.u32PhaseIncrease
  let o1 := { o with u32Phase := (o.u32Phase + u32Phase) % U32_MOD }
  if o1.u32Phase > (o1.u16WaveTableSize <<< 16) % U32_MOD then
    let u32Phase := (o1.u16WaveTableSize <<< 16) % U32_MOD
    { o1 with u32Phase := u32Sub o1.u32Phase u32Phase }
  else o1

/-- One iteration of the second loop of `SoundSynth_Sample`: the ADSR envelope generator. -/
def SoundSynth_Sample.envelope (o : S_SYNTH_OSCILLATOR) : S_SYNTH_OSCILLATOR :=
  match o.eADSRState with
  | E_ADSR_STATE.ADSR_ATTACK =>
    let u16ADSR :=
      if 0 ≠ o.u32Attack then ((0xFFFF * o.u32ADSRTimer) % U64_MOD / o.u32Attack) % U16_MOD
      else 0xFFFF
    let o1 := { o with u32ADSRTimer := (o.u32ADSRTimer + 1) % U32_MOD }
    let o2 :=
      if o1.u32ADSRTimer > o1.u32Attack then
        { o1 with u32ADSRTimer := 0, eADSRState := E_ADSR_STATE.ADSR_DECAY }
      else o1
    { o2 with u16ADSROutput := u16ADSR }
  | E_ADSR_STATE.ADSR_DECAY =>
    let u16ADSR :=
      if 0 ≠ o.u32Decay then
        ((0xFFFF + (U64_MOD
            - (((0xFFFF - o.u16Sustain) * o.u32ADSRTimer) % U64_MOD / o.u32Decay) % U64_MOD))
          % U64_MOD) % U16_MOD
      else o.u16Sustain
    let o1 := { o with u32ADSRTimer := (o.u32ADSRTimer + 1) % U32_MOD }
    let o2 :=
      if o1.u32ADSRTimer > o1.u32Decay then
        { o1 with u32ADSRTimer := 0, eADSRState := E_ADSR_STATE.ADSR_SUSTAIN }
      else o1
    { o2 with u16ADSROutput := u16ADSR }
  | E_ADSR_STATE.ADSR_SUSTAIN =>
    { o with u16ADSROutput := o.u16Sustain }
  | E_ADSR_STATE.ADSR_RELEASE =>
    let u16ADSR :=
      if 0 ≠ o.u32Release then
        ((o.u16Sustain * u32Sub o.u32Release o.u32ADSRTimer) % U64_MOD / o.u32Release)
          % U16_MOD
      else 0
    let o1 :=
      if o.u32ADSRTimer < o.u32Release then
        { o with u32ADSRTimer := (o.u32ADSRTimer + 1) % U32_MOD }
      else o
    { o1 with u16ADSROutput := u16ADSR }

/-- The oscillators when the mixer loop of `SoundSynth_Sample` starts: every oscillator has
gone through the first and the second loop.  The list is `gasOscillators`. -/
def SoundSynth_Sample.beforeMixer (gasOscillators : List S_SYNTH_OSCILLATOR) :
    List S_SYNTH_OSCILLATOR :=
  (gasOscillators.map SoundSynth_Sample.phase).map SoundSynth_Sample.envelope

/-- The index at which the mixer loop reads the wavetable of an oscillator:
`gasOscillators[ u8Index ].u32Phase>>16u`. -/
def SoundSynth_Sample.mixerIndex (o : S_SYNTH_OSCILLATOR) : Nat := o.u32Phase >>> 16

/-- The wavetable indexes the mixer loop of one call of `SoundSynth_Sample` reads, one per
oscillator. -/
def SoundSynth_Sample.indexes (gasOscillators : List S_SYNTH_OSCILLATOR) : List Nat :=
  (SoundSynth_Sample.beforeMixer gasOscillators).map SoundSynth_Sample.mixerIndex

/-- An oscillator in the release section with the given table size, phase and phase
increase; its table holds zeros. -/
def oscillator (size phase increase : Nat) : S_SYNTH_OSCILLATOR :=
  { u32Phase := phase
    u32PhaseIncrease := increase
    pi16WaveTable := fun _ => 0
    u16WaveTableSize := size
    eADSRState := E_ADSR_STATE.ADSR_RELEASE
    u16ADSROutput := 0
    u32ADSRTimer := 0
    u32Attack := 0
    u32Decay := 0
    u16Sustain := 0xFFFF
    u32Release := 0 }

end SoundSynth

/-! ## Notions used to state the properties -/

/-- Spec: a file of `size` bytes spans `ceil(size / blockSize)` clusters. -/
def specClusters (size : Nat) : Nat := (size + 511) / 512

/-- Spec: the total cluster count of all files. -/
def specTotal (files : List S_FILE_DESCRIPTOR) : Nat :=
  (files.map (fun g => specClusters g.u32FileSize)).sum

/-- The clusters the code counts for the given table entries: the sum of their
`clusterCount`. -/
def codeSum (l : List S_FILE_DESCRIPTOR) : Nat :=
  (l.map (fun g => clusterCount g.u32FileSize)).sum

/-- A buffer memory with every byte zero. -/
def zeroMemory : Memory := fun _ => 0

/-- Spec: the hour of a packed 16-bit DOS time, bits 15..11. -/
def dosTimeHour (t : Nat) : Nat := t / 2048

/-- Spec: the minute of a packed 16-bit DOS time, bits 10..5. -/
def dosTimeMinute (t : Nat) : Nat := (t / 32) % 64

/-- Spec: the second of a packed 16-bit DOS time, bits 4..0 in units of two seconds. -/
def dosTimeSecond (t : Nat) : Nat := 2 * (t % 32)

namespace USBMediumAccess

/-- The byte at FAT byte address `a`: what `ReadFAT` stores for it when it is asked for the
block that holds the address. -/
def fatByteAt (MASS_BLOCK_COUNT : Nat) (files : List S_FILE_DESCRIPTOR) (a : Nat) : Nat :=
  ReadFAT MASS_BLOCK_COUNT files (a / MASS_BLOCK_SIZE) 0 MASS_BLOCK_SIZE zeroMemory
    (a % MASS_BLOCK_SIZE)

/-- The 16-bit FAT entry number `n`, decoded little-endian from FAT bytes `2n` and `2n+1`. -/
def fatEntry16 (MASS_BLOCK_COUNT : Nat) (files : List S_FILE_DESCRIPTOR) (n : Nat) : Nat :=
  fatByteAt MASS_BLOCK_COUNT files (2 * n) + 256 * fatByteAt MASS_BLOCK_COUNT files (2 * n + 1)

/-- The byte at root directory byte address `a`: what `ReadRootDir` stores for it when it
is asked for the block that holds the address. -/
def rootDirByteAt (files : List S_FILE_DESCRIPTOR) (a : Nat) : Nat :=
  ReadRootDir files (a / MASS_BLOCK_SIZE) 0 MASS_BLOCK_SIZE zeroMemory (a % MASS_BLOCK_SIZE)

/-- A constant-buffer file without write handler, of the given size and contents. -/
def constFile (size : Nat) (data : Memory) : S_FILE_DESCRIPTOR :=
  { au8FileName := ['D'.toNat, 'A'.toNat, 'T'.toNat, 'A'.toNat, ' '.toNat, ' '.toNat,
      ' '.toNat, ' '.toNat, 'B'.toNat, 'I'.toNat, 'N'.toNat]
    au8FileTime := [TIME_LOW 12 34 56, TIME_HIGH 12 34 56]
    au8FileDate := [DATE_LOW 2023 1 20, DATE_HIGH 2023 1 20]
    u32FileSize := size
    eReadCallbackType := E_READ_CB_PTR_TYPE.CONST_DATA_FILE
    uReadHandler := { pFuncRead := none, pu8ConstantArray := data }
    pWriteHandler := none }

/-- A program state with the given buffer memory, an erased flash chip, no hardware
operation and no callback call so far. -/
def initialState (mem : Memory) : State :=
  { env := { mem := mem
             chip := { contents := fun _ => 0xFF, program := fun m _ _ => m,
                       eraseSector := fun m _ => m }
             ops := [] }
    calls := []
    geMediumState := E_USB_MEDIUM_STATE.USB_MEDIUM_OK }

/-- A call of the interface of the medium, with its arguments. -/
inductive MediumCall where
  | Read (u32StartBlock pu8Buffer u32BlockNum : Nat)
  | Write (u32StartBlock pu8Buffer u32BlockNum : Nat)
  | GetStatus
  | Eject

/-- The state after one call of the interface. -/
def MediumCall.run (MASS_BLOCK_COUNT : Nat) (files : List S_FILE_DESCRIPTOR) :
    MediumCall → State → State
  | MediumCall.Read u32StartBlock pu8Buffer u32BlockNum, s =>
    USBMediumAccess_Read MASS_BLOCK_COUNT files u32StartBlock pu8Buffer u32BlockNum s
  | MediumCall.Write u32StartBlock pu8Buffer u32BlockNum, s =>
    USBMediumAccess_Write files u32StartBlock pu8Buffer u32BlockNum s
  | MediumCall.GetStatus, s => (USBMediumAccess_GetStatus s).2
  | MediumCall.Eject, s => USBMediumAccess_Eject s

/-- The state after a sequence of calls of the interface, first call first. -/
def runCalls (MASS_BLOCK_COUNT : Nat) (files : List S_FILE_DESCRIPTOR)
    (calls : List MediumCall) (s : State) : State :=
  calls.foldl (fun t call => call.run MASS_BLOCK_COUNT files t) s

/-- A read callback that stores only into the `u32Size` bytes it is handed, stores there
bytes that depend on nothing but its arguments and the contents of the flash chip, and
leaves the chip as it is. -/
def PureReadHandler (g : pFileCallBackFunction) : Prop :=
  ∀ (u32FileOffset pu8Buffer u32Size : Nat) (env env' : Env),
    env.chip.contents = env'.chip.contents →
    (g u32FileOffset pu8Buffer u32Size env).chip = env.chip
    ∧ ∀ k, (g u32FileOffset pu8Buffer u32Size env).mem k
        = if pu8Buffer ≤ k ∧ k < pu8Buffer + u32Size then
            (g u32FileOffset pu8Buffer u32Size env').mem k
          else env.mem k

/-- The byte at offset `o` of the boot block: what `ReadBootBlock` stores for it when it is
asked for the whole block. -/
def bootByteAt (MASS_BLOCK_COUNT o : Nat) : Nat :=
  ReadBootBlock MASS_BLOCK_COUNT 0 0 MASS_BLOCK_SIZE zeroMemory o

/-- The 16-bit field of the boot block at offsets `o` and `o + 1`, decoded little-endian. -/
def bootField16 (MASS_BLOCK_COUNT o : Nat) : Nat :=
  bootByteAt MASS_BLOCK_COUNT o + 256 * bootByteAt MASS_BLOCK_COUNT (o + 1)

/-- The 16-bit time of the directory entry of file `f`, decoded little-endian from entry
bytes 14 and 15 (creation time). -/
def dirEntryTime (files : List S_FILE_DESCRIPTOR) (f : Nat) : Nat :=
  rootDirByteAt files (32 * (f + 1) + 14) + 256 * rootDirByteAt files (32 * (f + 1) + 15)

end USBMediumAccess

/-! ## Loops and stores -/

theorem forLoop_store_apply (g : Nat → Nat) (p : Nat) (n i0 : Nat) (m : Memory) (k : Nat) :
    forLoop (fun i m => store m (p + i) (g i)) n i0 m k
      = if p + i0 ≤ k ∧ k < p + i0 + n then g (k - p) else m k := by
  induction n generalizing i0 m with
  | zero =>
    have h : ¬ (p + i0 ≤ k ∧ k < p + i0 + 0) := by omega
    rw [forLoop, if_neg h]
  | succ n ih =>
    rw [forLoop, ih]
    by_cases h1 : p + (i0 + 1) ≤ k ∧ k < p + (i0 + 1) + n
    · have h2 : p + i0 ≤ k ∧ k < p + i0 + (n + 1) := by omega
      rw [if_pos h1, if_pos h2]
    · rw [if_neg h1]
      unfold store
      by_cases h3 : k = p + i0
      · subst h3
        have h2 : p + i0 ≤ p + i0 ∧ p + i0 < p + i0 + (n + 1) := by omega
        rw [if_pos rfl, if_pos h2]
        congr 1
        omega
      · have h2 : ¬ (p + i0 ≤ k ∧ k < p + i0 + (n + 1)) := by omega
        rw [if_neg h3, if_neg h2]

theorem memset_apply (p c n : Nat) (m : Memory) (k : Nat) :
    memset p c n m k = if p ≤ k ∧ k < p + n then c else m k := by
  unfold memset
  rw [forLoop_store_apply (fun _ => c) p n 0 m k]
  simp

namespace USBMediumAccess

theorem cau8BootBlockData_length (MASS_BLOCK_COUNT : Nat) :
    (cau8BootBlockData MASS_BLOCK_COUNT).length = 62 := by
  simp [cau8BootBlockData]

theorem ReadBootBlock_block_apply (MASS_BLOCK_COUNT p : Nat) (m : Memory) (k : Nat) :
    ReadBootBlock MASS_BLOCK_COUNT 0 p MASS_BLOCK_SIZE m k
      = if p ≤ k ∧ k < p + 512 then ReadBootBlock.byte MASS_BLOCK_COUNT (k - p) else m k := by
  unfold ReadBootBlock
  rw [forLoop_store_apply (fun i => ReadBootBlock.byte MASS_BLOCK_COUNT (0 + i)) p _ 0 m k]
  simp [MASS_BLOCK_SIZE, U32_MOD]

theorem ReadBootBlock_byte_1 (c : Nat) : ReadBootBlock.byte c 1 = 0x3E := rfl

theorem ReadBootBlock_byte_510 (c : Nat) : ReadBootBlock.byte c 510 = 0x55 := rfl

theorem ReadBootBlock_byte_511 (c : Nat) : ReadBootBlock.byte c 511 = 0xAA := rfl

theorem cau8BootBlockData_media (c : Nat) : (cau8BootBlockData c).getD 21 0 = 0xF0 := rfl

theorem ReadFAT_entry_0 (c : Nat) (files : List S_FILE_DESCRIPTOR) :
    ReadFAT.entry c files 0 = 0xFFF0 := by
  unfold ReadFAT.entry
  rw [if_pos (by decide), cau8BootBlockData_media]
  rfl

theorem ReadFAT_entry_1 (c : Nat) (files : List S_FILE_DESCRIPTOR) :
    ReadFAT.entry c files 1 = 0xFFF0 := by
  unfold ReadFAT.entry
  rw [if_pos (by decide), cau8BootBlockData_media]
  rfl

theorem ReadFAT_apply (MASS_BLOCK_COUNT : Nat) (files : List S_FILE_DESCRIPTOR)
    (B p n : Nat) (m : Memory) (k : Nat) :
    ReadFAT MASS_BLOCK_COUNT files B p n m k
      = if p ≤ k ∧ k < p + n then
          0xFF &&& (ReadFAT.entry MASS_BLOCK_COUNT files ((B * MASS_BLOCK_SIZE + (k - p)) % U32_MOD)
            >>> (8 * (((B * MASS_BLOCK_SIZE + (k - p)) % U32_MOD) &&& 0x1)))
        else m k := by
  unfold ReadFAT
  rw [forLoop_store_apply (fun i => 0xFF &&& (ReadFAT.entry MASS_BLOCK_COUNT files
      ((B * MASS_BLOCK_SIZE + i) % U32_MOD)
        >>> (8 * (((B * MASS_BLOCK_SIZE + i) % U32_MOD) &&& 0x1)))) p n 0 m k]
  simp

theorem ReadRootDir_apply (files : List S_FILE_DESCRIPTOR) (B p n : Nat) (m : Memory) (k : Nat) :
    ReadRootDir files B p n m k
      = if p ≤ k ∧ k < p + n then
          ReadRootDir.byte files ((B * MASS_BLOCK_SIZE + (k - p)) % U32_MOD)
        else m k := by
  unfold ReadRootDir
  rw [forLoop_store_apply (fun i => ReadRootDir.byte files
      ((B * MASS_BLOCK_SIZE + i) % U32_MOD)) p n 0 m k]
  simp

theorem USBMediumAccess_Read_one (c : Nat) (files : List S_FILE_DESCRIPTOR) (b p : Nat)
    (s : State) :
    USBMediumAccess_Read c files b p 1 s = USBMediumAccess_Read.body c files b p 0 s := rfl

theorem USBMediumAccess_Read_two (c : Nat) (files : List S_FILE_DESCRIPTOR) (b p : Nat)
    (s : State) :
    USBMediumAccess_Read c files b p 2 s
      = USBMediumAccess_Read.body c files b p 1 (USBMediumAccess_Read.body c files b p 0 s) :=
  rfl

end USBMediumAccess

namespace USBMediumAccessFat32

theorem fat32_cau8BootBlockData_length (MASS_BLOCK_COUNT : Nat) :
    (cau8BootBlockData MASS_BLOCK_COUNT).length = 90 := by
  simp [cau8BootBlockData]

theorem fat32_ReadBootBlock_block_apply (MASS_BLOCK_COUNT p : Nat) (m : Memory) (k : Nat) :
    ReadBootBlock MASS_BLOCK_COUNT 0 p MASS_BLOCK_SIZE m k
      = if p ≤ k ∧ k < p + 512 then ReadBootBlock.byte MASS_BLOCK_COUNT (k - p) else m k := by
  unfold ReadBootBlock
  rw [forLoop_store_apply (fun i => ReadBootBlock.byte MASS_BLOCK_COUNT (0 + i)) p _ 0 m k]
  simp [MASS_BLOCK_SIZE, U32_MOD]

theorem fat32_ReadBootBlock_byte_510 (c : Nat) : ReadBootBlock.byte c 510 = 0x55 := rfl

theorem fat32_ReadBootBlock_byte_511 (c : Nat) : ReadBootBlock.byte c 511 = 0xAA := rfl

theorem fat32_USBMediumAccess_Read_one (c : Nat) (files : List S_FILE_DESCRIPTOR) (b p : Nat)
    (s : State) :
    USBMediumAccess_Read c files b p 1 s = USBMediumAccess_Read.body c files b p 0 s := rfl

end USBMediumAccessFat32

/-! ## Arithmetic of bytes and cluster counts -/

theorem byte_and_shift (e a : Nat) :
    0xFF &&& (e >>> (8 * (a &&& 0x1))) = (e / 256 ^ (a % 2)) % 256 := by
  rw [Nat.and_comm, Nat.and_one_is_mod, Nat.shiftRight_eq_div_pow]
  have h : (255 : Nat) = 2 ^ 8 - 1 := by norm_num
  rw [h, Nat.and_pow_two_sub_one_eq_mod, pow_mul]
  norm_num

theorem u32Sub_eq (a b : Nat) (hb : b ≤ a) (ha : a < U32_MOD) : u32Sub a b = a - b := by
  unfold u32Sub
  simp only [U32_MOD] at *
  omega

theorem clusterCount_le (x : Nat) : clusterCount x ≤ 8388607 := by
  unfold clusterCount
  simp only [MASS_BLOCK_SIZE, U32_MOD]
  omega

theorem clusterCount_le_spec (x : Nat) : clusterCount x ≤ specClusters x := by
  unfold clusterCount specClusters
  simp only [MASS_BLOCK_SIZE, U32_MOD]
  omega

theorem codeSum_cons (f : S_FILE_DESCRIPTOR) (l : List S_FILE_DESCRIPTOR) :
    codeSum (f :: l) = clusterCount f.u32FileSize + codeSum l := by
  simp [codeSum]

theorem codeSum_nil : codeSum [] = 0 := rfl

theorem codeSum_le_length (l : List S_FILE_DESCRIPTOR) : codeSum l ≤ l.length * 8388607 := by
  induction l with
  | nil => simp [codeSum]
  | cons f l ih =>
    rw [codeSum_cons, List.length_cons]
    have := clusterCount_le f.u32FileSize
    omega

theorem codeSum_take_mono (l : List S_FILE_DESCRIPTOR) (i j : Nat) (h : i ≤ j) :
    codeSum (l.take i) ≤ codeSum (l.take j) := by
  induction l generalizing i j with
  | nil => simp
  | cons f l ih =>
    cases i with
    | zero => simp [codeSum]
    | succ i =>
      cases j with
      | zero => omega
      | succ j =>
        simp only [List.take_succ_cons, codeSum_cons]
        have := ih i j (by omega)
        omega

theorem codeSum_take_le (l : List S_FILE_DESCRIPTOR) (i : Nat) :
    codeSum (l.take i) ≤ codeSum l := by
  induction l generalizing i with
  | nil => simp
  | cons f l ih =>
    cases i with
    | zero => simp [codeSum]
    | succ i =>
      simp only [List.take_succ_cons, codeSum_cons]
      have := ih i
      omega

theorem codeSum_take_succ (l : List S_FILE_DESCRIPTOR) (j : Nat) (hj : j < l.length) :
    codeSum (l.take (j + 1)) = codeSum (l.take j) + clusterCount (fileAt l j).u32FileSize := by
  induction l generalizing j with
  | nil => simp at hj
  | cons f l ih =>
    cases j with
    | zero => simp [codeSum, fileAt]
    | succ j =>
      have hj2 : j < l.length := by simpa using hj
      have := ih j hj2
      simp only [List.take_succ_cons, codeSum_cons, this]
      simp only [fileAt, List.getD_cons_succ]
      omega

theorem codeSum_le_specSum (l : List S_FILE_DESCRIPTOR) :
    codeSum l ≤ (l.map (fun g => specClusters g.u32FileSize)).sum := by
  induction l with
  | nil => simp [codeSum]
  | cons f l ih =>
    have := clusterCount_le_spec f.u32FileSize
    simp only [codeSum, List.map_cons, List.sum_cons] at *
    omega

theorem gcu8NumFilesOnDrive_lt (files : List S_FILE_DESCRIPTOR) :
    gcu8NumFilesOnDrive files < 256 := by
  unfold gcu8NumFilesOnDrive
  simp only [U8_MOD]
  omega

theorem gcu8NumFilesOnDrive_le (files : List S_FILE_DESCRIPTOR) :
    gcu8NumFilesOnDrive files ≤ files.length := by
  unfold gcu8NumFilesOnDrive
  exact Nat.mod_le _ _

theorem length_take_visible (files : List S_FILE_DESCRIPTOR) :
    (files.take (gcu8NumFilesOnDrive files)).length = gcu8NumFilesOnDrive files := by
  rw [List.length_take]
  exact Nat.min_eq_left (gcu8NumFilesOnDrive_le files)

theorem codeSum_visible_lt (files : List S_FILE_DESCRIPTOR) (j : Nat) :
    codeSum ((files.take (gcu8NumFilesOnDrive files)).take j) < 4294967296 := by
  have h1 := codeSum_take_le (files.take (gcu8NumFilesOnDrive files)) j
  have h2 := codeSum_le_length (files.take (gcu8NumFilesOnDrive files))
  rw [length_take_visible] at h2
  have h3 := gcu8NumFilesOnDrive_lt files
  omega

theorem codeSum_visible_lt_all (files : List S_FILE_DESCRIPTOR) :
    codeSum (files.take (gcu8NumFilesOnDrive files)) < 4294967296 := by
  have h2 := codeSum_le_length (files.take (gcu8NumFilesOnDrive files))
  rw [length_take_visible] at h2
  have h3 := gcu8NumFilesOnDrive_lt files
  omega

/-! ## The file search loops -/

namespace USBMediumAccess

theorem ReadFile_scan_cases (k : Nat) (l : List S_FILE_DESCRIPTOR) (i a : Nat)
    (hk : a ≤ k) (hb : a + codeSum l < 4294967296) :
    (a + codeSum l ≤ k
        ∧ ReadFile.scan k l i a a = (i + l.length, a + codeSum l, a + codeSum l))
    ∨ (∃ j, j < l.length ∧ a + codeSum (l.take j) ≤ k ∧ k < a + codeSum (l.take (j + 1))
        ∧ ReadFile.scan k l i a a
            = (i + j, a + codeSum (l.take j), a + codeSum (l.take (j + 1)))) := by
  induction l generalizing i a with
  | nil =>
    left
    simp [ReadFile.scan, codeSum_nil, hk]
  | cons f l ih =>
    rw [codeSum_cons] at hb
    have hmod : (a + clusterCount f.u32FileSize) % U32_MOD = a + clusterCount f.u32FileSize := by
      apply Nat.mod_eq_of_lt
      simp only [U32_MOD]
      omega
    by_cases hlt : k < a + clusterCount f.u32FileSize
    · right
      refine ⟨0, by simp, ?_, ?_, ?_⟩
      · simpa [codeSum_nil] using hk
      · simpa [codeSum_cons, codeSum_nil] using hlt
      · simp [ReadFile.scan, hmod, hlt, codeSum_cons, codeSum_nil]
    · have hk2 : a + clusterCount f.u32FileSize ≤ k := by omega
      have hb2 : a + clusterCount f.u32FileSize + codeSum l < 4294967296 := by omega
      have hscan : ReadFile.scan k (f :: l) i a a
          = ReadFile.scan k l (i + 1) (a + clusterCount f.u32FileSize)
              (a + clusterCount f.u32FileSize) := by
        simp [ReadFile.scan, hmod, hlt]
      rcases ih (i + 1) (a + clusterCount f.u32FileSize) hk2 hb2 with ⟨h1, h2⟩ | ⟨j, h1, h2, h3, h4⟩
      · left
        refine ⟨by rw [codeSum_cons]; omega, ?_⟩
        rw [hscan, h2, codeSum_cons, List.length_cons]
        simp only [Prod.mk.injEq]
        omega
      · right
        refine ⟨j + 1, by simpa using h1, ?_, ?_, ?_⟩
        · simp only [List.take_succ_cons, codeSum_cons]; omega
        · simp only [List.take_succ_cons, codeSum_cons]; omega
        · rw [hscan, h4]
          simp only [List.take_succ_cons, codeSum_cons, Prod.mk.injEq]
          omega

theorem WriteFile_scan_eq (k : Nat) (l : List S_FILE_DESCRIPTOR) (i a b : Nat) :
    WriteFile.scan k l i a b = ReadFile.scan k l i a b := by
  induction l generalizing i a b with
  | nil => rfl
  | cons f l ih =>
    simp only [WriteFile.scan, ReadFile.scan]
    split
    · rfl
    · exact ih _ _ _

theorem ReadFAT_scan_eq (k : Nat) (l : List S_FILE_DESCRIPTOR) (i a b : Nat) :
    ReadFAT.scan k l i b
      = ((ReadFile.scan k l i a b).1, (ReadFile.scan k l i a b).2.2) := by
  induction l generalizing i a b with
  | nil => rfl
  | cons f l ih =>
    simp only [ReadFAT.scan, ReadFile.scan]
    split
    · rfl
    · exact ih _ _ _

end USBMediumAccess

namespace USBMediumAccess

theorem take_take_visible (files : List S_FILE_DESCRIPTOR) (j : Nat)
    (hj : j ≤ gcu8NumFilesOnDrive files) :
    (files.take (gcu8NumFilesOnDrive files)).take j = files.take j := by
  rw [List.take_take, Nat.min_eq_left hj]

/-- The search loop of `ReadFile` on the whole table: either the block lies at or beyond the
clusters of all visible files and the loop runs to the end, or it stops at the one file whose
cluster range holds the block. -/
theorem ReadFile_scan_visible (files : List S_FILE_DESCRIPTOR) (k : Nat) :
    (codeSum (files.take (gcu8NumFilesOnDrive files)) ≤ k
        ∧ ReadFile.scan k (files.take (gcu8NumFilesOnDrive files)) 0 0 0
            = (gcu8NumFilesOnDrive files, codeSum (files.take (gcu8NumFilesOnDrive files)),
                codeSum (files.take (gcu8NumFilesOnDrive files))))
    ∨ (∃ j, j < gcu8NumFilesOnDrive files ∧ codeSum (files.take j) ≤ k
        ∧ k < codeSum (files.take (j + 1))
        ∧ ReadFile.scan k (files.take (gcu8NumFilesOnDrive files)) 0 0 0
            = (j, codeSum (files.take j), codeSum (files.take (j + 1)))) := by
  have hb := codeSum_visible_lt_all files
  rcases ReadFile_scan_cases k (files.take (gcu8NumFilesOnDrive files)) 0 0 (Nat.zero_le k)
      (by omega) with ⟨h1, h2⟩ | ⟨j, h1, h2, h3, h4⟩
  · left
    rw [length_take_visible] at h2
    simp only [Nat.zero_add] at h1 h2
    exact ⟨h1, h2⟩
  · right
    rw [length_take_visible] at h1
    rw [take_take_visible files j (by omega), take_take_visible files (j + 1) (by omega)] at *
    simp only [Nat.zero_add] at h2 h3 h4
    exact ⟨j, h1, h2, h3, h4⟩

theorem ReadFile_scan_none (files : List S_FILE_DESCRIPTOR) (k : Nat)
    (h : codeSum (files.take (gcu8NumFilesOnDrive files)) ≤ k) :
    ReadFile.scan k (files.take (gcu8NumFilesOnDrive files)) 0 0 0
      = (gcu8NumFilesOnDrive files, codeSum (files.take (gcu8NumFilesOnDrive files)),
          codeSum (files.take (gcu8NumFilesOnDrive files))) := by
  rcases ReadFile_scan_visible files k with ⟨_, h2⟩ | ⟨j, h1, _, h3, _⟩
  · exact h2
  · exfalso
    have := codeSum_take_mono files (j + 1) (gcu8NumFilesOnDrive files) (by omega)
    omega

theorem ReadFile_scan_found (files : List S_FILE_DESCRIPTOR) (k f : Nat)
    (hf : f < gcu8NumFilesOnDrive files) (hlo : codeSum (files.take f) ≤ k)
    (hhi : k < codeSum (files.take (f + 1))) :
    ReadFile.scan k (files.take (gcu8NumFilesOnDrive files)) 0 0 0
      = (f, codeSum (files.take f), codeSum (files.take (f + 1))) := by
  rcases ReadFile_scan_visible files k with ⟨h1, _⟩ | ⟨j, h1, h2, h3, h4⟩
  · exfalso
    have := codeSum_take_mono files (f + 1) (gcu8NumFilesOnDrive files) (by omega)
    omega
  · have hjf : j = f := by
      rcases Nat.lt_trichotomy j f with h | h | h
      · exfalso
        have := codeSum_take_mono files (j + 1) f (by omega)
        omega
      · exact h
      · exfalso
        have := codeSum_take_mono files (f + 1) j (by omega)
        omega
    subst hjf
    exact h4

theorem ReadFile_scan_index_lt (files : List S_FILE_DESCRIPTOR) (k f : Nat)
    (hf : f < gcu8NumFilesOnDrive files)
    (h : (ReadFile.scan k (files.take (gcu8NumFilesOnDrive files)) 0 0 0).1 = f) :
    codeSum (files.take f) ≤ k ∧ k < codeSum (files.take (f + 1))
      ∧ ReadFile.scan k (files.take (gcu8NumFilesOnDrive files)) 0 0 0
          = (f, codeSum (files.take f), codeSum (files.take (f + 1))) := by
  rcases ReadFile_scan_visible files k with ⟨_, h2⟩ | ⟨j, h1, h2, h3, h4⟩
  · exfalso
    rw [h2] at h
    simp only at h
    omega
  · rw [h4] at h
    simp only at h
    subst h
    exact ⟨h2, h3, h4⟩

end USBMediumAccess

namespace USBMediumAccess

theorem fatByteAt_eq (c : Nat) (files : List S_FILE_DESCRIPTOR) (a : Nat)
    (ha : a < 4294967296) :
    fatByteAt c files a = (ReadFAT.entry c files a / 256 ^ (a % 2)) % 256 := by
  unfold fatByteAt
  rw [ReadFAT_apply]
  have hcond : 0 ≤ a % MASS_BLOCK_SIZE ∧ a % MASS_BLOCK_SIZE < 0 + MASS_BLOCK_SIZE := by
    simp only [MASS_BLOCK_SIZE]
    omega
  have haddr : (a / MASS_BLOCK_SIZE * MASS_BLOCK_SIZE + (a % MASS_BLOCK_SIZE - 0)) % U32_MOD
      = a := by
    simp only [MASS_BLOCK_SIZE, U32_MOD]
    omega
  rw [if_pos hcond, haddr, byte_and_shift]

theorem ReadFAT_entry_none (c : Nat) (files : List S_FILE_DESCRIPTOR) (a : Nat) (ha : 4 ≤ a)
    (h : codeSum (files.take (gcu8NumFilesOnDrive files)) ≤ (a - 4) / 2) :
    ReadFAT.entry c files a = 0xFFF7 := by
  unfold ReadFAT.entry
  rw [if_neg (by omega), if_neg (by omega)]
  simp only
  rw [ReadFAT_scan_eq ((a - 4) / 2) _ 0 0 0, ReadFile_scan_none files _ h]
  simp

theorem ReadFAT_entry_found (c : Nat) (files : List S_FILE_DESCRIPTOR) (a f : Nat) (ha : 4 ≤ a)
    (hf : f < gcu8NumFilesOnDrive files) (hlo : codeSum (files.take f) ≤ (a - 4) / 2)
    (hhi : (a - 4) / 2 < codeSum (files.take (f + 1))) :
    ReadFAT.entry c files a
      = if (a - 4) / 2 + 1 < codeSum (files.take (f + 1)) then ((a - 4) / 2 + 3) % 65536
        else 0xFFF8 := by
  unfold ReadFAT.entry
  rw [if_neg (by omega), if_neg (by omega)]
  simp only
  rw [ReadFAT_scan_eq ((a - 4) / 2) _ 0 0 0, ReadFile_scan_found files _ f hf hlo hhi]
  have hb := codeSum_visible_lt_all files
  have hm := codeSum_take_mono files (f + 1) (gcu8NumFilesOnDrive files) (by omega)
  have h1 : ((a - 4) / 2 + 1) % U32_MOD = (a - 4) / 2 + 1 := by
    apply Nat.mod_eq_of_lt
    simp only [U32_MOD]
    omega
  have h2 : (2 + (a - 4) / 2 + 1) % U32_MOD % U16_MOD = ((a - 4) / 2 + 3) % 65536 := by
    simp only [U32_MOD, U16_MOD]
    omega
  simp only [h1, h2]
  rw [if_neg (by omega)]

theorem codeSum_visible_le_specTotal (files : List S_FILE_DESCRIPTOR) :
    codeSum (files.take (gcu8NumFilesOnDrive files)) ≤ specTotal files := by
  have h1 := codeSum_take_le files (gcu8NumFilesOnDrive files)
  have h2 := codeSum_le_specSum files
  unfold specTotal
  omega

end USBMediumAccess

/-! ## Block layout of a multi-block read and the boot signature -/

namespace USBMediumAccess

/-- C1 (fails on the code): `USBMediumAccess_Read(0, buffer, 2)` stores block `i` at
`&(pu8Buffer[ u32Index ])`, one byte (not one block) further for each block, so the blocks
overlap: byte 1 of the buffer is byte 0 of block 1 (the FAT media byte `0xF0`) and not byte 1
of block 0 (`0x3E`, which a one-block read of block 0 stores there), and byte 513 of the
buffer, which should be byte 1 of block 1, is never written. -/
theorem USBMediumAccess_Read_blocks_overlap (MASS_BLOCK_COUNT : Nat)
    (files : List S_FILE_DESCRIPTOR) (s : State) :
    (USBMediumAccess_Read MASS_BLOCK_COUNT files 0 0 2 s).env.mem (0 * 512 + 1) = 0xF0
    ∧ (USBMediumAccess_Read MASS_BLOCK_COUNT files 0 0 1 s).env.mem 1 = 0x3E
    ∧ (USBMediumAccess_Read MASS_BLOCK_COUNT files 0 0 2 s).env.mem (1 * 512 + 1)
        = s.env.mem 513
    ∧ (USBMediumAccess_Read MASS_BLOCK_COUNT files 1 0 1 s).env.mem 1 = 0xFF := by
  refine ⟨?_, ?_, ?_, ?_⟩
  · rw [USBMediumAccess_Read_two]
    simp only [USBMediumAccess_Read.body, MASS_BLOCK_SIZE, U32_MOD]
    simp [ReadFAT_apply, ReadFAT_entry_0]
    rfl
  · rw [USBMediumAccess_Read_one]
    simp only [USBMediumAccess_Read.body, MASS_BLOCK_SIZE, U32_MOD]
    simp [ReadBootBlock_block_apply, ReadBootBlock_byte_1]
  · rw [USBMediumAccess_Read_two]
    simp only [USBMediumAccess_Read.body, MASS_BLOCK_SIZE, U32_MOD]
    simp [ReadFAT_apply, ReadBootBlock_block_apply]
  · rw [USBMediumAccess_Read_one]
    simp only [USBMediumAccess_Read.body, MASS_BLOCK_SIZE, U32_MOD]
    simp [ReadFAT_apply, ReadFAT_entry_1]

end USBMediumAccess

/-- C2: a one-block read of the boot block ends with the boot signature `0x55, 0xAA` at
bytes 510 and 511: block 0 of the 16-bit FAT medium, and blocks 0 and 6 (backup boot block)
of the FAT32 medium, for every file table, buffer address and state. -/
theorem boot_block_signature (MASS_BLOCK_COUNT : Nat) (files : List S_FILE_DESCRIPTOR)
    (p : Nat) (s : State) :
    ((USBMediumAccess.USBMediumAccess_Read MASS_BLOCK_COUNT files 0 p 1 s).env.mem (p + 510) = 0x55
      ∧ (USBMediumAccess.USBMediumAccess_Read MASS_BLOCK_COUNT files 0 p 1 s).env.mem (p + 511)
          = 0xAA)
    ∧ ((USBMediumAccessFat32.USBMediumAccess_Read MASS_BLOCK_COUNT files 0 p 1 s).env.mem
          (p + 510) = 0x55
      ∧ (USBMediumAccessFat32.USBMediumAccess_Read MASS_BLOCK_COUNT files 0 p 1 s).env.mem
          (p + 511) = 0xAA)
    ∧ ((USBMediumAccessFat32.USBMediumAccess_Read MASS_BLOCK_COUNT files 6 p 1 s).env.mem
          (p + 510) = 0x55
      ∧ (USBMediumAccessFat32.USBMediumAccess_Read MASS_BLOCK_COUNT files 6 p 1 s).env.mem
          (p + 511) = 0xAA) := by
  refine ⟨⟨?_, ?_⟩, ⟨?_, ?_⟩, ⟨?_, ?_⟩⟩
  · rw [USBMediumAccess.USBMediumAccess_Read_one]
    simp [USBMediumAccess.USBMediumAccess_Read.body, U32_MOD,
      USBMediumAccess.ReadBootBlock_block_apply, USBMediumAccess.ReadBootBlock_byte_510]
  · rw [USBMediumAccess.USBMediumAccess_Read_one]
    simp [USBMediumAccess.USBMediumAccess_Read.body, U32_MOD,
      USBMediumAccess.ReadBootBlock_block_apply, USBMediumAccess.ReadBootBlock_byte_511]
  · rw [USBMediumAccessFat32.fat32_USBMediumAccess_Read_one]
    simp [USBMediumAccessFat32.USBMediumAccess_Read.body, U32_MOD,
      USBMediumAccessFat32.fat32_ReadBootBlock_block_apply,
      USBMediumAccessFat32.fat32_ReadBootBlock_byte_510]
  · rw [USBMediumAccessFat32.fat32_USBMediumAccess_Read_one]
    simp [USBMediumAccessFat32.USBMediumAccess_Read.body, U32_MOD,
      USBMediumAccessFat32.fat32_ReadBootBlock_block_apply,
      USBMediumAccessFat32.fat32_ReadBootBlock_byte_511]
  · rw [USBMediumAccessFat32.fat32_USBMediumAccess_Read_one]
    simp [USBMediumAccessFat32.USBMediumAccess_Read.body, U32_MOD,
      USBMediumAccessFat32.fat32_ReadBootBlock_block_apply,
      USBMediumAccessFat32.fat32_ReadBootBlock_byte_510]
  · rw [USBMediumAccessFat32.fat32_USBMediumAccess_Read_one]
    simp [USBMediumAccessFat32.USBMediumAccess_Read.body, U32_MOD,
      USBMediumAccessFat32.fat32_ReadBootBlock_block_apply,
      USBMediumAccessFat32.fat32_ReadBootBlock_byte_511]

/-! ## The 16-bit FAT -/

namespace USBMediumAccess

/-- C4: in the 16-bit FAT, for every file table and every FAT entry number `n ≥ 2` inside
the FAT region (256 blocks of 512 bytes, two bytes per entry) whose cluster index `n - 2` is
at or beyond the total cluster count of all files, the entry decoded little-endian from FAT
bytes `2n` and `2n+1` is the bad-cluster value `0xFFF7`. -/
theorem ReadFAT_bad_cluster_entry (MASS_BLOCK_COUNT : Nat) (files : List S_FILE_DESCRIPTOR)
    (n : Nat) (hn : 2 ≤ n) (hreg : 2 * n + 1 < NUM_FAT_BLOCKS * MASS_BLOCK_SIZE)
    (h : specTotal files ≤ n - 2) :
    fatEntry16 MASS_BLOCK_COUNT files n = 0xFFF7 := by
  simp only [NUM_FAT_BLOCKS, MASS_BLOCK_SIZE] at hreg
  have hv := codeSum_visible_le_specTotal files
  have e0 := ReadFAT_entry_none MASS_BLOCK_COUNT files (2 * n) (by omega) (by omega)
  have e1 := ReadFAT_entry_none MASS_BLOCK_COUNT files (2 * n + 1) (by omega) (by omega)
  unfold fatEntry16
  rw [fatByteAt_eq _ _ _ (by omega), fatByteAt_eq _ _ _ (by omega), e0, e1]
  have hp0 : 2 * n % 2 = 0 := by omega
  have hp1 : (2 * n + 1) % 2 = 1 := by omega
  rw [hp0, hp1]
  norm_num

/-- Witness for C4: for the table of one 2000-byte file, whose four clusters are the
entries 2..5, entry 6 decodes to `0xFFF7`. -/
theorem ReadFAT_bad_cluster_entry_witness :
    specTotal [constFile 2000 zeroMemory] = 4
    ∧ fatEntry16 0 [constFile 2000 zeroMemory] 6 = 0xFFF7 :=
  ⟨by decide,
   ReadFAT_bad_cluster_entry 0 [constFile 2000 zeroMemory] 6 (by decide) (by decide)
      (by decide)⟩

end USBMediumAccess

/-! ## The root directory -/

namespace USBMediumAccess

theorem rootDirByteAt_eq (files : List S_FILE_DESCRIPTOR) (a : Nat) (ha : a < 4294967296) :
    rootDirByteAt files a = ReadRootDir.byte files a := by
  unfold rootDirByteAt
  rw [ReadRootDir_apply]
  have hcond : 0 ≤ a % MASS_BLOCK_SIZE ∧ a % MASS_BLOCK_SIZE < 0 + MASS_BLOCK_SIZE := by
    simp only [MASS_BLOCK_SIZE]
    omega
  have haddr : (a / MASS_BLOCK_SIZE * MASS_BLOCK_SIZE + (a % MASS_BLOCK_SIZE - 0)) % U32_MOD
      = a := by
    simp only [MASS_BLOCK_SIZE, U32_MOD]
    omega
  rw [if_pos hcond, haddr]

theorem foldl_startCluster (l : List S_FILE_DESCRIPTOR) (a : Nat)
    (h : a + codeSum l < 4294967296) :
    l.foldl (fun u32StartCluster f => (u32StartCluster + clusterCount f.u32FileSize) % U32_MOD) a
      = a + codeSum l := by
  induction l generalizing a with
  | nil => simp [codeSum_nil]
  | cons f l ih =>
    rw [codeSum_cons] at h
    rw [List.foldl_cons, codeSum_cons]
    have hm : (a + clusterCount f.u32FileSize) % U32_MOD = a + clusterCount f.u32FileSize := by
      apply Nat.mod_eq_of_lt
      simp only [U32_MOD]
      omega
    rw [hm, ih _ (by omega)]
    omega

theorem ReadRootDir_startCluster_eq (files : List S_FILE_DESCRIPTOR) (f : Nat)
    (hf : f < gcu8NumFilesOnDrive files) :
    ReadRootDir.startCluster (files.take f) = 2 + codeSum (files.take f) := by
  unfold ReadRootDir.startCluster
  apply foldl_startCluster
  have h := codeSum_visible_lt files f
  rw [take_take_visible files f (by omega)] at h
  have h2 := codeSum_le_length (files.take f)
  have h3 : (files.take f).length ≤ f := List.length_take_le f files
  have h4 := gcu8NumFilesOnDrive_lt files
  have h5 : (files.take f).length * 8388607 ≤ 255 * 8388607 :=
    Nat.mul_le_mul_right _ (by omega)
  omega

/-- The value of `u8Ret` for byte `j` of the directory entry of file `f`: the branch for
file entries is taken, `u8FileIndex` is `f` and `u8OffsetIndex` is `j`. -/
theorem ReadRootDir_byte_entry (files : List S_FILE_DESCRIPTOR) (f j : Nat)
    (hf : f < gcu8NumFilesOnDrive files) (hj : j < 32) :
    ReadRootDir.byte files (32 * (f + 1) + j)
      = if 11 > j then (fileAt files f).au8FileName.getD j 0
        else if 11 = j then (if (fileAt files f).pWriteHandler.isNone then 0x01 else 0x00)
        else if 12 = j then 0x00
        else if 13 = j then 0x00
        else if 16 > j then (fileAt files f).au8FileTime.getD (j - 14) 0
        else if 18 > j then (fileAt files f).au8FileDate.getD (j - 16) 0
        else if 20 > j then (fileAt files f).au8FileDate.getD (j - 18) 0
        else if 22 > j then
          0xFF &&& ((2 + codeSum (files.take f)) >>> (16 + 8 * (j &&& 0x1)))
        else if 24 > j then (fileAt files f).au8FileTime.getD (j - 22) 0
        else if 26 > j then (fileAt files f).au8FileDate.getD (j - 24) 0
        else if 28 > j then
          0xFF &&& ((2 + codeSum (files.take f)) >>> (0 + 8 * (j &&& 0x1)))
        else 0xFF &&& (((fileAt files f).u32FileSize % U32_MOD) >>> (8 * (j &&& 0x3))) := by
  have hn := gcu8NumFilesOnDrive_lt files
  have h1 : ¬ (32 > 32 * (f + 1) + j) := by omega
  have h2 : (32 * (1 + gcu8NumFilesOnDrive files)) % U32_MOD > 32 * (f + 1) + j := by
    simp only [U32_MOD]
    omega
  have e1 : (32 * (f + 1) + j) / 32 - 1 = f := by omega
  have e2 : f % U8_MOD = f := by
    simp only [U8_MOD]
    omega
  have e3 : (32 * (f + 1) + j) % 32 % U8_MOD = j := by
    simp only [U8_MOD]
    omega
  unfold ReadRootDir.byte
  rw [if_neg h1, if_pos h2]
  simp only [e1, e2, e3, ReadRootDir_startCluster_eq files f hf]

theorem fileAt_eq (files : List S_FILE_DESCRIPTOR) (f : Nat) (d : S_FILE_DESCRIPTOR)
    (h : files[f]? = some d) : fileAt files f = d := by
  unfold fileAt
  rw [List.getD_eq_getElem?_getD, h]
  rfl

end USBMediumAccess

/-! ## Tables whose number of entries does not fit in the `U8` count -/

namespace USBMediumAccess

theorem ReadRootDir_byte_unused (files : List S_FILE_DESCRIPTOR) (a : Nat)
    (h1 : 32 * (1 + gcu8NumFilesOnDrive files) ≤ a) :
    ReadRootDir.byte files a = 0 := by
  have hn := gcu8NumFilesOnDrive_lt files
  have h2 : ¬ ((32 * (1 + gcu8NumFilesOnDrive files)) % U32_MOD > a) := by
    simp only [U32_MOD]
    omega
  unfold ReadRootDir.byte
  rw [if_neg (by omega), if_neg h2]

end USBMediumAccess

/-! ## Directory entries -/

namespace USBMediumAccess

end USBMediumAccess

namespace USBMediumAccess

end USBMediumAccess

/-! ## Resolution of a block to a file -/

namespace USBMediumAccess

end USBMediumAccess

/-! ## File contents -/

namespace USBMediumAccess

theorem ReadFile_none (files : List S_FILE_DESCRIPTOR) (k p n : Nat) (s : State)
    (h : codeSum (files.take (gcu8NumFilesOnDrive files)) ≤ k) :
    ReadFile files k p n s = s := by
  unfold ReadFile
  simp only [ReadFile_scan_none files k h]
  rw [if_pos (Nat.le_refl _)]

theorem Read_body_file_region (c : Nat) (files : List S_FILE_DESCRIPTOR) (b p : Nat) (s : State)
    (hb : b < 4294967296) (hfirst : FIRST_FILE_BLOCK ≤ b) :
    USBMediumAccess_Read.body c files b p 0 s
      = ReadFile files (b - FIRST_FILE_BLOCK) p MASS_BLOCK_SIZE
          { s with env := { s.env with mem := memset p 0 MASS_BLOCK_SIZE s.env.mem } } := by
  simp only [FIRST_FILE_BLOCK, FAT_BLOCKS_START, NUM_FAT_BLOCKS, ROOT_DIRECTORY_SIZE_BLOCKS,
    MAX_NUM_FILES_ROOT, FAT_SECTORSIZE] at hfirst
  have hcur : b % U32_MOD = b := by
    simp only [U32_MOD]
    omega
  unfold USBMediumAccess_Read.body
  simp only [Nat.add_zero, hcur]
  rw [if_neg (by omega), if_neg (by simp only [FAT_BLOCKS_START, NUM_FAT_BLOCKS]; omega),
    if_neg (by simp only [FIRST_FILE_BLOCK, FAT_BLOCKS_START, NUM_FAT_BLOCKS,
      ROOT_DIRECTORY_SIZE_BLOCKS, MAX_NUM_FILES_ROOT, FAT_SECTORSIZE]; omega)]

/-- C8: for every file table and every block `b ≥ FIRST_FILE_BLOCK = 545` (a `U32`) whose
offset `b - 545` is at or beyond the total cluster count of all files, the one-block read of
`b` stores 512 zero bytes and makes no call through a read callback: the call trace, the
hardware operations and the flash chip are what they were. -/
theorem Read_beyond_files (MASS_BLOCK_COUNT : Nat) (files : List S_FILE_DESCRIPTOR)
    (b p : Nat) (s : State) (hb : b < 4294967296) (hfirst : FIRST_FILE_BLOCK ≤ b)
    (h : specTotal files ≤ b - FIRST_FILE_BLOCK) :
    (∀ j, j < 512 →
        (USBMediumAccess_Read MASS_BLOCK_COUNT files b p 1 s).env.mem (p + j) = 0)
    ∧ (USBMediumAccess_Read MASS_BLOCK_COUNT files b p 1 s).calls = s.calls
    ∧ (USBMediumAccess_Read MASS_BLOCK_COUNT files b p 1 s).env.ops = s.env.ops
    ∧ (USBMediumAccess_Read MASS_BLOCK_COUNT files b p 1 s).env.chip = s.env.chip := by
  have hv := codeSum_visible_le_specTotal files
  rw [USBMediumAccess_Read_one, Read_body_file_region _ _ _ _ _ hb hfirst,
    ReadFile_none _ _ _ _ _ (by omega)]
  refine ⟨?_, rfl, rfl, rfl⟩
  intro j hj
  simp only [memset_apply, MASS_BLOCK_SIZE]
  rw [if_pos (by omega)]

/-- Witness for C8: the table of one 2000-byte file (blocks 545..548) and block 549. -/
theorem Read_beyond_files_witness :
    (∀ j, j < 512 →
        (USBMediumAccess_Read 0 [constFile 2000 zeroMemory] 549 0 1
          (initialState (fun _ => 0xCC))).env.mem (0 + j) = 0)
    ∧ (USBMediumAccess_Read 0 [constFile 2000 zeroMemory] 549 0 1
          (initialState (fun _ => 0xCC))).calls = [] :=
  ⟨(Read_beyond_files 0 [constFile 2000 zeroMemory] 549 0 (initialState (fun _ => 0xCC))
      (by decide) (by decide) (by decide)).1,
   (Read_beyond_files 0 [constFile 2000 zeroMemory] 549 0 (initialState (fun _ => 0xCC))
      (by decide) (by decide) (by decide)).2.1⟩

/-- C9: for every file table, when the scan of `ReadFile` resolves the file-region block
`k` to the constant-buffer file `f` (table entry `d`) at within-file block offset
`m = k - u32FileStart`, then `ReadFile` stores at output byte `j` the byte of the constant
array at index `m*512 + j`, for every `j < 512` with `m*512 + j < size_f`. -/
theorem ReadFile_const_bytes (files : List S_FILE_DESCRIPTOR) (k p f m : Nat) (s : State)
    (d : S_FILE_DESCRIPTOR) (hf : f < gcu8NumFilesOnDrive files) (hd : files[f]? = some d)
    (hconst : d.eReadCallbackType = E_READ_CB_PTR_TYPE.CONST_DATA_FILE)
    (hres : (ReadFile.scan k (files.take (gcu8NumFilesOnDrive files)) 0 0 0).1 = f)
    (hm : m = k - (ReadFile.scan k (files.take (gcu8NumFilesOnDrive files)) 0 0 0).2.1)
    (j : Nat) (hj : j < 512) (_hin : m * 512 + j < d.u32FileSize) :
    (ReadFile files k p MASS_BLOCK_SIZE s).env.mem (p + j)
      = d.uReadHandler.pu8ConstantArray (m * 512 + j) := by
  obtain ⟨h1, h2, h3⟩ := ReadFile_scan_index_lt files k f hf hres
  have hfile := fileAt_eq files f d hd
  have hcc := clusterCount_le (fileAt files f).u32FileSize
  have hsucc := codeSum_take_succ files f (by have := gcu8NumFilesOnDrive_le files; omega)
  have hvis := codeSum_visible_lt_all files
  have hmono := codeSum_take_mono files (f + 1) (gcu8NumFilesOnDrive files) (by omega)
  rw [h3] at hm
  simp only at hm
  unfold ReadFile
  simp only [h3]
  rw [if_neg (by omega), hfile, if_pos hconst]
  simp only
  rw [forLoop_store_apply (fun u32Index => d.uReadHandler.pu8ConstantArray
      ((u32Sub k (codeSum (files.take f)) * MASS_BLOCK_SIZE + u32Index) % U32_MOD))
      p MASS_BLOCK_SIZE 0 s.env.mem (p + j)]
  rw [if_pos (by simp only [MASS_BLOCK_SIZE]; omega),
    u32Sub_eq _ _ h1 (by simp only [U32_MOD]; omega)]
  congr 1
  simp only [MASS_BLOCK_SIZE, U32_MOD]
  omega

/-- Witness for C9: byte 5 of the second block of a 2000-byte constant file whose array
holds `i % 251` at index `i`. -/
theorem ReadFile_const_bytes_witness :
    (ReadFile [constFile 2000 (fun i => i % 251)] 1 0 MASS_BLOCK_SIZE
        (initialState zeroMemory)).env.mem (0 + 5) = (1 * 512 + 5) % 251 :=
  ReadFile_const_bytes [constFile 2000 (fun i => i % 251)] 1 0 0 1 (initialState zeroMemory)
    (constFile 2000 (fun i => i % 251)) (by decide) rfl rfl (by decide) (by decide) 5
    (by decide) (by decide)

end USBMediumAccess

/-! ## The generated file of the built-in table -/

namespace USBMediumAccess

set_option maxRecDepth 100000 in
theorem cau8ReadmeFile_length : cau8ReadmeFile.length = 409 := by decide

theorem gcsFilesOnDrive_count (pastReadme pastLEDControl : Memory) :
    gcu8NumFilesOnDrive (gcsFilesOnDrive pastReadme pastLEDControl) = 4 := rfl

theorem gcsFilesOnDrive_codeSum_1 (pastReadme pastLEDControl : Memory) :
    codeSum ((gcsFilesOnDrive pastReadme pastLEDControl).take 1) = 1 := by
  simp only [gcsFilesOnDrive, List.take_succ_cons, List.take_zero, codeSum_cons, codeSum_nil,
    cau8ReadmeFile_length]
  decide

theorem gcsFilesOnDrive_codeSum_2 (pastReadme pastLEDControl : Memory) :
    codeSum ((gcsFilesOnDrive pastReadme pastLEDControl).take (1 + 1)) = 392 := by
  simp only [gcsFilesOnDrive, List.take_succ_cons, List.take_zero, codeSum_cons, codeSum_nil,
    cau8ReadmeFile_length]
  decide

theorem ReadFile_callback (files : List S_FILE_DESCRIPTOR) (k p n f st en : Nat) (t : State)
    (g : pFileCallBackFunction)
    (hscan : ReadFile.scan k (files.take (gcu8NumFilesOnDrive files)) 0 0 0 = (f, st, en))
    (hf : f < gcu8NumFilesOnDrive files)
    (htype : (fileAt files f).eReadCallbackType ≠ E_READ_CB_PTR_TYPE.CONST_DATA_FILE)
    (hg : (fileAt files f).uReadHandler.pFuncRead = some g) :
    ReadFile files k p n t
      = { t with
          env := g ((u32Sub k st * MASS_BLOCK_SIZE) % U32_MOD) p n t.env
          calls := t.calls ++ [FileCall.read f ((u32Sub k st * MASS_BLOCK_SIZE) % U32_MOD) p n] }
    := by
  unfold ReadFile
  simp only [hscan]
  rw [if_neg (by omega), if_neg htype]
  simp only [hg]

theorem LongfileCallback_byte_eq (o : Nat) :
    LongfileCallback.byte o
      = if 200000 ≤ o then 0x00
        else if o % 32 = 30 then 0x0D
        else if o % 32 = 31 then 0x0A
        else if (o / 32) % 32 = o % 32 then 0x2A
        else 0x20 := by
  unfold LongfileCallback.byte
  simp only [LONGFILE_SIZE, U16_MOD, U8_MOD]
  by_cases h : o < 200000
  · have e1 : o / 32 % 65536 = o / 32 := by omega
    have e2 : o % 32 % 256 = o % 32 := by omega
    have hr : ¬ 200000 ≤ o := by omega
    have c1 : '\r'.toNat = 0x0D := by decide
    have c2 : '\n'.toNat = 0x0A := by decide
    have c3 : '*'.toNat = 0x2A := by decide
    have c4 : ' '.toNat = 0x20 := by decide
    rw [if_pos h, if_neg hr, e1, e2, c1, c2, c3, c4]
    split_ifs <;> omega
  · have hr : 200000 ≤ o := by omega
    rw [if_neg h, if_pos hr]

/-- C10: with the built-in file table, a one-block read of the `m`-th block of
LONGFILE.TXT (block `545 + clusters(README.TXT) + m`, `m < 391`) makes exactly one call
through the table, to the read handler of file 1 (LONGFILE.TXT, whose handler is
`LongfileCallback`) with byte offset `512*m`, the buffer and size 512, and output byte `j`
is, with `o = 512*m + j`: `0x00` for `o ≥ 200000`, else `0x0D` if `o mod 32 = 30`, `0x0A`
if `o mod 32 = 31`, `'*'` if `(o div 32) mod 32 = o mod 32`, and `' '` otherwise. -/
theorem Read_longfile_block (MASS_BLOCK_COUNT : Nat) (pastReadme pastLEDControl : Memory)
    (m j p : Nat) (s : State) (hm : m < 391) (hj : j < 512) :
    (USBMediumAccess_Read MASS_BLOCK_COUNT (gcsFilesOnDrive pastReadme pastLEDControl)
        (FIRST_FILE_BLOCK + specClusters (cau8ReadmeFile.length - 1) + m) p 1 s).calls
      = s.calls ++ [FileCall.read 1 (512 * m) p 512]
    ∧ (fileAt (gcsFilesOnDrive pastReadme pastLEDControl) 1).uReadHandler.pFuncRead
      = some LongfileCallback
    ∧ (USBMediumAccess_Read MASS_BLOCK_COUNT (gcsFilesOnDrive pastReadme pastLEDControl)
        (FIRST_FILE_BLOCK + specClusters (cau8ReadmeFile.length - 1) + m) p 1 s).env.mem (p + j)
      = (if 200000 ≤ 512 * m + j then 0x00
         else if (512 * m + j) % 32 = 30 then 0x0D
         else if (512 * m + j) % 32 = 31 then 0x0A
         else if ((512 * m + j) / 32) % 32 = (512 * m + j) % 32 then 0x2A
         else 0x20) := by
  have hblock : FIRST_FILE_BLOCK + specClusters (cau8ReadmeFile.length - 1) + m = 546 + m := by
    rw [cau8ReadmeFile_length]
    have : specClusters (409 - 1) = 1 := by decide
    rw [this]
    simp only [FIRST_FILE_BLOCK, FAT_BLOCKS_START, NUM_FAT_BLOCKS, ROOT_DIRECTORY_SIZE_BLOCKS,
      MAX_NUM_FILES_ROOT, FAT_SECTORSIZE]
  have hscan := ReadFile_scan_found (gcsFilesOnDrive pastReadme pastLEDControl) (1 + m) 1
    (by rw [gcsFilesOnDrive_count]; omega)
    (by rw [gcsFilesOnDrive_codeSum_1]; omega)
    (by rw [gcsFilesOnDrive_codeSum_2]; omega)
  rw [gcsFilesOnDrive_codeSum_1, gcsFilesOnDrive_codeSum_2] at hscan
  have hk : 546 + m - FIRST_FILE_BLOCK = 1 + m := by
    simp only [FIRST_FILE_BLOCK, FAT_BLOCKS_START, NUM_FAT_BLOCKS, ROOT_DIRECTORY_SIZE_BLOCKS,
      MAX_NUM_FILES_ROOT, FAT_SECTORSIZE]
    omega
  have hoff : u32Sub (1 + m) 1 = m := by
    rw [u32Sub_eq _ _ (by omega) (by simp only [U32_MOD]; omega)]
    omega
  have hmul : m * MASS_BLOCK_SIZE % U32_MOD = 512 * m := by
    simp only [MASS_BLOCK_SIZE, U32_MOD]
    omega
  have hread : ∀ t : State,
      ReadFile (gcsFilesOnDrive pastReadme pastLEDControl) (1 + m) p MASS_BLOCK_SIZE t
        = { t with
            env := LongfileCallback (512 * m) p MASS_BLOCK_SIZE t.env
            calls := t.calls ++ [FileCall.read 1 (512 * m) p MASS_BLOCK_SIZE] } := by
    intro t
    rw [ReadFile_callback _ _ _ _ _ _ _ _ LongfileCallback hscan
      (by rw [gcsFilesOnDrive_count]; omega)
      (fun h => by
        have h2 : E_READ_CB_PTR_TYPE.FUNCTION_CALLBACK_FILE
            = E_READ_CB_PTR_TYPE.CONST_DATA_FILE := h
        cases h2)
      rfl, hoff, hmul]
  rw [hblock, USBMediumAccess_Read_one,
    Read_body_file_region _ _ _ _ _ (by omega)
      (by simp only [FIRST_FILE_BLOCK, FAT_BLOCKS_START, NUM_FAT_BLOCKS,
        ROOT_DIRECTORY_SIZE_BLOCKS, MAX_NUM_FILES_ROOT, FAT_SECTORSIZE]; omega),
    hk, hread]
  refine ⟨rfl, rfl, ?_⟩
  simp only [LongfileCallback]
  rw [forLoop_store_apply (fun u32BufferIndex =>
      LongfileCallback.byte ((512 * m + u32BufferIndex) % U32_MOD)) p MASS_BLOCK_SIZE 0 _ (p + j)]
  rw [if_pos (by simp only [MASS_BLOCK_SIZE]; omega)]
  have hidx : (512 * m + (p + j - p)) % U32_MOD = 512 * m + j := by
    simp only [U32_MOD]
    omega
  rw [hidx, LongfileCallback_byte_eq]

/-- Witness for C10: the last block of LONGFILE.TXT (`m = 390`), buffer byte 400, which
lies past the end of the file (`o = 200080`) and reads zero. -/
theorem Read_longfile_block_witness :
    (USBMediumAccess_Read 0 (gcsFilesOnDrive zeroMemory zeroMemory)
        (FIRST_FILE_BLOCK + specClusters (cau8ReadmeFile.length - 1) + 390) 0 1
        (initialState zeroMemory)).calls
      = [FileCall.read 1 (512 * 390) 0 512]
    ∧ (USBMediumAccess_Read 0 (gcsFilesOnDrive zeroMemory zeroMemory)
        (FIRST_FILE_BLOCK + specClusters (cau8ReadmeFile.length - 1) + 390) 0 1
        (initialState zeroMemory)).env.mem (0 + 400) = 0x00 :=
  ⟨(Read_longfile_block 0 zeroMemory zeroMemory 390 400 0 (initialState zeroMemory)
      (by decide) (by decide)).1,
   (Read_longfile_block 0 zeroMemory zeroMemory 390 400 0 (initialState zeroMemory)
      (by decide) (by decide)).2.2⟩

end USBMediumAccess


/-! ## Loops that keep the state -/

theorem forLoop_fixed {σ : Type} (body : Nat → σ → σ) (n i0 : Nat) (s : σ)
    (h : ∀ i, i0 ≤ i → i < i0 + n → body i s = s) : forLoop body n i0 s = s := by
  induction n generalizing i0 with
  | zero => rfl
  | succ n ih =>
    rw [forLoop, h i0 (Nat.le_refl _) (by omega)]
    exact ih (i0 + 1) (fun i h1 h2 => h i (by omega) (by omega))

theorem forLoop_commute {σ : Type} (body : Nat → σ → σ) (F : σ → σ)
    (h : ∀ i t, body i (F t) = F (body i t)) (n i0 : Nat) (s : σ) :
    forLoop body n i0 (F s) = F (forLoop body n i0 s) := by
  induction n generalizing i0 s with
  | zero => rfl
  | succ n ih => rw [forLoop, forLoop, h, ih]

/-! ## Writes below the file region and the medium state -/

namespace USBMediumAccess

theorem Write_body_below (files : List S_FILE_DESCRIPTOR) (start p i : Nat) (t : State)
    (h : start < FIRST_FILE_BLOCK) : USBMediumAccess_Write.body files start p i t = t := by
  unfold USBMediumAccess_Write.body
  simp only
  rw [if_neg (by omega)]

/-- C13: for every file table and every `USBMediumAccess_Write(startBlock, buffer, n)` with
`startBlock + n < 2^32`, the loop iteration of a block `startBlock + i` below
`FIRST_FILE_BLOCK` (boot block, FAT1, FAT2, root directory) leaves every state as it is, so
no write handler is called for it; and a run that lies entirely below block 545 leaves the
whole state unchanged: no handler call, no hardware operation, same buffer. -/
theorem Write_below_file_region (files : List S_FILE_DESCRIPTOR) (start p n : Nat) (s : State)
    (_hn : start + n < 4294967296) :
    (∀ i, i < n → start + i < FIRST_FILE_BLOCK →
        ∀ t : State, USBMediumAccess_Write.body files start p i t = t)
    ∧ (start + n ≤ FIRST_FILE_BLOCK → USBMediumAccess_Write files start p n s = s) := by
  refine ⟨fun i _ hi t => Write_body_below files start p i t (by omega), ?_⟩
  intro h
  unfold USBMediumAccess_Write
  apply forLoop_fixed
  intro i _ hi
  exact Write_body_below files start p i s (by omega)

/-- Witness for C13: a write of all 545 blocks below the file region, with the built-in
file table. -/
theorem Write_below_file_region_witness :
    USBMediumAccess_Write (gcsFilesOnDrive zeroMemory zeroMemory) 0 0 545
        (initialState zeroMemory) = initialState zeroMemory :=
  (Write_below_file_region (gcsFilesOnDrive zeroMemory zeroMemory) 0 0 545
    (initialState zeroMemory) (by decide)).2 (by decide)

/-- C14: the medium state machine: after `USBMediumAccess_Eject`, `USBMediumAccess_GetStatus`
returns `USB_MEDIUM_FAIL` whatever the state was, and ejecting twice is the same as ejecting
once; after `USBMediumAccess_Init` it returns `USB_MEDIUM_OK` whatever the state was; and
`USBMediumAccess_GetStatus` returns the current state and changes nothing. -/
theorem medium_state_machine (s : State) :
    (USBMediumAccess_GetStatus (USBMediumAccess_Eject s)).1 = E_USB_MEDIUM_STATE.USB_MEDIUM_FAIL
    ∧ USBMediumAccess_Eject (USBMediumAccess_Eject s) = USBMediumAccess_Eject s
    ∧ (USBMediumAccess_GetStatus (USBMediumAccess_Init s)).1 = E_USB_MEDIUM_STATE.USB_MEDIUM_OK
    ∧ (USBMediumAccess_GetStatus s).2 = s
    ∧ (USBMediumAccess_GetStatus s).1 = s.geMediumState :=
  ⟨rfl, rfl, rfl, rfl, rfl⟩

end USBMediumAccess

/-! ## Routing of a one-block read -/

namespace USBMediumAccess

theorem Read_body_boot (c : Nat) (files : List S_FILE_DESCRIPTOR) (p : Nat) (s : State) :
    USBMediumAccess_Read.body c files 0 p 0 s
      = { s with env := { s.env with
            mem := ReadBootBlock c 0 p MASS_BLOCK_SIZE s.env.mem } } := by
  unfold USBMediumAccess_Read.body
  simp only [Nat.add_zero]
  rw [if_pos (by decide)]

theorem Read_body_fat1 (c : Nat) (files : List S_FILE_DESCRIPTOR) (b p : Nat) (s : State)
    (h1 : 1 ≤ b) (h2 : b ≤ 256) :
    USBMediumAccess_Read.body c files b p 0 s
      = { s with env := { s.env with
            mem := ReadFAT c files (b - 1) p MASS_BLOCK_SIZE s.env.mem } } := by
  have hcur : b % U32_MOD = b := by
    simp only [U32_MOD]
    omega
  unfold USBMediumAccess_Read.body
  simp only [Nat.add_zero, hcur]
  rw [if_neg (by omega), if_pos (by simp only [FAT_BLOCKS_START, NUM_FAT_BLOCKS]; omega),
    if_neg (by simp only [FAT_BLOCKS_START, NUM_FAT_BLOCKS]; omega)]

theorem Read_body_fat2 (c : Nat) (files : List S_FILE_DESCRIPTOR) (b p : Nat) (s : State)
    (h1 : 257 ≤ b) (h2 : b ≤ 512) :
    USBMediumAccess_Read.body c files b p 0 s
      = { s with env := { s.env with
            mem := ReadFAT c files (b - 257) p MASS_BLOCK_SIZE s.env.mem } } := by
  have hcur : b % U32_MOD = b := by
    simp only [U32_MOD]
    omega
  have hoff : b - FAT_BLOCKS_START - NUM_FAT_BLOCKS = b - 257 := by
    simp only [FAT_BLOCKS_START, NUM_FAT_BLOCKS]
    omega
  unfold USBMediumAccess_Read.body
  simp only [Nat.add_zero, hcur, hoff]
  rw [if_neg (by omega), if_pos (by simp only [FAT_BLOCKS_START, NUM_FAT_BLOCKS]; omega),
    if_pos (by simp only [FAT_BLOCKS_START, NUM_FAT_BLOCKS]; omega)]

theorem Read_body_rootdir (c : Nat) (files : List S_FILE_DESCRIPTOR) (b p : Nat) (s : State)
    (h1 : 513 ≤ b) (h2 : b ≤ 544) :
    USBMediumAccess_Read.body c files b p 0 s
      = { s with env := { s.env with
            mem := ReadRootDir files (b - 513) p MASS_BLOCK_SIZE s.env.mem } } := by
  have hcur : b % U32_MOD = b := by
    simp only [U32_MOD]
    omega
  have hoff : b - (FAT_BLOCKS_START + 2 * NUM_FAT_BLOCKS) = b - 513 := by
    simp only [FAT_BLOCKS_START, NUM_FAT_BLOCKS]
  unfold USBMediumAccess_Read.body
  simp only [Nat.add_zero, hcur, hoff]
  rw [if_neg (by omega), if_neg (by simp only [FAT_BLOCKS_START, NUM_FAT_BLOCKS]; omega),
    if_pos (by simp only [FIRST_FILE_BLOCK, FAT_BLOCKS_START, NUM_FAT_BLOCKS,
      ROOT_DIRECTORY_SIZE_BLOCKS, MAX_NUM_FILES_ROOT, FAT_SECTORSIZE]; omega)]

/-- C17: a one-block `USBMediumAccess_Read` of block `b` (a `U32`) is routed to exactly one
region, with a block offset relative to the start of the region: `b = 0` to `ReadBootBlock`
at byte offset 0; `1 ≤ b ≤ 256` to `ReadFAT(b - 1)`; `257 ≤ b ≤ 512` to `ReadFAT(b - 257)`;
`513 ≤ b ≤ 544` to `ReadRootDir(b - 513)`; and `b ≥ 545` to `memset` of the 512 bytes to
zero followed by `ReadFile(b - 545)`; each with the caller's buffer and size 512. -/
theorem Read_routing (MASS_BLOCK_COUNT : Nat) (files : List S_FILE_DESCRIPTOR) (b p : Nat)
    (s : State) (hb : b < 4294967296) :
    (b = 0 → USBMediumAccess_Read MASS_BLOCK_COUNT files b p 1 s
        = { s with env := { s.env with
              mem := ReadBootBlock MASS_BLOCK_COUNT 0 p 512 s.env.mem } })
    ∧ (1 ≤ b → b ≤ 256 → USBMediumAccess_Read MASS_BLOCK_COUNT files b p 1 s
        = { s with env := { s.env with
              mem := ReadFAT MASS_BLOCK_COUNT files (b - 1) p 512 s.env.mem } })
    ∧ (257 ≤ b → b ≤ 512 → USBMediumAccess_Read MASS_BLOCK_COUNT files b p 1 s
        = { s with env := { s.env with
              mem := ReadFAT MASS_BLOCK_COUNT files (b - 257) p 512 s.env.mem } })
    ∧ (513 ≤ b → b ≤ 544 → USBMediumAccess_Read MASS_BLOCK_COUNT files b p 1 s
        = { s with env := { s.env with
              mem := ReadRootDir files (b - 513) p 512 s.env.mem } })
    ∧ (545 ≤ b → USBMediumAccess_Read MASS_BLOCK_COUNT files b p 1 s
        = ReadFile files (b - 545) p 512
            { s with env := { s.env with mem := memset p 0 512 s.env.mem } }) := by
  refine ⟨?_, ?_, ?_, ?_, ?_⟩
  · intro h
    subst h
    rw [USBMediumAccess_Read_one, Read_body_boot]
  · intro h1 h2
    rw [USBMediumAccess_Read_one, Read_body_fat1 _ _ _ _ _ h1 h2]
  · intro h1 h2
    rw [USBMediumAccess_Read_one, Read_body_fat2 _ _ _ _ _ h1 h2]
  · intro h1 h2
    rw [USBMediumAccess_Read_one, Read_body_rootdir _ _ _ _ _ h1 h2]
  · intro h1
    rw [USBMediumAccess_Read_one, Read_body_file_region _ _ _ _ _ hb (by
      simp only [FIRST_FILE_BLOCK, FAT_BLOCKS_START, NUM_FAT_BLOCKS,
        ROOT_DIRECTORY_SIZE_BLOCKS, MAX_NUM_FILES_ROOT, FAT_SECTORSIZE]
      omega)]
    rfl

/-- Witness for C17: block 300 lies in the second FAT and is read as FAT block 43. -/
theorem Read_routing_witness :
    USBMediumAccess_Read 0 [constFile 2000 zeroMemory] 300 0 1 (initialState zeroMemory)
      = { initialState zeroMemory with env := { (initialState zeroMemory).env with
            mem := ReadFAT 0 [constFile 2000 zeroMemory] (300 - 257) 0 512
              (initialState zeroMemory).env.mem } } :=
  (Read_routing 0 [constFile 2000 zeroMemory] 300 0 (initialState zeroMemory)
    (by decide)).2.2.1 (by decide) (by decide)

/-- C18: the two FAT copies are byte-identical: for every file table and every `k < 256`,
the one-block read of block `1 + k` (FAT1) and the one-block read of block `257 + k` (FAT2)
give the same result, both being `ReadFAT` at relative block `k`. -/
theorem Read_fat_copies_equal (MASS_BLOCK_COUNT : Nat) (files : List S_FILE_DESCRIPTOR)
    (k p : Nat) (s : State) (hk : k < 256) :
    USBMediumAccess_Read MASS_BLOCK_COUNT files (1 + k) p 1 s
      = USBMediumAccess_Read MASS_BLOCK_COUNT files (257 + k) p 1 s
    ∧ (USBMediumAccess_Read MASS_BLOCK_COUNT files (1 + k) p 1 s).env.mem
      = ReadFAT MASS_BLOCK_COUNT files k p MASS_BLOCK_SIZE s.env.mem := by
  have e1 : 1 + k - 1 = k := by omega
  have e2 : 257 + k - 257 = k := by omega
  rw [USBMediumAccess_Read_one, USBMediumAccess_Read_one,
    Read_body_fat1 MASS_BLOCK_COUNT files (1 + k) p s (by omega) (by omega),
    Read_body_fat2 MASS_BLOCK_COUNT files (257 + k) p s (by omega) (by omega), e1, e2]
  constructor
  · rfl
  · dsimp only

/-- Witness for C18: the last FAT block, `k = 255` (blocks 256 and 512). -/
theorem Read_fat_copies_equal_witness :
    USBMediumAccess_Read 0 [constFile 2000 zeroMemory] (1 + 255) 0 1 (initialState zeroMemory)
      = USBMediumAccess_Read 0 [constFile 2000 zeroMemory] (257 + 255) 0 1
          (initialState zeroMemory) :=
  (Read_fat_copies_equal 0 [constFile 2000 zeroMemory] 255 0 (initialState zeroMemory)
    (by decide)).1

end USBMediumAccess

/-! ## Reserved FAT entries and the boot record -/

namespace USBMediumAccess

theorem ReadFAT_entry_2 (c : Nat) (files : List S_FILE_DESCRIPTOR) :
    ReadFAT.entry c files 2 = 0xFFFF := rfl

theorem ReadFAT_entry_3 (c : Nat) (files : List S_FILE_DESCRIPTOR) :
    ReadFAT.entry c files 3 = 0xFFFF := rfl

theorem ReadFAT_block0_byte (c : Nat) (files : List S_FILE_DESCRIPTOR) (p j : Nat)
    (mem : Memory) (hj : j < 512) :
    ReadFAT c files 0 p MASS_BLOCK_SIZE mem (p + j)
      = (ReadFAT.entry c files j / 256 ^ (j % 2)) % 256 := by
  have haddr : (0 * MASS_BLOCK_SIZE + (p + j - p)) % U32_MOD = j := by
    simp only [MASS_BLOCK_SIZE, U32_MOD]
    omega
  rw [ReadFAT_apply, if_pos (by simp only [MASS_BLOCK_SIZE]; omega), haddr, byte_and_shift]

/-- C19: for every file table the first four bytes of the FAT (`ReadFAT` at relative block
0, bytes 0..3) are `F0 FF FF FF`: byte 0 is the media descriptor byte of the boot block (boot
byte 21, `0xF0`), so entry 0 decodes to `0xFFF0` (media byte low, `0xFF` high), and entry 1
decodes to `0xFFFF`. -/
theorem ReadFAT_reserved_entries (MASS_BLOCK_COUNT : Nat) (files : List S_FILE_DESCRIPTOR)
    (p : Nat) (mem : Memory) :
    ReadFAT MASS_BLOCK_COUNT files 0 p MASS_BLOCK_SIZE mem (p + 0) = 0xF0
    ∧ ReadFAT MASS_BLOCK_COUNT files 0 p MASS_BLOCK_SIZE mem (p + 1) = 0xFF
    ∧ ReadFAT MASS_BLOCK_COUNT files 0 p MASS_BLOCK_SIZE mem (p + 2) = 0xFF
    ∧ ReadFAT MASS_BLOCK_COUNT files 0 p MASS_BLOCK_SIZE mem (p + 3) = 0xFF
    ∧ ReadFAT MASS_BLOCK_COUNT files 0 p MASS_BLOCK_SIZE mem (p + 0)
        = (cau8BootBlockData MASS_BLOCK_COUNT).getD 21 0
    ∧ fatEntry16 MASS_BLOCK_COUNT files 0 = 0xFFF0
    ∧ fatEntry16 MASS_BLOCK_COUNT files 1 = 0xFFFF := by
  have b0 := ReadFAT_block0_byte MASS_BLOCK_COUNT files p 0 mem (by decide)
  have b1 := ReadFAT_block0_byte MASS_BLOCK_COUNT files p 1 mem (by decide)
  have b2 := ReadFAT_block0_byte MASS_BLOCK_COUNT files p 2 mem (by decide)
  have b3 := ReadFAT_block0_byte MASS_BLOCK_COUNT files p 3 mem (by decide)
  rw [ReadFAT_entry_0] at b0
  rw [ReadFAT_entry_1] at b1
  rw [ReadFAT_entry_2] at b2
  rw [ReadFAT_entry_3] at b3
  refine ⟨by rw [b0]; decide, by rw [b1]; decide, by rw [b2]; decide, by rw [b3]; decide,
    by rw [b0, cau8BootBlockData_media]; decide, ?_, ?_⟩
  · unfold fatEntry16
    rw [fatByteAt_eq _ _ _ (by decide), fatByteAt_eq _ _ _ (by decide), ReadFAT_entry_0,
      ReadFAT_entry_1]
    decide
  · unfold fatEntry16
    rw [fatByteAt_eq _ _ _ (by decide), fatByteAt_eq _ _ _ (by decide), ReadFAT_entry_2,
      ReadFAT_entry_3]
    decide

theorem ReadBootBlock_byte_record (c o : Nat) (h : o < 62) :
    ReadBootBlock.byte c o = (cau8BootBlockData c).getD o 0 := by
  unfold ReadBootBlock.byte
  rw [if_pos (by rw [cau8BootBlockData_length]; exact h)]

theorem ReadBootBlock_byte_filler (c o : Nat) (h1 : 62 ≤ o) (h2 : o < 510) :
    ReadBootBlock.byte c o = 0x90 := by
  unfold ReadBootBlock.byte
  rw [if_neg (by rw [cau8BootBlockData_length]; omega), if_neg (by omega), if_neg (by omega)]

/-- C20: `ReadBootBlock(0, buf, 512)` stores, for every offset `o < 62`, byte `o` of the
static boot record `cau8BootBlockData`, and for every `o` with `62 ≤ o < 510` the filler byte
`0x90`.  The record has 62 bytes: the jump code `EB 3E 90`, the OEM name `MSDOS5.0` at 3..10,
the volume label `Ketyere MSD` at 43..53 and the type label `FAT16   ` at 54..61, the BIOS
parameter fields lying in between. -/
theorem ReadBootBlock_record_and_filler (MASS_BLOCK_COUNT p : Nat) (mem : Memory) (o : Nat) :
    (o < 62 → ReadBootBlock MASS_BLOCK_COUNT 0 p MASS_BLOCK_SIZE mem (p + o)
        = (cau8BootBlockData MASS_BLOCK_COUNT).getD o 0)
    ∧ (62 ≤ o → o < 510 → ReadBootBlock MASS_BLOCK_COUNT 0 p MASS_BLOCK_SIZE mem (p + o) = 0x90)
    ∧ (cau8BootBlockData MASS_BLOCK_COUNT).length = 62
    ∧ (cau8BootBlockData MASS_BLOCK_COUNT).take 3 = [0xEB, 0x3E, 0x90]
    ∧ ((cau8BootBlockData MASS_BLOCK_COUNT).drop 3).take 8 = "MSDOS5.0".data.map Char.toNat
    ∧ ((cau8BootBlockData MASS_BLOCK_COUNT).drop 43).take 11
        = "Ketyere MSD".data.map Char.toNat
    ∧ ((cau8BootBlockData MASS_BLOCK_COUNT).drop 54).take 8
        = "FAT16   ".data.map Char.toNat := by
  have hsub : p + o - p = o := by omega
  refine ⟨?_, ?_, cau8BootBlockData_length MASS_BLOCK_COUNT, rfl, rfl, rfl, rfl⟩
  · intro h
    rw [ReadBootBlock_block_apply, if_pos (by omega), hsub, ReadBootBlock_byte_record _ _ h]
  · intro h1 h2
    rw [ReadBootBlock_block_apply, if_pos (by omega), hsub,
      ReadBootBlock_byte_filler _ _ h1 h2]

/-- Witness for C20: offset 21 holds the media descriptor of the record and offset 100 the
filler. -/
theorem ReadBootBlock_record_and_filler_witness :
    ReadBootBlock 0 0 0 MASS_BLOCK_SIZE zeroMemory (0 + 21) = (cau8BootBlockData 0).getD 21 0
    ∧ ReadBootBlock 0 0 0 MASS_BLOCK_SIZE zeroMemory (0 + 100) = 0x90 :=
  ⟨(ReadBootBlock_record_and_filler 0 0 zeroMemory 21).1 (by decide),
   (ReadBootBlock_record_and_filler 0 0 zeroMemory 100).2.1 (by decide) (by decide)⟩

end USBMediumAccess

/-! ## Writes to files -/

namespace USBMediumAccess

set_option maxRecDepth 100000 in
theorem cau8LEDControlFile_length : cau8LEDControlFile.length = 134 := by decide

theorem gcsFilesOnDrive_codeSum_0 (pastReadme pastLEDControl : Memory) :
    codeSum ((gcsFilesOnDrive pastReadme pastLEDControl).take 0) = 0 := rfl

theorem gcsFilesOnDrive_codeSum_3 (pastReadme pastLEDControl : Memory) :
    codeSum ((gcsFilesOnDrive pastReadme pastLEDControl).take (2 + 1)) = 393 := by
  simp only [gcsFilesOnDrive, List.take_succ_cons, List.take_zero, codeSum_cons, codeSum_nil,
    cau8ReadmeFile_length, cau8LEDControlFile_length]
  decide

theorem gcsFilesOnDrive_codeSum_4 (pastReadme pastLEDControl : Memory) :
    codeSum ((gcsFilesOnDrive pastReadme pastLEDControl).take (3 + 1)) = 33161 := by
  simp only [gcsFilesOnDrive, List.take_succ_cons, List.take_zero, codeSum_cons, codeSum_nil,
    cau8ReadmeFile_length, cau8LEDControlFile_length]
  decide

theorem WriteFile_no_handler (files : List S_FILE_DESCRIPTOR) (k p n : Nat) (t : State)
    (h : (fileAt files (WriteFile.scan k (files.take (gcu8NumFilesOnDrive files)) 0 0 0).1
      ).pWriteHandler = none) :
    WriteFile files k p n t = t := by
  unfold WriteFile
  simp only [h]
  split <;> rfl

theorem WriteFile_callback (files : List S_FILE_DESCRIPTOR) (k p n f st en : Nat) (t : State)
    (g : pFileCallBackFunction)
    (hscan : ReadFile.scan k (files.take (gcu8NumFilesOnDrive files)) 0 0 0 = (f, st, en))
    (hf : f < gcu8NumFilesOnDrive files)
    (hg : (fileAt files f).pWriteHandler = some g) :
    WriteFile files k p n t
      = { t with
          env := g ((u32Sub k st * MASS_BLOCK_SIZE) % U32_MOD) p n t.env
          calls := t.calls ++ [FileCall.write f ((u32Sub k st * MASS_BLOCK_SIZE) % U32_MOD) p n
            (readBytes t.env.mem p n)] } := by
  unfold WriteFile
  simp only [WriteFile_scan_eq, hscan]
  rw [if_neg (by omega)]
  simp only [hg]

/-- C12: for every file table, a `USBMediumAccess_Write` all of whose blocks are resolved by
`WriteFile` to files without a write handler returns the state it was given: no callback is
called, no hardware operation is made and nothing is stored; so every `USBMediumAccess_Read`
after it returns what it returns without the write. -/
theorem Write_readonly_discarded (files : List S_FILE_DESCRIPTOR) (start p n : Nat) (s : State)
    (h : ∀ i, i < n →
      (WriteFile.scan (u32Sub ((start + i) % U32_MOD) FIRST_FILE_BLOCK)
          (files.take (gcu8NumFilesOnDrive files)) 0 0 0).1 < gcu8NumFilesOnDrive files
      ∧ (fileAt files (WriteFile.scan (u32Sub ((start + i) % U32_MOD) FIRST_FILE_BLOCK)
          (files.take (gcu8NumFilesOnDrive files)) 0 0 0).1).pWriteHandler = none) :
    USBMediumAccess_Write files start p n s = s
    ∧ ∀ (c b q m : Nat), USBMediumAccess_Read c files b q m
          (USBMediumAccess_Write files start p n s)
        = USBMediumAccess_Read c files b q m s := by
  have hw : USBMediumAccess_Write files start p n s = s := by
    unfold USBMediumAccess_Write
    apply forLoop_fixed
    intro i _ hi
    unfold USBMediumAccess_Write.body
    simp only
    split
    · exact WriteFile_no_handler files _ _ _ s (h i (by omega)).2
    · rfl
  refine ⟨hw, ?_⟩
  intro c b q m
  rw [hw]

/-- Witness for C12: with the built-in table, a write of blocks 545 (README.TXT) and 546,
547 (LONGFILE.TXT). -/
theorem Write_readonly_discarded_witness :
    USBMediumAccess_Write (gcsFilesOnDrive zeroMemory zeroMemory) 545 0 3
        (initialState (fun i => i % 251)) = initialState (fun i => i % 251) := by
  refine (Write_readonly_discarded (gcsFilesOnDrive zeroMemory zeroMemory) 545 0 3
    (initialState (fun i => i % 251)) ?_).1
  intro i hi
  have h0 := ReadFile_scan_found (gcsFilesOnDrive zeroMemory zeroMemory) 0 0 (by decide)
    (by rw [gcsFilesOnDrive_codeSum_0]) (by rw [gcsFilesOnDrive_codeSum_1]; decide)
  have h1 := ReadFile_scan_found (gcsFilesOnDrive zeroMemory zeroMemory) 1 1 (by decide)
    (by rw [gcsFilesOnDrive_codeSum_1]) (by rw [gcsFilesOnDrive_codeSum_2]; decide)
  have h2 := ReadFile_scan_found (gcsFilesOnDrive zeroMemory zeroMemory) 2 1 (by decide)
    (by rw [gcsFilesOnDrive_codeSum_1]; decide) (by rw [gcsFilesOnDrive_codeSum_2]; decide)
  have e0 : u32Sub ((545 + 0) % U32_MOD) FIRST_FILE_BLOCK = 0 := by decide
  have e1 : u32Sub ((545 + 1) % U32_MOD) FIRST_FILE_BLOCK = 1 := by decide
  have e2 : u32Sub ((545 + 2) % U32_MOD) FIRST_FILE_BLOCK = 2 := by decide
  interval_cases i
  · rw [e0, WriteFile_scan_eq, h0]
    exact ⟨by decide, rfl⟩
  · rw [e1, WriteFile_scan_eq, h1]
    exact ⟨by decide, rfl⟩
  · rw [e2, WriteFile_scan_eq, h2]
    exact ⟨by decide, rfl⟩

end USBMediumAccess

namespace USBMediumAccess

theorem USBMediumAccess_Write_two (files : List S_FILE_DESCRIPTOR) (b p : Nat) (s : State) :
    USBMediumAccess_Write files b p 2 s
      = USBMediumAccess_Write.body files b p 1 (USBMediumAccess_Write.body files b p 0 s) :=
  rfl

theorem Write_body_spiflash (pastReadme pastLEDControl : Memory) (start p i m : Nat)
    (t : State) (hstart : FIRST_FILE_BLOCK ≤ start) (hcur : start + i = 938 + m)
    (hm : m < 32768) :
    USBMediumAccess_Write.body (gcsFilesOnDrive pastReadme pastLEDControl) start p i t
      = { t with
          env := FlashWriteCallback (512 * m) (p + i) MASS_BLOCK_SIZE t.env
          calls := t.calls ++ [FileCall.write 3 (512 * m) (p + i) MASS_BLOCK_SIZE
            (readBytes t.env.mem (p + i) MASS_BLOCK_SIZE)] } := by
  have hscan := ReadFile_scan_found (gcsFilesOnDrive pastReadme pastLEDControl) (393 + m) 3
    (by rw [gcsFilesOnDrive_count]; omega)
    (by rw [gcsFilesOnDrive_codeSum_3]; omega)
    (by rw [gcsFilesOnDrive_codeSum_4]; omega)
  rw [gcsFilesOnDrive_codeSum_3, gcsFilesOnDrive_codeSum_4] at hscan
  have hmod : (start + i) % U32_MOD = 938 + m := by
    rw [hcur]
    simp only [U32_MOD]
    omega
  have hk : u32Sub (938 + m) FIRST_FILE_BLOCK = 393 + m := by
    rw [u32Sub_eq _ _ (by simp only [FIRST_FILE_BLOCK, FAT_BLOCKS_START, NUM_FAT_BLOCKS,
        ROOT_DIRECTORY_SIZE_BLOCKS, MAX_NUM_FILES_ROOT, FAT_SECTORSIZE]; omega)
      (by simp only [U32_MOD]; omega)]
    simp only [FIRST_FILE_BLOCK, FAT_BLOCKS_START, NUM_FAT_BLOCKS,
      ROOT_DIRECTORY_SIZE_BLOCKS, MAX_NUM_FILES_ROOT, FAT_SECTORSIZE]
    omega
  have hoff : u32Sub (393 + m) 393 = m := by
    rw [u32Sub_eq _ _ (by omega) (by simp only [U32_MOD]; omega)]
    omega
  have hmul : m * MASS_BLOCK_SIZE % U32_MOD = 512 * m := by
    simp only [MASS_BLOCK_SIZE, U32_MOD]
    omega
  unfold USBMediumAccess_Write.body
  simp only [hmod]
  rw [if_pos hstart, hk,
    WriteFile_callback _ _ _ _ _ _ _ _ FlashWriteCallback hscan
      (by rw [gcsFilesOnDrive_count]; omega) rfl, hoff, hmul]

theorem FlashWriteCallback_erase (off p n : Nat) (env : Env) (h : off % 65536 = 0) :
    FlashWriteCallback off p n env
      = SPIFlash_Write_Polling off p n (SPIFlash_EraseSector_Polling off env) := by
  unfold FlashWriteCallback
  simp only
  rw [if_pos h.symm]

theorem FlashWriteCallback_no_erase (off p n : Nat) (env : Env) (h : off % 65536 ≠ 0) :
    FlashWriteCallback off p n env = SPIFlash_Write_Polling off p n env := by
  unfold FlashWriteCallback
  simp only
  rw [if_neg (fun h2 => h h2.symm)]

/-- C11 (fails on the code): with the built-in file table, `USBMediumAccess_Write(938,
buffer, 2)` writes the first two blocks of SPIFLASH.BIN (file 3).  The write handler is
called once per block, with byte offsets 0 and 512 and size 512, but the second call is
handed `&(pu8Buffer[ 1 ])`: its data are `buffer[1..512]`, not `buffer[512..1023]`, and
these are the bytes programmed into the flash at address 512. -/
theorem USBMediumAccess_Write_blocks_overlap (pastReadme pastLEDControl : Memory) (p : Nat)
    (s : State) :
    (USBMediumAccess_Write (gcsFilesOnDrive pastReadme pastLEDControl) 938 p 2 s).calls
      = s.calls ++
        [FileCall.write 3 0 (p + 0) 512 (readBytes s.env.mem (p + 0) 512),
         FileCall.write 3 512 (p + 1) 512 (readBytes s.env.mem (p + 1) 512)]
    ∧ (USBMediumAccess_Write (gcsFilesOnDrive pastReadme pastLEDControl) 938 p 2 s).env.ops
      = s.env.ops ++
        [HwOp.flashEraseSector 0,
         HwOp.flashWrite 0 (readBytes s.env.mem (p + 0) 512) 512,
         HwOp.flashWrite 512 (readBytes s.env.mem (p + 1) 512) 512] := by
  have hfirst : FIRST_FILE_BLOCK ≤ 938 := by decide
  rw [USBMediumAccess_Write_two,
    Write_body_spiflash pastReadme pastLEDControl 938 p 0 0 s hfirst rfl (by decide),
    Write_body_spiflash pastReadme pastLEDControl 938 p 1 1 _ hfirst rfl (by decide),
    FlashWriteCallback_no_erase (512 * 1) _ _ _ (by decide),
    FlashWriteCallback_erase (512 * 0) _ _ _ (by decide)]
  constructor
  · simp [SPIFlash_Write_Polling, SPIFlash_EraseSector_Polling]
  · simp [SPIFlash_Write_Polling, SPIFlash_EraseSector_Polling]

end USBMediumAccess

/-! ## The medium state and the read and write paths -/

namespace USBMediumAccess

/-- The state with the static variable `geMediumState` set to `g`. -/
theorem ReadFile_setMedium (files : List S_FILE_DESCRIPTOR) (k p n : Nat) (t : State)
    (g : E_USB_MEDIUM_STATE) :
    ReadFile files k p n { t with geMediumState := g }
      = { ReadFile files k p n t with geMediumState := g } := by
  unfold ReadFile
  simp only
  split
  · rfl
  · split
    · rfl
    · split <;> rfl

theorem WriteFile_setMedium (files : List S_FILE_DESCRIPTOR) (k p n : Nat) (t : State)
    (g : E_USB_MEDIUM_STATE) :
    WriteFile files k p n { t with geMediumState := g }
      = { WriteFile files k p n t with geMediumState := g } := by
  unfold WriteFile
  simp only
  split
  · rfl
  · split <;> rfl

theorem Read_body_setMedium (c : Nat) (files : List S_FILE_DESCRIPTOR) (b p i : Nat)
    (t : State) (g : E_USB_MEDIUM_STATE) :
    USBMediumAccess_Read.body c files b p i { t with geMediumState := g }
      = { USBMediumAccess_Read.body c files b p i t with geMediumState := g } := by
  unfold USBMediumAccess_Read.body
  dsimp only
  split
  · dsimp only
  · split
    · split <;> dsimp only
    · split
      · dsimp only
      · exact ReadFile_setMedium files _ _ _
          { t with env := { t.env with
              mem := memset (p + i) 0 MASS_BLOCK_SIZE t.env.mem } } g

theorem Write_body_setMedium (files : List S_FILE_DESCRIPTOR) (b p i : Nat)
    (t : State) (g : E_USB_MEDIUM_STATE) :
    USBMediumAccess_Write.body files b p i { t with geMediumState := g }
      = { USBMediumAccess_Write.body files b p i t with geMediumState := g } := by
  unfold USBMediumAccess_Write.body
  simp only
  split
  · exact WriteFile_setMedium files _ _ _ _ g
  · rfl

theorem Read_setMedium (c : Nat) (files : List S_FILE_DESCRIPTOR) (b p n : Nat)
    (s : State) (g : E_USB_MEDIUM_STATE) :
    USBMediumAccess_Read c files b p n { s with geMediumState := g }
      = { USBMediumAccess_Read c files b p n s with geMediumState := g } := by
  unfold USBMediumAccess_Read
  exact forLoop_commute _ (fun t => { t with geMediumState := g })
    (fun i t => Read_body_setMedium c files b p i t g) n 0 s

theorem Write_setMedium (files : List S_FILE_DESCRIPTOR) (b p n : Nat)
    (s : State) (g : E_USB_MEDIUM_STATE) :
    USBMediumAccess_Write files b p n { s with geMediumState := g }
      = { USBMediumAccess_Write files b p n s with geMediumState := g } := by
  unfold USBMediumAccess_Write
  exact forLoop_commute _ (fun t => { t with geMediumState := g })
    (fun i t => Write_body_setMedium files b p i t g) n 0 s

theorem Read_env_setMedium (c : Nat) (files : List S_FILE_DESCRIPTOR) (b p n : Nat)
    (s : State) (g : E_USB_MEDIUM_STATE) :
    (USBMediumAccess_Read c files b p n { s with geMediumState := g }).env
        = (USBMediumAccess_Read c files b p n s).env
    ∧ (USBMediumAccess_Read c files b p n { s with geMediumState := g }).calls
        = (USBMediumAccess_Read c files b p n s).calls := by
  rw [Read_setMedium]
  exact ⟨rfl, rfl⟩

theorem Write_env_setMedium (files : List S_FILE_DESCRIPTOR) (b p n : Nat)
    (s : State) (g : E_USB_MEDIUM_STATE) :
    (USBMediumAccess_Write files b p n { s with geMediumState := g }).env
        = (USBMediumAccess_Write files b p n s).env
    ∧ (USBMediumAccess_Write files b p n { s with geMediumState := g }).calls
        = (USBMediumAccess_Write files b p n s).calls := by
  rw [Write_setMedium]
  exact ⟨rfl, rfl⟩

theorem Read_geMediumState (c : Nat) (files : List S_FILE_DESCRIPTOR) (b p n : Nat)
    (s : State) :
    (USBMediumAccess_Read c files b p n s).geMediumState = s.geMediumState := by
  have h := Read_setMedium c files b p n s s.geMediumState
  have hs : ({ s with geMediumState := s.geMediumState } : State) = s := rfl
  rw [hs] at h
  rw [h]

theorem Write_geMediumState (files : List S_FILE_DESCRIPTOR) (b p n : Nat) (s : State) :
    (USBMediumAccess_Write files b p n s).geMediumState = s.geMediumState := by
  have h := Write_setMedium files b p n s s.geMediumState
  have hs : ({ s with geMediumState := s.geMediumState } : State) = s := rfl
  rw [hs] at h
  rw [h]

theorem MediumCall_run_fail (c : Nat) (files : List S_FILE_DESCRIPTOR) (call : MediumCall)
    (t : State) (h : t.geMediumState = E_USB_MEDIUM_STATE.USB_MEDIUM_FAIL) :
    (call.run c files t).geMediumState = E_USB_MEDIUM_STATE.USB_MEDIUM_FAIL := by
  cases call with
  | Read b p n => exact (Read_geMediumState c files b p n t).trans h
  | Write b p n => exact (Write_geMediumState files b p n t).trans h
  | GetStatus => exact h
  | Eject => rfl

theorem runCalls_fail (c : Nat) (files : List S_FILE_DESCRIPTOR) (calls : List MediumCall)
    (t : State) (h : t.geMediumState = E_USB_MEDIUM_STATE.USB_MEDIUM_FAIL) :
    (runCalls c files calls t).geMediumState = E_USB_MEDIUM_STATE.USB_MEDIUM_FAIL := by
  induction calls generalizing t with
  | nil => exact h
  | cons call rest ih =>
    unfold runCalls
    rw [List.foldl_cons]
    exact ih _ (MediumCall_run_fail c files call t h)

/-- C15: for every file table, `USBMediumAccess_Read` and `USBMediumAccess_Write` leave
`geMediumState` as it is and do not consult it: they commute with setting the variable.
Hence, once the medium is ejected, `USBMediumAccess_GetStatus` returns `USB_MEDIUM_FAIL`
after any sequence of Read, Write, GetStatus and Eject calls, and a Read or Write issued in
the ejected state has the same effect on the buffer, the hardware and the callback trace
as the same call issued in the OK state.  (File callbacks act on the buffer and the
hardware; they do not call the interface of the medium.) -/
theorem Read_Write_ignore_medium_state (MASS_BLOCK_COUNT : Nat)
    (files : List S_FILE_DESCRIPTOR) (b p n : Nat) (s : State) (calls : List MediumCall) :
    (USBMediumAccess_Read MASS_BLOCK_COUNT files b p n s).geMediumState = s.geMediumState
    ∧ (USBMediumAccess_Write files b p n s).geMediumState = s.geMediumState
    ∧ (USBMediumAccess_GetStatus
          (runCalls MASS_BLOCK_COUNT files calls (USBMediumAccess_Eject s))).1
        = E_USB_MEDIUM_STATE.USB_MEDIUM_FAIL
    ∧ (USBMediumAccess_Read MASS_BLOCK_COUNT files b p n (USBMediumAccess_Eject s)).env
        = (USBMediumAccess_Read MASS_BLOCK_COUNT files b p n (USBMediumAccess_Init s)).env
    ∧ (USBMediumAccess_Read MASS_BLOCK_COUNT files b p n (USBMediumAccess_Eject s)).calls
        = (USBMediumAccess_Read MASS_BLOCK_COUNT files b p n (USBMediumAccess_Init s)).calls
    ∧ (USBMediumAccess_Write files b p n (USBMediumAccess_Eject s)).env
        = (USBMediumAccess_Write files b p n (USBMediumAccess_Init s)).env
    ∧ (USBMediumAccess_Write files b p n (USBMediumAccess_Eject s)).calls
        = (USBMediumAccess_Write files b p n (USBMediumAccess_Init s)).calls := by
  have hr1 := Read_env_setMedium MASS_BLOCK_COUNT files b p n s
    E_USB_MEDIUM_STATE.USB_MEDIUM_FAIL
  have hr2 := Read_env_setMedium MASS_BLOCK_COUNT files b p n s
    E_USB_MEDIUM_STATE.USB_MEDIUM_OK
  have hw1 := Write_env_setMedium files b p n s E_USB_MEDIUM_STATE.USB_MEDIUM_FAIL
  have hw2 := Write_env_setMedium files b p n s E_USB_MEDIUM_STATE.USB_MEDIUM_OK
  exact ⟨Read_geMediumState _ _ _ _ _ _, Write_geMediumState _ _ _ _ _,
    runCalls_fail _ _ _ _ rfl, hr1.1.trans hr2.1.symm, hr1.2.trans hr2.2.symm,
    hw1.1.trans hw2.1.symm, hw1.2.trans hw2.2.symm⟩

end USBMediumAccess

/-! ## Determinism of the read path -/

namespace USBMediumAccess

theorem ReadFile_index_ge (files : List S_FILE_DESCRIPTOR) (k p n : Nat) (t : State)
    (h : (ReadFile.scan k (files.take (gcu8NumFilesOnDrive files)) 0 0 0).1
      ≥ gcu8NumFilesOnDrive files) :
    ReadFile files k p n t = t := by
  unfold ReadFile
  simp only
  rw [if_pos h]

theorem ReadFile_const (files : List S_FILE_DESCRIPTOR) (k p n : Nat) (t : State)
    (h : ¬ (ReadFile.scan k (files.take (gcu8NumFilesOnDrive files)) 0 0 0).1
      ≥ gcu8NumFilesOnDrive files)
    (htype : (fileAt files (ReadFile.scan k (files.take (gcu8NumFilesOnDrive files)) 0 0 0).1
      ).eReadCallbackType = E_READ_CB_PTR_TYPE.CONST_DATA_FILE) :
    ReadFile files k p n t
      = { t with env := { t.env with
            mem := forLoop (fun u32Index m =>
                store m (p + u32Index)
                  ((fileAt files (ReadFile.scan k (files.take (gcu8NumFilesOnDrive files))
                      0 0 0).1).uReadHandler.pu8ConstantArray
                    ((u32Sub k (ReadFile.scan k (files.take (gcu8NumFilesOnDrive files))
                      0 0 0).2.1 * MASS_BLOCK_SIZE + u32Index) % U32_MOD)))
              n 0 t.env.mem } } := by
  unfold ReadFile
  simp only
  rw [if_neg h, if_pos htype]

theorem ReadFile_null (files : List S_FILE_DESCRIPTOR) (k p n : Nat) (t : State)
    (h : ¬ (ReadFile.scan k (files.take (gcu8NumFilesOnDrive files)) 0 0 0).1
      ≥ gcu8NumFilesOnDrive files)
    (htype : (fileAt files (ReadFile.scan k (files.take (gcu8NumFilesOnDrive files)) 0 0 0).1
      ).eReadCallbackType ≠ E_READ_CB_PTR_TYPE.CONST_DATA_FILE)
    (hg : (fileAt files (ReadFile.scan k (files.take (gcu8NumFilesOnDrive files)) 0 0 0).1
      ).uReadHandler.pFuncRead = none) :
    ReadFile files k p n t = t := by
  unfold ReadFile
  simp only
  rw [if_neg h, if_neg htype]
  simp only [hg]

theorem ReadFile_some (files : List S_FILE_DESCRIPTOR) (k p n : Nat) (t : State)
    (g : pFileCallBackFunction)
    (h : ¬ (ReadFile.scan k (files.take (gcu8NumFilesOnDrive files)) 0 0 0).1
      ≥ gcu8NumFilesOnDrive files)
    (htype : (fileAt files (ReadFile.scan k (files.take (gcu8NumFilesOnDrive files)) 0 0 0).1
      ).eReadCallbackType ≠ E_READ_CB_PTR_TYPE.CONST_DATA_FILE)
    (hg : (fileAt files (ReadFile.scan k (files.take (gcu8NumFilesOnDrive files)) 0 0 0).1
      ).uReadHandler.pFuncRead = some g) :
    (ReadFile files k p n t).env
      = g ((u32Sub k (ReadFile.scan k (files.take (gcu8NumFilesOnDrive files)) 0 0 0).2.1
          * MASS_BLOCK_SIZE) % U32_MOD) p n t.env := by
  unfold ReadFile
  simp only
  rw [if_neg h, if_neg htype]
  simp only [hg]

/-- The effect of `ReadFile` on two states with the same flash contents whose buffers
agree on the bytes handed to it: the chip is left alone, the bytes stored are the same, and
nothing else is stored. -/
theorem ReadFile_window (files : List S_FILE_DESCRIPTOR) (k p n : Nat)
    (hpure : ∀ f g, f < gcu8NumFilesOnDrive files →
      (fileAt files f).eReadCallbackType ≠ E_READ_CB_PTR_TYPE.CONST_DATA_FILE →
      (fileAt files f).uReadHandler.pFuncRead = some g → PureReadHandler g)
    (t t' : State) (hc : t.env.chip.contents = t'.env.chip.contents)
    (hwin : ∀ j, p ≤ j → j < p + n → t.env.mem j = t'.env.mem j) :
    (ReadFile files k p n t).env.chip = t.env.chip
    ∧ ∀ j, (ReadFile files k p n t).env.mem j
        = if p ≤ j ∧ j < p + n then (ReadFile files k p n t').env.mem j else t.env.mem j := by
  by_cases hidx : (ReadFile.scan k (files.take (gcu8NumFilesOnDrive files)) 0 0 0).1
      ≥ gcu8NumFilesOnDrive files
  · rw [ReadFile_index_ge files k p n t hidx, ReadFile_index_ge files k p n t' hidx]
    refine ⟨rfl, fun j => ?_⟩
    by_cases hj : p ≤ j ∧ j < p + n
    · rw [if_pos hj]
      exact hwin j hj.1 hj.2
    · rw [if_neg hj]
  · by_cases htype : (fileAt files
        (ReadFile.scan k (files.take (gcu8NumFilesOnDrive files)) 0 0 0).1).eReadCallbackType
        = E_READ_CB_PTR_TYPE.CONST_DATA_FILE
    · rw [ReadFile_const files k p n t hidx htype, ReadFile_const files k p n t' hidx htype]
      refine ⟨rfl, fun j => ?_⟩
      dsimp only
      rw [forLoop_store_apply (fun u32Index => (fileAt files
          (ReadFile.scan k (files.take (gcu8NumFilesOnDrive files)) 0 0 0).1
          ).uReadHandler.pu8ConstantArray
          ((u32Sub k (ReadFile.scan k (files.take (gcu8NumFilesOnDrive files)) 0 0 0).2.1
            * MASS_BLOCK_SIZE + u32Index) % U32_MOD)) p n 0 t.env.mem j,
        forLoop_store_apply (fun u32Index => (fileAt files
          (ReadFile.scan k (files.take (gcu8NumFilesOnDrive files)) 0 0 0).1
          ).uReadHandler.pu8ConstantArray
          ((u32Sub k (ReadFile.scan k (files.take (gcu8NumFilesOnDrive files)) 0 0 0).2.1
            * MASS_BLOCK_SIZE + u32Index) % U32_MOD)) p n 0 t'.env.mem j]
      simp only [Nat.add_zero]
      split <;> rfl
    · cases hg : (fileAt files
          (ReadFile.scan k (files.take (gcu8NumFilesOnDrive files)) 0 0 0).1
          ).uReadHandler.pFuncRead with
      | none =>
        rw [ReadFile_null files k p n t hidx htype hg,
          ReadFile_null files k p n t' hidx htype hg]
        refine ⟨rfl, fun j => ?_⟩
        by_cases hj : p ≤ j ∧ j < p + n
        · rw [if_pos hj]
          exact hwin j hj.1 hj.2
        · rw [if_neg hj]
      | some g =>
        have hp := hpure _ g (by omega) htype hg
        rw [ReadFile_some files k p n t g hidx htype hg,
          ReadFile_some files k p n t' g hidx htype hg]
        exact hp _ p n t.env t'.env hc

end USBMediumAccess

namespace USBMediumAccess

theorem ReadBootBlock_window (c q : Nat) (m m' : Memory) (j : Nat) :
    ReadBootBlock c 0 q MASS_BLOCK_SIZE m j
      = if q ≤ j ∧ j < q + MASS_BLOCK_SIZE then ReadBootBlock c 0 q MASS_BLOCK_SIZE m' j
        else m j := by
  rw [ReadBootBlock_block_apply, ReadBootBlock_block_apply]
  by_cases h : q ≤ j ∧ j < q + 512
  · rw [if_pos h, if_pos h, if_pos h]
  · rw [if_neg h, if_neg h]

theorem ReadFAT_window (c : Nat) (files : List S_FILE_DESCRIPTOR) (B q n : Nat)
    (m m' : Memory) (j : Nat) :
    ReadFAT c files B q n m j
      = if q ≤ j ∧ j < q + n then ReadFAT c files B q n m' j else m j := by
  rw [ReadFAT_apply, ReadFAT_apply]
  by_cases h : q ≤ j ∧ j < q + n
  · rw [if_pos h, if_pos h, if_pos h]
  · rw [if_neg h, if_neg h]

theorem ReadRootDir_window (files : List S_FILE_DESCRIPTOR) (B q n : Nat)
    (m m' : Memory) (j : Nat) :
    ReadRootDir files B q n m j
      = if q ≤ j ∧ j < q + n then ReadRootDir files B q n m' j else m j := by
  rw [ReadRootDir_apply, ReadRootDir_apply]
  by_cases h : q ≤ j ∧ j < q + n
  · rw [if_pos h, if_pos h, if_pos h]
  · rw [if_neg h, if_neg h]

theorem Read_body_eq_boot (c : Nat) (files : List S_FILE_DESCRIPTOR) (b p i : Nat) (s : State)
    (h0 : 0 = (b + i) % U32_MOD) :
    USBMediumAccess_Read.body c files b p i s
      = { s with env := { s.env with
            mem := ReadBootBlock c 0 (p + i) MASS_BLOCK_SIZE s.env.mem } } := by
  unfold USBMediumAccess_Read.body
  dsimp only
  rw [if_pos h0]

theorem Read_body_eq_fat2 (c : Nat) (files : List S_FILE_DESCRIPTOR) (b p i : Nat) (s : State)
    (h0 : ¬ 0 = (b + i) % U32_MOD)
    (h1 : FAT_BLOCKS_START + 2 * NUM_FAT_BLOCKS > (b + i) % U32_MOD)
    (h2 : FAT_BLOCKS_START + NUM_FAT_BLOCKS ≤ (b + i) % U32_MOD) :
    USBMediumAccess_Read.body c files b p i s
      = { s with env := { s.env with
            mem := ReadFAT c files ((b + i) % U32_MOD - FAT_BLOCKS_START - NUM_FAT_BLOCKS)
              (p + i) MASS_BLOCK_SIZE s.env.mem } } := by
  unfold USBMediumAccess_Read.body
  dsimp only
  rw [if_neg h0, if_pos h1, if_pos h2]

theorem Read_body_eq_fat1 (c : Nat) (files : List S_FILE_DESCRIPTOR) (b p i : Nat) (s : State)
    (h0 : ¬ 0 = (b + i) % U32_MOD)
    (h1 : FAT_BLOCKS_START + 2 * NUM_FAT_BLOCKS > (b + i) % U32_MOD)
    (h2 : ¬ FAT_BLOCKS_START + NUM_FAT_BLOCKS ≤ (b + i) % U32_MOD) :
    USBMediumAccess_Read.body c files b p i s
      = { s with env := { s.env with
            mem := ReadFAT c files ((b + i) % U32_MOD - FAT_BLOCKS_START)
              (p + i) MASS_BLOCK_SIZE s.env.mem } } := by
  unfold USBMediumAccess_Read.body
  dsimp only
  rw [if_neg h0, if_pos h1, if_neg h2]

theorem Read_body_eq_rootdir (c : Nat) (files : List S_FILE_DESCRIPTOR) (b p i : Nat)
    (s : State) (h0 : ¬ 0 = (b + i) % U32_MOD)
    (h1 : ¬ FAT_BLOCKS_START + 2 * NUM_FAT_BLOCKS > (b + i) % U32_MOD)
    (h3 : FIRST_FILE_BLOCK > (b + i) % U32_MOD) :
    USBMediumAccess_Read.body c files b p i s
      = { s with env := { s.env with
            mem := ReadRootDir files ((b + i) % U32_MOD - (FAT_BLOCKS_START + 2 * NUM_FAT_BLOCKS))
              (p + i) MASS_BLOCK_SIZE s.env.mem } } := by
  unfold USBMediumAccess_Read.body
  dsimp only
  rw [if_neg h0, if_neg h1, if_pos h3]

theorem Read_body_eq_file (c : Nat) (files : List S_FILE_DESCRIPTOR) (b p i : Nat)
    (s : State) (h0 : ¬ 0 = (b + i) % U32_MOD)
    (h1 : ¬ FAT_BLOCKS_START + 2 * NUM_FAT_BLOCKS > (b + i) % U32_MOD)
    (h3 : ¬ FIRST_FILE_BLOCK > (b + i) % U32_MOD) :
    USBMediumAccess_Read.body c files b p i s
      = ReadFile files ((b + i) % U32_MOD - FIRST_FILE_BLOCK) (p + i) MASS_BLOCK_SIZE
          { s with env := { s.env with
              mem := memset (p + i) 0 MASS_BLOCK_SIZE s.env.mem } } := by
  unfold USBMediumAccess_Read.body
  dsimp only
  rw [if_neg h0, if_neg h1, if_neg h3]

/-- One iteration of the loop of `USBMediumAccess_Read` on two states with the same flash
contents: the chip is left alone, the 512 bytes stored at `&(pu8Buffer[ u32Index ])` are the
same in both, and no other byte of the buffer is changed. -/
theorem Read_body_window (c : Nat) (files : List S_FILE_DESCRIPTOR) (b p i : Nat)
    (hpure : ∀ f g, f < gcu8NumFilesOnDrive files →
      (fileAt files f).eReadCallbackType ≠ E_READ_CB_PTR_TYPE.CONST_DATA_FILE →
      (fileAt files f).uReadHandler.pFuncRead = some g → PureReadHandler g)
    (s s' : State) (hc : s.env.chip.contents = s'.env.chip.contents) :
    (USBMediumAccess_Read.body c files b p i s).env.chip = s.env.chip
    ∧ ∀ j, (USBMediumAccess_Read.body c files b p i s).env.mem j
        = if p + i ≤ j ∧ j < p + i + MASS_BLOCK_SIZE then
            (USBMediumAccess_Read.body c files b p i s').env.mem j
          else s.env.mem j := by
  by_cases h0 : 0 = (b + i) % U32_MOD
  · rw [Read_body_eq_boot c files b p i s h0, Read_body_eq_boot c files b p i s' h0]
    refine ⟨by dsimp only, fun j => ?_⟩
    dsimp only
    exact ReadBootBlock_window c (p + i) s.env.mem s'.env.mem j
  · by_cases h1 : FAT_BLOCKS_START + 2 * NUM_FAT_BLOCKS > (b + i) % U32_MOD
    · by_cases h2 : FAT_BLOCKS_START + NUM_FAT_BLOCKS ≤ (b + i) % U32_MOD
      · rw [Read_body_eq_fat2 c files b p i s h0 h1 h2,
          Read_body_eq_fat2 c files b p i s' h0 h1 h2]
        refine ⟨by dsimp only, fun j => ?_⟩
        dsimp only
        exact ReadFAT_window c files _ (p + i) MASS_BLOCK_SIZE s.env.mem s'.env.mem j
      · rw [Read_body_eq_fat1 c files b p i s h0 h1 h2,
          Read_body_eq_fat1 c files b p i s' h0 h1 h2]
        refine ⟨by dsimp only, fun j => ?_⟩
        dsimp only
        exact ReadFAT_window c files _ (p + i) MASS_BLOCK_SIZE s.env.mem s'.env.mem j
    · by_cases h3 : FIRST_FILE_BLOCK > (b + i) % U32_MOD
      · rw [Read_body_eq_rootdir c files b p i s h0 h1 h3,
          Read_body_eq_rootdir c files b p i s' h0 h1 h3]
        refine ⟨by dsimp only, fun j => ?_⟩
        dsimp only
        exact ReadRootDir_window files _ (p + i) MASS_BLOCK_SIZE s.env.mem s'.env.mem j
      · rw [Read_body_eq_file c files b p i s h0 h1 h3,
          Read_body_eq_file c files b p i s' h0 h1 h3]
        have hw := ReadFile_window files ((b + i) % U32_MOD - FIRST_FILE_BLOCK) (p + i)
          MASS_BLOCK_SIZE hpure
          { s with env := { s.env with
              mem := memset (p + i) 0 MASS_BLOCK_SIZE s.env.mem } }
          { s' with env := { s'.env with
              mem := memset (p + i) 0 MASS_BLOCK_SIZE s'.env.mem } }
          hc
          (fun j h1 h2 => by
            dsimp only
            rw [memset_apply, memset_apply, if_pos ⟨h1, h2⟩, if_pos ⟨h1, h2⟩])
        refine ⟨hw.1, fun j => ?_⟩
        rw [hw.2 j]
        by_cases hj : p + i ≤ j ∧ j < p + i + MASS_BLOCK_SIZE
        · rw [if_pos hj, if_pos hj]
        · rw [if_neg hj, if_neg hj]
          dsimp only
          rw [memset_apply, if_neg hj]

/-- The loop of `USBMediumAccess_Read` on two states with the same flash contents: the chip
is left alone, the bytes stored (`n + 511` bytes from `&(pu8Buffer[ i0 ])` on, when `n > 0`)
are the same in both, and no other byte of the buffer is changed. -/
theorem Read_loop_window (c : Nat) (files : List S_FILE_DESCRIPTOR) (b p : Nat)
    (hpure : ∀ f g, f < gcu8NumFilesOnDrive files →
      (fileAt files f).eReadCallbackType ≠ E_READ_CB_PTR_TYPE.CONST_DATA_FILE →
      (fileAt files f).uReadHandler.pFuncRead = some g → PureReadHandler g)
    (n i0 : Nat) (s s' : State) (hc : s.env.chip.contents = s'.env.chip.contents) :
    (forLoop (USBMediumAccess_Read.body c files b p) n i0 s).env.chip = s.env.chip
    ∧ ∀ j, (forLoop (USBMediumAccess_Read.body c files b p) n i0 s).env.mem j
        = if 0 < n ∧ p + i0 ≤ j ∧ j < p + i0 + n + 511 then
            (forLoop (USBMediumAccess_Read.body c files b p) n i0 s').env.mem j
          else s.env.mem j := by
  induction n generalizing i0 s s' with
  | zero =>
    refine ⟨rfl, fun j => ?_⟩
    rw [if_neg (by omega)]
    rfl
  | succ n ih =>
    have hb := Read_body_window c files b p i0 hpure s s' hc
    have hb' := Read_body_window c files b p i0 hpure s' s' rfl
    have hc2 : (USBMediumAccess_Read.body c files b p i0 s).env.chip.contents
        = (USBMediumAccess_Read.body c files b p i0 s').env.chip.contents := by
      rw [hb.1, hb'.1, hc]
    have h1 := ih (i0 + 1) _ _ hc2
    have h2 := ih (i0 + 1) (USBMediumAccess_Read.body c files b p i0 s')
      (USBMediumAccess_Read.body c files b p i0 s') rfl
    simp only [forLoop]
    refine ⟨h1.1.trans hb.1, fun j => ?_⟩
    rw [h1.2 j]
    by_cases hA : 0 < n ∧ p + (i0 + 1) ≤ j ∧ j < p + (i0 + 1) + n + 511
    · rw [if_pos hA, if_pos (by omega)]
    · rw [if_neg hA, hb.2 j]
      by_cases hW : p + i0 ≤ j ∧ j < p + i0 + MASS_BLOCK_SIZE
      · have hW2 := hW
        simp only [MASS_BLOCK_SIZE] at hW2
        rw [if_pos hW, if_pos (by omega), h2.2 j, if_neg hA]
      · have hW2 := hW
        simp only [MASS_BLOCK_SIZE] at hW2
        rw [if_neg hW, if_neg (by omega)]

end USBMediumAccess

namespace USBMediumAccess

theorem LongfileCallback_pure : PureReadHandler LongfileCallback := by
  intro off ptr sz env env' _
  refine ⟨rfl, fun k => ?_⟩
  unfold LongfileCallback
  dsimp only
  rw [forLoop_store_apply (fun u32BufferIndex =>
      LongfileCallback.byte ((off + u32BufferIndex) % U32_MOD)) ptr sz 0 env.mem k,
    forLoop_store_apply (fun u32BufferIndex =>
      LongfileCallback.byte ((off + u32BufferIndex) % U32_MOD)) ptr sz 0 env'.mem k]
  by_cases h : ptr + 0 ≤ k ∧ k < ptr + 0 + sz
  · rw [if_pos h, if_pos (by omega), if_pos h]
  · rw [if_neg h, if_neg (by omega)]

theorem FlashReadCallback_pure : PureReadHandler FlashReadCallback := by
  intro off ptr sz env env' hc
  refine ⟨rfl, fun k => ?_⟩
  unfold FlashReadCallback SPIFlash_Read_Polling
  dsimp only
  rw [forLoop_store_apply (fun u32Index => env.chip.contents (off + u32Index)) ptr sz 0
      env.mem k,
    forLoop_store_apply (fun u32Index => env'.chip.contents (off + u32Index)) ptr sz 0
      env'.mem k, hc]
  by_cases h : ptr + 0 ≤ k ∧ k < ptr + 0 + sz
  · rw [if_pos h, if_pos (by omega), if_pos h]
  · rw [if_neg h, if_neg (by omega)]

theorem gcsFilesOnDrive_pure (pastReadme pastLEDControl : Memory) (f : Nat)
    (g : pFileCallBackFunction)
    (hf : f < gcu8NumFilesOnDrive (gcsFilesOnDrive pastReadme pastLEDControl))
    (_htype : (fileAt (gcsFilesOnDrive pastReadme pastLEDControl) f).eReadCallbackType
      ≠ E_READ_CB_PTR_TYPE.CONST_DATA_FILE)
    (hg : (fileAt (gcsFilesOnDrive pastReadme pastLEDControl) f).uReadHandler.pFuncRead
      = some g) :
    PureReadHandler g := by
  rw [gcsFilesOnDrive_count] at hf
  interval_cases f
  · have h : (fileAt (gcsFilesOnDrive pastReadme pastLEDControl) 0).uReadHandler.pFuncRead
        = none := rfl
    rw [h] at hg
    cases hg
  · have h : (fileAt (gcsFilesOnDrive pastReadme pastLEDControl) 1).uReadHandler.pFuncRead
        = some LongfileCallback := rfl
    rw [h] at hg
    cases hg
    exact LongfileCallback_pure
  · have h : (fileAt (gcsFilesOnDrive pastReadme pastLEDControl) 2).uReadHandler.pFuncRead
        = none := rfl
    rw [h] at hg
    cases hg
  · have h : (fileAt (gcsFilesOnDrive pastReadme pastLEDControl) 3).uReadHandler.pFuncRead
        = some FlashReadCallback := rfl
    rw [h] at hg
    cases hg
    exact FlashReadCallback_pure

/-- C16: `USBMediumAccess_Read` with the file table of USBMediumAccess.c is deterministic.
For two states with the same SPI-flash contents, the bytes a read of `(startBlock,
blockCount)` stores in the buffer (the `blockCount + 511` bytes from `pu8Buffer` on) are
the same, and it stores nothing else; the read leaves the flash chip and the medium state as
they were; so a second read of the same `(startBlock, blockCount)`, issued on the state the
first one left, leaves the whole buffer byte-identical. -/
theorem Read_deterministic (MASS_BLOCK_COUNT : Nat) (pastReadme pastLEDControl : Memory)
    (b p n : Nat) (s s' : State) (hflash : s.env.chip.contents = s'.env.chip.contents) :
    (∀ j, 0 < n → p ≤ j → j < p + n + 511 →
        (USBMediumAccess_Read MASS_BLOCK_COUNT (gcsFilesOnDrive pastReadme pastLEDControl)
          b p n s).env.mem j
        = (USBMediumAccess_Read MASS_BLOCK_COUNT (gcsFilesOnDrive pastReadme pastLEDControl)
          b p n s').env.mem j)
    ∧ (∀ j, ¬ (0 < n ∧ p ≤ j ∧ j < p + n + 511) →
        (USBMediumAccess_Read MASS_BLOCK_COUNT (gcsFilesOnDrive pastReadme pastLEDControl)
          b p n s).env.mem j = s.env.mem j)
    ∧ (USBMediumAccess_Read MASS_BLOCK_COUNT (gcsFilesOnDrive pastReadme pastLEDControl)
          b p n s).env.chip = s.env.chip
    ∧ (USBMediumAccess_Read MASS_BLOCK_COUNT (gcsFilesOnDrive pastReadme pastLEDControl)
          b p n s).geMediumState = s.geMediumState
    ∧ (USBMediumAccess_Read MASS_BLOCK_COUNT (gcsFilesOnDrive pastReadme pastLEDControl)
          b p n
          (USBMediumAccess_Read MASS_BLOCK_COUNT (gcsFilesOnDrive pastReadme pastLEDControl)
            b p n s)).env.mem
        = (USBMediumAccess_Read MASS_BLOCK_COUNT (gcsFilesOnDrive pastReadme pastLEDControl)
            b p n s).env.mem := by
  have hp := gcsFilesOnDrive_pure pastReadme pastLEDControl
  have h1 := Read_loop_window MASS_BLOCK_COUNT (gcsFilesOnDrive pastReadme pastLEDControl)
    b p hp n 0 s s' hflash
  have h2 := Read_loop_window MASS_BLOCK_COUNT (gcsFilesOnDrive pastReadme pastLEDControl)
    b p hp n 0 s s rfl
  unfold USBMediumAccess_Read
  refine ⟨?_, ?_, h1.1, ?_, ?_⟩
  · intro j hn hj1 hj2
    rw [h1.2 j, if_pos ⟨hn, by omega, by omega⟩]
  · intro j hj
    rw [h1.2 j, if_neg (by omega)]
  · exact Read_geMediumState MASS_BLOCK_COUNT _ b p n s
  · have h3 := Read_loop_window MASS_BLOCK_COUNT
      (gcsFilesOnDrive pastReadme pastLEDControl) b p hp n 0
      (forLoop (USBMediumAccess_Read.body MASS_BLOCK_COUNT
        (gcsFilesOnDrive pastReadme pastLEDControl) b p) n 0 s) s
      (by rw [h2.1])
    funext j
    rw [h3.2 j]
    split <;> rfl

/-- Witness for C16: a two-block read of blocks 545 and 546 from a state with a zeroed
buffer and from a state with a buffer full of `0xCC`: byte 5 is the same. -/
theorem Read_deterministic_witness :
    (USBMediumAccess_Read 0 (gcsFilesOnDrive zeroMemory zeroMemory) 545 0 2
        (initialState zeroMemory)).env.mem 5
      = (USBMediumAccess_Read 0 (gcsFilesOnDrive zeroMemory zeroMemory) 545 0 2
        (initialState (fun _ => 0xCC))).env.mem 5 :=
  (Read_deterministic 0 zeroMemory zeroMemory 545 0 2 (initialState zeroMemory)
    (initialState (fun _ => 0xCC)) rfl).1 5 (by decide) (by decide) (by decide)

end USBMediumAccess


/-! ## Fields of the boot block and the layout of the regions -/

namespace USBMediumAccess

theorem bootByteAt_eq (c o : Nat) (h : o < 512) : bootByteAt c o = ReadBootBlock.byte c o := by
  unfold bootByteAt
  rw [ReadBootBlock_block_apply, if_pos (by omega)]
  rfl

theorem Read_boot_block_bytes (c : Nat) (files : List S_FILE_DESCRIPTOR) (p : Nat) (s : State) :
    readBytes (USBMediumAccess_Read c files 0 p 1 s).env.mem p 512
      = (List.range 512).map (bootByteAt c) := by
  rw [USBMediumAccess_Read_one, Read_body_boot]
  unfold readBytes
  apply List.map_congr_left
  intro i hi
  rw [List.mem_range] at hi
  have hsub : p + i - p = i := by omega
  dsimp only
  rw [ReadBootBlock_block_apply, if_pos (by omega), hsub, bootByteAt_eq c i hi]

theorem bootField16_sector_size (c : Nat) : bootField16 c 11 = 512 := by
  unfold bootField16
  rw [bootByteAt_eq c 11 (by decide), bootByteAt_eq c (11 + 1) (by decide)]
  rfl

theorem bootByteAt_sectors_per_cluster (c : Nat) : bootByteAt c 13 = 1 := by
  rw [bootByteAt_eq c 13 (by decide)]
  rfl

theorem bootField16_reserved (c : Nat) : bootField16 c 14 = 1 := by
  unfold bootField16
  rw [bootByteAt_eq c 14 (by decide), bootByteAt_eq c (14 + 1) (by decide)]
  rfl

theorem bootByteAt_fats (c : Nat) : bootByteAt c 16 = 2 := by
  rw [bootByteAt_eq c 16 (by decide)]
  rfl

theorem bootField16_root_entries (c : Nat) : bootField16 c 17 = 512 := by
  unfold bootField16
  rw [bootByteAt_eq c 17 (by decide), bootByteAt_eq c (17 + 1) (by decide)]
  rfl

theorem bootField16_sectors_per_fat (c : Nat) : bootField16 c 22 = 256 := by
  unfold bootField16
  rw [bootByteAt_eq c 22 (by decide), bootByteAt_eq c (22 + 1) (by decide)]
  rfl

/-- C21: the 512 bytes a one-block read of block 0 stores are the bytes `bootByteAt` of the
boot block, and its little-endian fields decode to bytes-per-sector (bytes 11..12) = 512,
sectors-per-cluster (byte 13) = 1, reserved sectors (bytes 14..15) = 1, number of FATs
(byte 16) = 2, root entries (bytes 17..18) = 512 and sectors-per-FAT (bytes 22..23) = 256.
These values agree with the boundaries the dispatcher uses: the block `reserved` = 1 is the
first block of FAT1 (`FAT_BLOCKS_START`), the block `reserved + 2*sectorsPerFAT` = 513 is
the first block of the root directory, the block before it being the last of FAT2, and the
block `513 + rootEntries*32/bytesPerSector` = 545 = `FIRST_FILE_BLOCK` is the first block
of the file region, the block before it being the last of the root directory. -/
theorem boot_fields_match_layout (MASS_BLOCK_COUNT : Nat) (files : List S_FILE_DESCRIPTOR)
    (p : Nat) (s : State) :
    readBytes (USBMediumAccess_Read MASS_BLOCK_COUNT files 0 p 1 s).env.mem p 512
        = (List.range 512).map (bootByteAt MASS_BLOCK_COUNT)
    ∧ bootField16 MASS_BLOCK_COUNT 11 = 512
    ∧ bootByteAt MASS_BLOCK_COUNT 13 = 1
    ∧ bootField16 MASS_BLOCK_COUNT 14 = 1
    ∧ bootByteAt MASS_BLOCK_COUNT 16 = 2
    ∧ bootField16 MASS_BLOCK_COUNT 17 = 512
    ∧ bootField16 MASS_BLOCK_COUNT 22 = 256
    ∧ FAT_BLOCKS_START = bootField16 MASS_BLOCK_COUNT 14
    ∧ FAT_BLOCKS_START + 2 * NUM_FAT_BLOCKS
        = bootField16 MASS_BLOCK_COUNT 14
          + bootByteAt MASS_BLOCK_COUNT 16 * bootField16 MASS_BLOCK_COUNT 22
    ∧ bootField16 MASS_BLOCK_COUNT 14
          + bootByteAt MASS_BLOCK_COUNT 16 * bootField16 MASS_BLOCK_COUNT 22 = 513
    ∧ FIRST_FILE_BLOCK
        = 513 + bootField16 MASS_BLOCK_COUNT 17 * 32 / bootField16 MASS_BLOCK_COUNT 11
    ∧ FIRST_FILE_BLOCK = 545
    ∧ USBMediumAccess_Read MASS_BLOCK_COUNT files (bootField16 MASS_BLOCK_COUNT 14) p 1 s
        = { s with env := { s.env with
              mem := ReadFAT MASS_BLOCK_COUNT files 0 p MASS_BLOCK_SIZE s.env.mem } }
    ∧ USBMediumAccess_Read MASS_BLOCK_COUNT files
          (bootField16 MASS_BLOCK_COUNT 14
            + bootByteAt MASS_BLOCK_COUNT 16 * bootField16 MASS_BLOCK_COUNT 22 - 1) p 1 s
        = { s with env := { s.env with
              mem := ReadFAT MASS_BLOCK_COUNT files 255 p MASS_BLOCK_SIZE s.env.mem } }
    ∧ USBMediumAccess_Read MASS_BLOCK_COUNT files
          (bootField16 MASS_BLOCK_COUNT 14
            + bootByteAt MASS_BLOCK_COUNT 16 * bootField16 MASS_BLOCK_COUNT 22) p 1 s
        = { s with env := { s.env with
              mem := ReadRootDir files 0 p MASS_BLOCK_SIZE s.env.mem } }
    ∧ USBMediumAccess_Read MASS_BLOCK_COUNT files
          (513 + bootField16 MASS_BLOCK_COUNT 17 * 32 / bootField16 MASS_BLOCK_COUNT 11 - 1)
          p 1 s
        = { s with env := { s.env with
              mem := ReadRootDir files 31 p MASS_BLOCK_SIZE s.env.mem } }
    ∧ USBMediumAccess_Read MASS_BLOCK_COUNT files
          (513 + bootField16 MASS_BLOCK_COUNT 17 * 32 / bootField16 MASS_BLOCK_COUNT 11)
          p 1 s
        = ReadFile files 0 p MASS_BLOCK_SIZE
            { s with env := { s.env with mem := memset p 0 MASS_BLOCK_SIZE s.env.mem } } := by
  rw [bootField16_sector_size, bootByteAt_sectors_per_cluster, bootField16_reserved,
    bootByteAt_fats, bootField16_root_entries, bootField16_sectors_per_fat]
  refine ⟨Read_boot_block_bytes MASS_BLOCK_COUNT files p s, rfl, rfl, rfl, rfl, rfl, rfl, rfl,
    rfl, rfl, rfl, rfl, ?_, ?_, ?_, ?_, ?_⟩
  · rw [USBMediumAccess_Read_one, Read_body_fat1 MASS_BLOCK_COUNT files 1 p s (by decide)
      (by decide)]
  · rw [USBMediumAccess_Read_one, Read_body_fat2 MASS_BLOCK_COUNT files (1 + 2 * 256 - 1) p s
      (by decide) (by decide)]
  · rw [USBMediumAccess_Read_one, Read_body_rootdir MASS_BLOCK_COUNT files (1 + 2 * 256) p s
      (by decide) (by decide)]
  · rw [USBMediumAccess_Read_one, Read_body_rootdir MASS_BLOCK_COUNT files
      (513 + 512 * 32 / 512 - 1) p s (by decide) (by decide)]
  · rw [USBMediumAccess_Read_one, Read_body_file_region MASS_BLOCK_COUNT files
      (513 + 512 * 32 / 512) p s (by decide) (by decide)]
    rfl

end USBMediumAccess

/-! ## The volume label, the time stamps and the unused part of the root directory -/

namespace USBMediumAccess

theorem ReadRootDir_byte_label (files : List S_FILE_DESCRIPTOR) (a : Nat) (h : a < 32) :
    ReadRootDir.byte files a = cau8VolumeLabel.getD a 0 := by
  unfold ReadRootDir.byte
  rw [if_pos h]

theorem rootDirByteAt_label (files : List S_FILE_DESCRIPTOR) (a : Nat) (h : a < 32) :
    rootDirByteAt files a = cau8VolumeLabel.getD a 0 := by
  rw [rootDirByteAt_eq files a (by omega), ReadRootDir_byte_label files a h]

/-- C22: the first 32 bytes of the root directory (relative block 0, addresses 0..31; they
are the first 32 bytes a one-block read of block 513 stores) are the volume-label entry
`cau8VolumeLabel`.  Its 11 label bytes are `Ketyere MSD`, the bytes of the boot block at
offsets 43..53; its attribute byte 11 is `0x08`; its start-cluster fields (bytes 20..21 and
26..27) and its size field (bytes 28..31) are zero. -/
theorem ReadRootDir_volume_label (MASS_BLOCK_COUNT : Nat) (files : List S_FILE_DESCRIPTOR)
    (p : Nat) (s : State) :
    (List.range 32).map (rootDirByteAt files) = cau8VolumeLabel
    ∧ readBytes (USBMediumAccess_Read MASS_BLOCK_COUNT files 513 p 1 s).env.mem p 32
        = cau8VolumeLabel
    ∧ (List.range 11).map (rootDirByteAt files)
        = (List.range 11).map (fun i => bootByteAt MASS_BLOCK_COUNT (43 + i))
    ∧ (List.range 11).map (rootDirByteAt files) = "Ketyere MSD".data.map Char.toNat
    ∧ rootDirByteAt files 11 = 0x08
    ∧ (rootDirByteAt files 20 = 0 ∧ rootDirByteAt files 21 = 0)
    ∧ (rootDirByteAt files 26 = 0 ∧ rootDirByteAt files 27 = 0)
    ∧ (rootDirByteAt files 28 = 0 ∧ rootDirByteAt files 29 = 0
        ∧ rootDirByteAt files 30 = 0 ∧ rootDirByteAt files 31 = 0) := by
  have hlabel : (List.range 32).map (rootDirByteAt files)
      = (List.range 32).map (fun a => cau8VolumeLabel.getD a 0) := by
    apply List.map_congr_left
    intro a ha
    rw [List.mem_range] at ha
    exact rootDirByteAt_label files a ha
  have hname : (List.range 11).map (rootDirByteAt files)
      = (List.range 11).map (fun a => cau8VolumeLabel.getD a 0) := by
    apply List.map_congr_left
    intro a ha
    rw [List.mem_range] at ha
    exact rootDirByteAt_label files a (by omega)
  have hboot : (List.range 11).map (fun i => bootByteAt MASS_BLOCK_COUNT (43 + i))
      = (List.range 11).map (fun i => (cau8BootBlockData MASS_BLOCK_COUNT).getD (43 + i) 0) := by
    apply List.map_congr_left
    intro a ha
    rw [List.mem_range] at ha
    dsimp only
    rw [bootByteAt_eq MASS_BLOCK_COUNT (43 + a) (by omega),
      ReadBootBlock_byte_record MASS_BLOCK_COUNT (43 + a) (by omega)]
  refine ⟨hlabel.trans rfl, ?_, ?_, hname.trans rfl, ?_, ⟨?_, ?_⟩, ⟨?_, ?_⟩, ?_, ?_, ?_, ?_⟩
  · rw [USBMediumAccess_Read_one, Read_body_rootdir MASS_BLOCK_COUNT files 513 p s (by decide)
      (by decide)]
    unfold readBytes
    have hbytes : (List.range 32).map (fun i =>
          ReadRootDir files (513 - 513) p MASS_BLOCK_SIZE s.env.mem (p + i))
        = (List.range 32).map (fun a => cau8VolumeLabel.getD a 0) := by
      apply List.map_congr_left
      intro a ha
      rw [List.mem_range] at ha
      have haddr : ((513 - 513) * MASS_BLOCK_SIZE + (p + a - p)) % U32_MOD = a := by
        simp only [MASS_BLOCK_SIZE, U32_MOD]
        omega
      rw [ReadRootDir_apply, if_pos (by simp only [MASS_BLOCK_SIZE]; omega), haddr,
        ReadRootDir_byte_label files a ha]
    dsimp only
    exact hbytes.trans rfl
  · rw [hname, hboot]
    rfl
  · rw [rootDirByteAt_label files 11 (by decide)]
    rfl
  · rw [rootDirByteAt_label files 20 (by decide)]
    rfl
  · rw [rootDirByteAt_label files 21 (by decide)]
    rfl
  · rw [rootDirByteAt_label files 26 (by decide)]
    rfl
  · rw [rootDirByteAt_label files 27 (by decide)]
    rfl
  · rw [rootDirByteAt_label files 28 (by decide)]
    rfl
  · rw [rootDirByteAt_label files 29 (by decide)]
    rfl
  · rw [rootDirByteAt_label files 30 (by decide)]
    rfl
  · rw [rootDirByteAt_label files 31 (by decide)]
    rfl

/-- C23: for every file table and every root-directory byte address `a` with
`32*(1 + numFiles) ≤ a < 32*512` (the 32 blocks of the root directory), `ReadRootDir` emits
`0x00`: this is the byte at address `a` of the root directory, and the byte a one-block
read of block `513 + a / 512` stores at offset `a % 512` of the buffer. -/
theorem ReadRootDir_beyond_entries (MASS_BLOCK_COUNT : Nat) (files : List S_FILE_DESCRIPTOR)
    (a p : Nat) (s : State)
    (h1 : 32 * (1 + gcu8NumFilesOnDrive files) ≤ a) (h2 : a < 32 * 512) :
    rootDirByteAt files a = 0
    ∧ ReadRootDir files (a / 512) p MASS_BLOCK_SIZE s.env.mem (p + a % 512) = 0
    ∧ (USBMediumAccess_Read MASS_BLOCK_COUNT files (513 + a / 512) p 1 s).env.mem
        (p + a % 512) = 0 := by
  have haddr : (a / 512 * MASS_BLOCK_SIZE + (p + a % 512 - p)) % U32_MOD = a := by
    simp only [MASS_BLOCK_SIZE, U32_MOD]
    omega
  have hoff : 513 + a / 512 - 513 = a / 512 := by omega
  have hdir : ReadRootDir files (a / 512) p MASS_BLOCK_SIZE s.env.mem (p + a % 512) = 0 := by
    rw [ReadRootDir_apply, if_pos (by simp only [MASS_BLOCK_SIZE]; omega), haddr,
      ReadRootDir_byte_unused files a h1]
  refine ⟨?_, hdir, ?_⟩
  · rw [rootDirByteAt_eq files a (by omega), ReadRootDir_byte_unused files a h1]
  · rw [USBMediumAccess_Read_one, Read_body_rootdir MASS_BLOCK_COUNT files (513 + a / 512) p s
      (by omega) (by omega), hoff]
    dsimp only
    exact hdir

/-- Witness for C23: the table of one file; address 64 is the first byte after its entry and
address 16383 the last byte of the root directory (block 544). -/
theorem ReadRootDir_beyond_entries_witness :
    rootDirByteAt [constFile 2000 zeroMemory] 64 = 0
    ∧ (USBMediumAccess_Read 0 [constFile 2000 zeroMemory] (513 + 16383 / 512) 0 1
        (initialState (fun _ => 0xCC))).env.mem (0 + 16383 % 512) = 0 :=
  ⟨(ReadRootDir_beyond_entries 0 [constFile 2000 zeroMemory] 64 0
      (initialState (fun _ => 0xCC)) (by decide) (by decide)).1,
   (ReadRootDir_beyond_entries 0 [constFile 2000 zeroMemory] 16383 0
      (initialState (fun _ => 0xCC)) (by decide) (by decide)).2.2⟩

end USBMediumAccess

/-! ## The write callbacks of the built-in table -/

namespace USBMediumAccess

theorem and_one_ne_zero_iff (v : Nat) : (v &&& 0x01 ≠ 0) ↔ v % 2 = 1 := by
  rw [Nat.and_one_is_mod]
  omega

/-- C25: `LEDControlCallback` over the trace of hardware operations.  Called with file offset
0 and a size of at least 1 it appends exactly one backlight pin write to the trace, `SET`
when `pu8Buffer[0]` is odd and `RESET` when it is even, and changes nothing else; the bytes
after the first one play no part: two buffers with the same first byte give the same pin
write.  Called with a non-zero offset or with size 0 it returns the environment it was
given, writing no pin. -/
theorem LEDControlCallback_trace (u32FileOffset pu8Buffer u32Size : Nat) (env : Env) :
    (u32FileOffset = 0 → 1 ≤ u32Size →
        LEDControlCallback u32FileOffset pu8Buffer u32Size env
          = { env with ops := env.ops ++
                [HwOp.backlightWritePin (if env.mem pu8Buffer % 2 = 1
                  then GPIO_PinState.GPIO_PIN_SET else GPIO_PinState.GPIO_PIN_RESET)] })
    ∧ (u32FileOffset = 0 → 1 ≤ u32Size → ∀ env' : Env,
        env'.mem pu8Buffer = env.mem pu8Buffer → env'.ops = env.ops →
        (LEDControlCallback u32FileOffset pu8Buffer u32Size env').ops
          = (LEDControlCallback u32FileOffset pu8Buffer u32Size env).ops)
    ∧ (u32FileOffset ≠ 0 ∨ u32Size = 0 →
        LEDControlCallback u32FileOffset pu8Buffer u32Size env = env) := by
  have hset (e : Env) (h0 : u32FileOffset = 0) (h1 : 1 ≤ u32Size) :
      LEDControlCallback u32FileOffset pu8Buffer u32Size e
        = { e with ops := e.ops ++
              [HwOp.backlightWritePin (if e.mem pu8Buffer % 2 = 1
                then GPIO_PinState.GPIO_PIN_SET else GPIO_PinState.GPIO_PIN_RESET)] } := by
    unfold LEDControlCallback
    rw [if_pos (by omega), if_pos h0.symm, Nat.add_zero]
    by_cases hodd : e.mem pu8Buffer % 2 = 1
    · rw [if_pos ((and_one_ne_zero_iff _).mpr hodd), if_pos hodd]
      rfl
    · rw [if_neg (fun h => hodd ((and_one_ne_zero_iff _).mp h)), if_neg hodd]
      rfl
  refine ⟨hset env, ?_, ?_⟩
  · intro h0 h1 env' hmem hops
    rw [hset env h0 h1, hset env' h0 h1]
    dsimp only
    rw [hmem, hops]
  · intro h
    unfold LEDControlCallback
    by_cases hsize : 0 < u32Size
    · rw [if_pos hsize, if_neg (by omega)]
    · rw [if_neg hsize]

/-- Witness for C25: the first byte `'1'` (0x31), followed by other bytes, sets the pin; the
first byte `'0'` (0x30) resets it; offset 512 writes no pin. -/
theorem LEDControlCallback_trace_witness :
    (LEDControlCallback 0 0 512 (initialState (fun i => 0x31 + i)).env).ops
        = [HwOp.backlightWritePin GPIO_PinState.GPIO_PIN_SET]
    ∧ (LEDControlCallback 0 0 512 (initialState (fun i => 0x30 + i)).env).ops
        = [HwOp.backlightWritePin GPIO_PinState.GPIO_PIN_RESET]
    ∧ LEDControlCallback 512 0 512 (initialState (fun i => 0x31 + i)).env
        = (initialState (fun i => 0x31 + i)).env :=
  ⟨congrArg Env.ops ((LEDControlCallback_trace 0 0 512
      (initialState (fun i => 0x31 + i)).env).1 rfl (by decide)),
   congrArg Env.ops ((LEDControlCallback_trace 0 0 512
      (initialState (fun i => 0x30 + i)).env).1 rfl (by decide)),
   (LEDControlCallback_trace 512 0 512 (initialState (fun i => 0x31 + i)).env).2.2
      (Or.inl (by decide))⟩

/-- C26: `FlashWriteCallback` over the trace of flash operations.  When the file offset is a
multiple of 65536 it appends exactly `EraseSector(offset)` followed by `Write(offset, buffer,
size)` to the trace, the erase preceding the program; for every other offset it appends
exactly `Write(offset, buffer, size)`, with no erase.  The bytes programmed are the `size`
bytes of the buffer, and the buffer is left as it was. -/
theorem FlashWriteCallback_trace (u32FileOffset pu8Buffer u32Size : Nat) (env : Env) :
    (FlashWriteCallback u32FileOffset pu8Buffer u32Size env).ops
        = env.ops ++
          (if u32FileOffset % 65536 = 0 then
            [HwOp.flashEraseSector u32FileOffset,
             HwOp.flashWrite u32FileOffset (readBytes env.mem pu8Buffer u32Size) u32Size]
          else
            [HwOp.flashWrite u32FileOffset (readBytes env.mem pu8Buffer u32Size) u32Size])
    ∧ (FlashWriteCallback u32FileOffset pu8Buffer u32Size env).mem = env.mem := by
  by_cases h : u32FileOffset % 65536 = 0
  · rw [FlashWriteCallback_erase _ _ _ _ h, if_pos h]
    unfold SPIFlash_Write_Polling SPIFlash_EraseSector_Polling
    dsimp only
    rw [List.append_assoc]
    exact ⟨rfl, rfl⟩
  · rw [FlashWriteCallback_no_erase _ _ _ _ h, if_neg h]
    exact ⟨rfl, rfl⟩

end USBMediumAccess

/-! ## The FAT32 flavoured medium: boot block, byte order of the FAT, the FAT copies -/

theorem byte_and_shift_rev (e a : Nat) :
    0xFF &&& (e >>> (8 * (3 - (a &&& 0x3)))) = (e / 256 ^ (3 - a % 4)) % 256 := by
  have h3 : (3 : Nat) = 2 ^ 2 - 1 := by norm_num
  have h : (255 : Nat) = 2 ^ 8 - 1 := by norm_num
  have hand : a &&& 0x3 = a % 4 := by
    rw [h3, Nat.and_pow_two_sub_one_eq_mod]
  rw [hand, Nat.and_comm, Nat.shiftRight_eq_div_pow, h, Nat.and_pow_two_sub_one_eq_mod,
    pow_mul]
  norm_num

namespace USBMediumAccessFat32

theorem fat32_Read_body_boot (c : Nat) (files : List S_FILE_DESCRIPTOR) (p : Nat) (s : State) :
    USBMediumAccess_Read.body c files 0 p 0 s
      = { s with env := { s.env with
            mem := ReadBootBlock c 0 p MASS_BLOCK_SIZE s.env.mem } } := by
  unfold USBMediumAccess_Read.body
  simp only [Nat.add_zero]
  rw [if_pos (by decide)]

theorem fat32_ReadBootBlock_byte_11 (c : Nat) : ReadBootBlock.byte c 11 = 0 := rfl

theorem fat32_ReadBootBlock_byte_12 (c : Nat) : ReadBootBlock.byte c 12 = 0 := rfl

theorem fat32_cau8BootBlockData_media (c : Nat) : (cau8BootBlockData c).getD 21 0 = 0xF0 := rfl

/-- C27 (fails on the code): in the FAT32 variant, the one-block read of block 0 stores
`0x00` at both byte 11 and byte 12 of the buffer: the initialiser of the boot record has
`0xFF & (FAT_SECTORSIZE >> 0)` in both places, the low byte of 512 twice.  The
bytes-per-sector field therefore decodes, little-endian, to 0 and not to 512. -/
theorem fat32_boot_sector_size_field (MASS_BLOCK_COUNT : Nat) (files : List S_FILE_DESCRIPTOR)
    (p : Nat) (s : State) :
    (USBMediumAccess_Read MASS_BLOCK_COUNT files 0 p 1 s).env.mem (p + 11) = 0
    ∧ (USBMediumAccess_Read MASS_BLOCK_COUNT files 0 p 1 s).env.mem (p + 12) = 0
    ∧ (USBMediumAccess_Read MASS_BLOCK_COUNT files 0 p 1 s).env.mem (p + 11)
        + 256 * (USBMediumAccess_Read MASS_BLOCK_COUNT files 0 p 1 s).env.mem (p + 12) = 0
    ∧ (USBMediumAccess_Read MASS_BLOCK_COUNT files 0 p 1 s).env.mem (p + 11)
        + 256 * (USBMediumAccess_Read MASS_BLOCK_COUNT files 0 p 1 s).env.mem (p + 12) ≠ 512
    ∧ (cau8BootBlockData MASS_BLOCK_COUNT).getD 12 0 = 0xFF &&& (FAT_SECTORSIZE >>> 0) := by
  have h11 : (USBMediumAccess_Read MASS_BLOCK_COUNT files 0 p 1 s).env.mem (p + 11) = 0 := by
    have hsub : p + 11 - p = 11 := by omega
    rw [fat32_USBMediumAccess_Read_one, fat32_Read_body_boot]
    dsimp only
    rw [fat32_ReadBootBlock_block_apply, if_pos (by omega), hsub, fat32_ReadBootBlock_byte_11]
  have h12 : (USBMediumAccess_Read MASS_BLOCK_COUNT files 0 p 1 s).env.mem (p + 12) = 0 := by
    have hsub : p + 12 - p = 12 := by omega
    rw [fat32_USBMediumAccess_Read_one, fat32_Read_body_boot]
    dsimp only
    rw [fat32_ReadBootBlock_block_apply, if_pos (by omega), hsub, fat32_ReadBootBlock_byte_12]
  refine ⟨h11, h12, ?_, ?_, rfl⟩
  · rw [h11, h12]
  · rw [h11, h12]
    decide

theorem fat32_ReadFAT_step_other (c : Nat) (files : List S_FILE_DESCRIPTOR) (B p i : Nat)
    (st : Memory × Nat) (j : Nat) (h : j ≠ p + i) :
    (ReadFAT.step c files B p i st).1 j = st.1 j := by
  unfold ReadFAT.step
  dsimp only
  split
  · simp only [store, if_neg h]
  · simp only [store, if_neg h]

theorem fat32_ReadFAT_step_byte (c : Nat) (files : List S_FILE_DESCRIPTOR) (B p i : Nat)
    (st : Memory × Nat) :
    (ReadFAT.step c files B p i st).1 (p + i)
      = (ReadFAT.entry c files ((B * MASS_BLOCK_SIZE + i) % U32_MOD) st.2
          / 256 ^ (3 - ((B * MASS_BLOCK_SIZE + i) % U32_MOD) % 4)) % 256 := by
  unfold ReadFAT.step ReadFAT.entry
  dsimp only
  split
  · simp only [store, if_pos, byte_and_shift_rev]
  · simp only [store, if_pos, byte_and_shift_rev]

theorem fat32_ReadFAT_loop_frame (c : Nat) (files : List S_FILE_DESCRIPTOR) (B p n i0 : Nat)
    (st : Memory × Nat) (j : Nat) (h : j < p + i0 ∨ p + i0 + n ≤ j) :
    (forLoop (ReadFAT.step c files B p) n i0 st).1 j = st.1 j := by
  induction n generalizing i0 st with
  | zero => rfl
  | succ n ih =>
    rw [forLoop, ih (i0 + 1) _ (by omega), fat32_ReadFAT_step_other _ _ _ _ _ _ _ (by omega)]

/-- The byte `ReadFAT` stores for the loop counter `i`: the byte number `3 - a mod 4`, counted
from the least significant one, of the entry computed for the byte address `a`, for the
value `u32FileEnd` has on entering that iteration. -/
theorem fat32_ReadFAT_loop_at (c : Nat) (files : List S_FILE_DESCRIPTOR) (B p n i0 : Nat)
    (st : Memory × Nat) (i : Nat) (h1 : i0 ≤ i) (h2 : i < i0 + n) :
    ∃ u32FileEnd, (forLoop (ReadFAT.step c files B p) n i0 st).1 (p + i)
      = (ReadFAT.entry c files ((B * MASS_BLOCK_SIZE + i) % U32_MOD) u32FileEnd
          / 256 ^ (3 - ((B * MASS_BLOCK_SIZE + i) % U32_MOD) % 4)) % 256 := by
  induction n generalizing i0 st with
  | zero => omega
  | succ n ih =>
    rw [forLoop]
    by_cases hi : i = i0
    · subst hi
      refine ⟨st.2, ?_⟩
      rw [fat32_ReadFAT_loop_frame _ _ _ _ _ _ _ _ (Or.inl (by omega)),
        fat32_ReadFAT_step_byte]
    · exact ih (i0 + 1) _ (by omega) (by omega)

theorem fat32_ReadFAT_entry_reserved (c : Nat) (files : List S_FILE_DESCRIPTOR) (a e : Nat)
    (h : a < 4) : ReadFAT.entry c files a e = 0xFFFFFFF0 := by
  unfold ReadFAT.entry
  rw [if_pos h, fat32_cau8BootBlockData_media]
  rfl

/-- The least significant byte of an entry past the reserved one is `0xF7` (bad cluster),
`0xF8` (end of file) or `0x01` (a link: the cluster number is a multiple of 512, plus 1);
it is never the media descriptor `0xF0`. -/
theorem fat32_ReadFAT_entry_low_byte (c : Nat) (files : List S_FILE_DESCRIPTOR) (a e : Nat)
    (h : ¬ a < 4) : ReadFAT.entry c files a e % 256 ≠ 0xF0 := by
  unfold ReadFAT.entry
  rw [if_neg h]
  dsimp only
  split
  · decide
  · split
    · simp only [MASS_BLOCK_SIZE, U32_MOD]
      omega
    · decide

/-- C28 (fails on the code): in the FAT32 variant `ReadFAT` packs every 32-bit entry most
significant byte first.  For every FAT byte address `a = 512*B + i` the byte stored is the
byte number `3 - a mod 4` of the entry covering `a`, counted from the least significant one
(bits `8*(3 - a mod 4) .. 8*(3 - a mod 4) + 7`), not bits `8*(a mod 4) ..`.  In particular,
for every file table, FAT bytes 0..3 are `FF FF FF F0`: byte 0 is `0xFF`, and the media
descriptor `0xF0` is byte 3. -/
theorem fat32_ReadFAT_byte_order (MASS_BLOCK_COUNT : Nat) (files : List S_FILE_DESCRIPTOR)
    (B p n : Nat) (mem : Memory) (i : Nat) (hi : i < n) :
    (∃ u32FileEnd, ReadFAT MASS_BLOCK_COUNT files B p n mem (p + i)
      = (ReadFAT.entry MASS_BLOCK_COUNT files ((B * MASS_BLOCK_SIZE + i) % U32_MOD) u32FileEnd
          / 256 ^ (3 - ((B * MASS_BLOCK_SIZE + i) % U32_MOD) % 4)) % 256)
    ∧ (B = 0 → i < 4 →
        ReadFAT MASS_BLOCK_COUNT files B p n mem (p + i) = if i = 3 then 0xF0 else 0xFF) := by
  have hloop := fat32_ReadFAT_loop_at MASS_BLOCK_COUNT files B p n 0
    (mem, (FIRST_FILE_BLOCK * MASS_BLOCK_SIZE) % U32_MOD) i (by omega) (by omega)
  refine ⟨hloop, ?_⟩
  intro hB h4
  obtain ⟨e, he⟩ := hloop
  unfold ReadFAT
  rw [he, hB]
  have ha : (0 * MASS_BLOCK_SIZE + i) % U32_MOD = i := by
    simp only [MASS_BLOCK_SIZE, U32_MOD]
    omega
  rw [ha, fat32_ReadFAT_entry_reserved _ _ _ _ h4]
  interval_cases i <;> rfl

/-- Witness for C28: the first four FAT bytes for the empty file table. -/
theorem fat32_ReadFAT_byte_order_witness :
    ReadFAT 0 [] 0 0 MASS_BLOCK_SIZE zeroMemory (0 + 0) = 0xFF
    ∧ ReadFAT 0 [] 0 0 MASS_BLOCK_SIZE zeroMemory (0 + 1) = 0xFF
    ∧ ReadFAT 0 [] 0 0 MASS_BLOCK_SIZE zeroMemory (0 + 2) = 0xFF
    ∧ ReadFAT 0 [] 0 0 MASS_BLOCK_SIZE zeroMemory (0 + 3) = 0xF0 :=
  ⟨(fat32_ReadFAT_byte_order 0 [] 0 0 MASS_BLOCK_SIZE zeroMemory 0 (by decide)).2 rfl
      (by decide),
   (fat32_ReadFAT_byte_order 0 [] 0 0 MASS_BLOCK_SIZE zeroMemory 1 (by decide)).2 rfl
      (by decide),
   (fat32_ReadFAT_byte_order 0 [] 0 0 MASS_BLOCK_SIZE zeroMemory 2 (by decide)).2 rfl
      (by decide),
   (fat32_ReadFAT_byte_order 0 [] 0 0 MASS_BLOCK_SIZE zeroMemory 3 (by decide)).2 rfl
      (by decide)⟩

end USBMediumAccessFat32

namespace USBMediumAccessFat32

theorem fat32_Read_body_fat_low (c : Nat) (files : List S_FILE_DESCRIPTOR) (b p : Nat)
    (s : State) (h1 : 8 ≤ b) (h2 : b ≤ 65) :
    USBMediumAccess_Read.body c files b p 0 s
      = { s with env := { s.env with
            mem := ReadFAT c files (u32Sub b 65) p MASS_BLOCK_SIZE s.env.mem } } := by
  have hcur : b % U32_MOD = b := by
    simp only [U32_MOD]
    omega
  unfold USBMediumAccess_Read.body
  simp only [Nat.add_zero, hcur]
  rw [if_neg (by omega), if_neg (by omega),
    if_pos (by simp only [FAT_BLOCKS_START, NUM_FAT_BLOCKS]; omega), if_pos (by omega)]

theorem fat32_Read_body_fat_high (c : Nat) (files : List S_FILE_DESCRIPTOR) (b p : Nat)
    (s : State) (h1 : 66 ≤ b) (h2 : b ≤ 135) :
    USBMediumAccess_Read.body c files b p 0 s
      = { s with env := { s.env with
            mem := ReadFAT c files b p MASS_BLOCK_SIZE s.env.mem } } := by
  have hcur : b % U32_MOD = b := by
    simp only [U32_MOD]
    omega
  unfold USBMediumAccess_Read.body
  simp only [Nat.add_zero, hcur]
  rw [if_neg (by omega), if_neg (by omega),
    if_pos (by simp only [FAT_BLOCKS_START, NUM_FAT_BLOCKS]; omega), if_neg (by omega)]

theorem fat32_u32Sub_below (b : Nat) (h : b < 65) : u32Sub b 65 = 4294967231 + b := by
  unfold u32Sub
  simp only [U32_MOD]
  omega

/-- The byte at offset 3 of a FAT block other than the first is not the media descriptor:
it is the least significant byte of an entry past the reserved one. -/
theorem fat32_ReadFAT_byte3_ne (c : Nat) (files : List S_FILE_DESCRIPTOR) (B p : Nat)
    (mem : Memory) (hB : 4 ≤ (B * MASS_BLOCK_SIZE + 3) % U32_MOD)
    (h3 : ((B * MASS_BLOCK_SIZE + 3) % U32_MOD) % 4 = 3) :
    ReadFAT c files B p MASS_BLOCK_SIZE mem (p + 3) ≠ 0xF0 := by
  obtain ⟨e, he⟩ := fat32_ReadFAT_loop_at c files B p MASS_BLOCK_SIZE 0
    (mem, (FIRST_FILE_BLOCK * MASS_BLOCK_SIZE) % U32_MOD) 3 (by omega) (by decide)
  unfold ReadFAT
  rw [he, h3]
  have hlow := fat32_ReadFAT_entry_low_byte c files ((B * MASS_BLOCK_SIZE + 3) % U32_MOD) e
    (by omega)
  simpa using hlow

/-- C29 (fails on the code): in the FAT32 variant the dispatcher does not hand `ReadFAT`
the relative block `k` for either FAT copy.  For every `k < 64`, the one-block read of block
`72 + k` (FAT2) is `ReadFAT` at block offset `72 + k`, the absolute block number; the read
of block `8 + k` (FAT1) is `ReadFAT` at block offset `(8 + k) - 65` in `U32` arithmetic,
which is `2^32 - 57 + k` for `k ≤ 56` and 0 for `k = 57`, and at block offset `8 + k` for
`58 ≤ k`.  For `k = 0` and every file table neither read is `ReadFAT` at relative block 0:
byte 3 of `ReadFAT(0)` is the media descriptor `0xF0`, byte 3 of the read of block 72 and of
the read of block 8 is not. -/
theorem fat32_Read_fat_copies_misrouted (MASS_BLOCK_COUNT : Nat)
    (files : List S_FILE_DESCRIPTOR) (k p : Nat) (s : State) (hk : k < 64) :
    USBMediumAccess_Read MASS_BLOCK_COUNT files (72 + k) p 1 s
        = { s with env := { s.env with
              mem := ReadFAT MASS_BLOCK_COUNT files (72 + k) p MASS_BLOCK_SIZE s.env.mem } }
    ∧ (k ≤ 56 → USBMediumAccess_Read MASS_BLOCK_COUNT files (8 + k) p 1 s
        = { s with env := { s.env with
              mem := ReadFAT MASS_BLOCK_COUNT files (4294967239 + k) p MASS_BLOCK_SIZE
                s.env.mem } })
    ∧ (k = 57 → USBMediumAccess_Read MASS_BLOCK_COUNT files (8 + k) p 1 s
        = { s with env := { s.env with
              mem := ReadFAT MASS_BLOCK_COUNT files 0 p MASS_BLOCK_SIZE s.env.mem } })
    ∧ (58 ≤ k → USBMediumAccess_Read MASS_BLOCK_COUNT files (8 + k) p 1 s
        = { s with env := { s.env with
              mem := ReadFAT MASS_BLOCK_COUNT files (8 + k) p MASS_BLOCK_SIZE s.env.mem } })
    ∧ ReadFAT MASS_BLOCK_COUNT files 0 p MASS_BLOCK_SIZE s.env.mem (p + 3) = 0xF0
    ∧ (USBMediumAccess_Read MASS_BLOCK_COUNT files 72 p 1 s).env.mem (p + 3) ≠ 0xF0
    ∧ (USBMediumAccess_Read MASS_BLOCK_COUNT files 8 p 1 s).env.mem (p + 3) ≠ 0xF0 := by
  refine ⟨?_, ?_, ?_, ?_, ?_, ?_, ?_⟩
  · rw [fat32_USBMediumAccess_Read_one,
      fat32_Read_body_fat_high MASS_BLOCK_COUNT files (72 + k) p s (by omega) (by omega)]
  · intro h
    have hoff : 4294967231 + (8 + k) = 4294967239 + k := by omega
    rw [fat32_USBMediumAccess_Read_one,
      fat32_Read_body_fat_low MASS_BLOCK_COUNT files (8 + k) p s (by omega) (by omega),
      fat32_u32Sub_below (8 + k) (by omega), hoff]
  · intro h
    subst h
    rw [fat32_USBMediumAccess_Read_one,
      fat32_Read_body_fat_low MASS_BLOCK_COUNT files (8 + 57) p s (by omega) (by omega)]
    rfl
  · intro h
    rw [fat32_USBMediumAccess_Read_one,
      fat32_Read_body_fat_high MASS_BLOCK_COUNT files (8 + k) p s (by omega) (by omega)]
  · obtain ⟨e, he⟩ := fat32_ReadFAT_loop_at MASS_BLOCK_COUNT files 0 p MASS_BLOCK_SIZE 0
      (s.env.mem, (FIRST_FILE_BLOCK * MASS_BLOCK_SIZE) % U32_MOD) 3 (by omega) (by decide)
    unfold ReadFAT
    rw [he, fat32_ReadFAT_entry_reserved _ _ _ _ (by decide)]
    rfl
  · rw [fat32_USBMediumAccess_Read_one,
      fat32_Read_body_fat_high MASS_BLOCK_COUNT files 72 p s (by omega) (by omega)]
    dsimp only
    exact fat32_ReadFAT_byte3_ne MASS_BLOCK_COUNT files 72 p s.env.mem (by decide) (by decide)
  · rw [fat32_USBMediumAccess_Read_one,
      fat32_Read_body_fat_low MASS_BLOCK_COUNT files 8 p s (by omega) (by omega),
      fat32_u32Sub_below 8 (by omega)]
    dsimp only
    exact fat32_ReadFAT_byte3_ne MASS_BLOCK_COUNT files (4294967231 + 8) p s.env.mem
      (by decide) (by decide)

/-- Witness for C29: `k = 0` and the empty file table; byte 3 of FAT block 0 is the media
descriptor, byte 3 of the read of block 72 is not. -/
theorem fat32_Read_fat_copies_misrouted_witness :
    ReadFAT 0 [] 0 0 MASS_BLOCK_SIZE (USBMediumAccess.initialState zeroMemory).env.mem (0 + 3) = 0xF0
    ∧ (USBMediumAccess_Read 0 [] 72 0 1 (USBMediumAccess.initialState zeroMemory)).env.mem (0 + 3) ≠ 0xF0
    ∧ (USBMediumAccess_Read 0 [] 8 0 1 (USBMediumAccess.initialState zeroMemory)).env.mem (0 + 3) ≠ 0xF0 :=
  (fat32_Read_fat_copies_misrouted 0 [] 0 0 (USBMediumAccess.initialState zeroMemory) (by decide)).2.2.2.2

end USBMediumAccessFat32

/-! ## The last block of a constant file -/

namespace USBMediumAccess

theorem cau8ReadmeFile_terminator : cau8ReadmeFile.getD 408 0 = 0 := by decide

theorem gcsFilesOnDrive_readme_ptr (pastReadme pastLEDControl : Memory) :
    (fileAt (gcsFilesOnDrive pastReadme pastLEDControl) 0).uReadHandler.pu8ConstantArray
      = arrayPtr cau8ReadmeFile pastReadme := by
  simp only [fileAt, gcsFilesOnDrive, List.getD_cons_zero]

/-- A one-block read of block 545 with the built-in table: `ReadFile` copies 512 bytes
through the pointer to `cau8ReadmeFile`, array indexes 0..511. -/
theorem Read_readme_block (c : Nat) (pastReadme pastLEDControl : Memory) (p : Nat) (s : State)
    (j : Nat) (hj : j < 512) :
    (USBMediumAccess_Read c (gcsFilesOnDrive pastReadme pastLEDControl) 545 p 1 s).env.mem
        (p + j)
      = arrayPtr cau8ReadmeFile pastReadme j := by
  have hscan := ReadFile_scan_found (gcsFilesOnDrive pastReadme pastLEDControl) 0 0
    (by rw [gcsFilesOnDrive_count]; omega)
    (by rw [gcsFilesOnDrive_codeSum_0])
    (by rw [gcsFilesOnDrive_codeSum_1]; omega)
  rw [gcsFilesOnDrive_codeSum_0, gcsFilesOnDrive_codeSum_1] at hscan
  have hk : 545 - FIRST_FILE_BLOCK = 0 := by decide
  have hidx : (u32Sub 0 0 * MASS_BLOCK_SIZE + (p + j - p)) % U32_MOD = j := by
    have h0 : u32Sub 0 0 = 0 := by decide
    rw [h0]
    simp only [MASS_BLOCK_SIZE, U32_MOD]
    omega
  rw [USBMediumAccess_Read_one, Read_body_file_region _ _ _ _ _ (by omega) (by decide), hk,
    ReadFile_const _ _ _ _ _ (by rw [hscan, gcsFilesOnDrive_count]; omega)
      (by rw [hscan]; rfl)]
  dsimp only
  rw [hscan]
  dsimp only
  rw [forLoop_store_apply (fun u32Index =>
      (fileAt (gcsFilesOnDrive pastReadme pastLEDControl) 0).uReadHandler.pu8ConstantArray
        ((u32Sub 0 0 * MASS_BLOCK_SIZE + u32Index) % U32_MOD)) p MASS_BLOCK_SIZE 0 _ (p + j),
    if_pos (by simp only [MASS_BLOCK_SIZE]; omega), hidx, gcsFilesOnDrive_readme_ptr]

/-- C30 (fails on the code): with the built-in table, the one-block read of block 545, the
only block of README.TXT (408 bytes, array `cau8ReadmeFile` of 409 bytes with its
terminating NUL), fetches all of the array indexes 0..511: the 512 bytes stored are what the
pointer to the array reads at indexes 0..511.  Index 408, the size of the file, is read
(the NUL), and for `409 ≤ j < 512` the output byte `j` is the byte that lies `j` bytes
behind the start of the array, past its end: it is not forced to zero. -/
theorem Read_readme_block_overread (MASS_BLOCK_COUNT : Nat)
    (pastReadme pastLEDControl : Memory) (p : Nat) (s : State) :
    (fileAt (gcsFilesOnDrive pastReadme pastLEDControl) 0).u32FileSize = 408
    ∧ cau8ReadmeFile.length = 409
    ∧ readBytes (USBMediumAccess_Read MASS_BLOCK_COUNT
          (gcsFilesOnDrive pastReadme pastLEDControl) 545 p 1 s).env.mem p 512
        = (List.range 512).map (arrayPtr cau8ReadmeFile pastReadme)
    ∧ (USBMediumAccess_Read MASS_BLOCK_COUNT
          (gcsFilesOnDrive pastReadme pastLEDControl) 545 p 1 s).env.mem (p + 408)
        = cau8ReadmeFile.getD 408 0
    ∧ cau8ReadmeFile.getD 408 0 = 0
    ∧ (∀ j, 409 ≤ j → j < 512 →
        (USBMediumAccess_Read MASS_BLOCK_COUNT
          (gcsFilesOnDrive pastReadme pastLEDControl) 545 p 1 s).env.mem (p + j)
        = pastReadme j) := by
  have hsize : (fileAt (gcsFilesOnDrive pastReadme pastLEDControl) 0).u32FileSize
      = cau8ReadmeFile.length - 1 := rfl
  refine ⟨?_, cau8ReadmeFile_length, ?_, ?_, cau8ReadmeFile_terminator, ?_⟩
  · rw [hsize, cau8ReadmeFile_length]
  · unfold readBytes
    apply List.map_congr_left
    intro j hj
    rw [List.mem_range] at hj
    exact Read_readme_block MASS_BLOCK_COUNT pastReadme pastLEDControl p s j hj
  · rw [Read_readme_block MASS_BLOCK_COUNT pastReadme pastLEDControl p s 408 (by decide)]
    unfold arrayPtr
    rw [if_pos (by rw [cau8ReadmeFile_length]; decide)]
  · intro j h1 h2
    rw [Read_readme_block MASS_BLOCK_COUNT pastReadme pastLEDControl p s j h2]
    unfold arrayPtr
    rw [if_neg (by rw [cau8ReadmeFile_length]; omega)]

/-- Witness for C30: when the memory behind `cau8ReadmeFile` holds `0xAA`, byte 409 of the
block read for README.TXT is `0xAA`. -/
theorem Read_readme_block_overread_witness :
    (USBMediumAccess_Read 0 (gcsFilesOnDrive (fun _ => 0xAA) zeroMemory) 545 0 1
        (initialState zeroMemory)).env.mem (0 + 409) = 0xAA :=
  (Read_readme_block_overread 0 (fun _ => 0xAA) zeroMemory 0 (initialState zeroMemory)).2.2.2.2.2
    409 (by decide) (by decide)

end USBMediumAccess


/-! ## The guard of the write path -/

namespace USBMediumAccess

/-- C31 (fails on the code): `USBMediumAccess_Write` does not classify the blocks of a run on
their own: the test in its loop is `FIRST_FILE_BLOCK <= u32StartBlock`, on the first block
of the run.  For every file table, a run that starts below `FIRST_FILE_BLOCK` forwards no
block at all to `WriteFile` and returns the state it was given, whatever its length, also
for its blocks at or above `FIRST_FILE_BLOCK`.  With the built-in table, block 938 (the
first block of SPIFLASH.BIN) is forwarded to `FlashWriteCallback` when it is written as
`Write(938, buffer, 1)`, and is not forwarded when it is block 394 of the run
`Write(544, buffer, 395)`. -/
theorem Write_start_block_guard (files : List S_FILE_DESCRIPTOR) (start p n : Nat) (s : State)
    (hstart : start < FIRST_FILE_BLOCK) :
    USBMediumAccess_Write files start p n s = s
    ∧ (∀ (pastReadme pastLEDControl : Memory),
        (USBMediumAccess_Write (gcsFilesOnDrive pastReadme pastLEDControl) 938 p 1 s).calls
          = s.calls ++ [FileCall.write 3 0 p 512 (readBytes s.env.mem p 512)]
        ∧ (USBMediumAccess_Write (gcsFilesOnDrive pastReadme pastLEDControl) 938 p 1 s).env.ops
          = s.env.ops ++ [HwOp.flashEraseSector 0,
              HwOp.flashWrite 0 (readBytes s.env.mem p 512) 512]
        ∧ 544 + 394 = 938
        ∧ USBMediumAccess_Write (gcsFilesOnDrive pastReadme pastLEDControl) 544 p 395 s = s)
    := by
  have hbelow : ∀ (fs : List S_FILE_DESCRIPTOR) (b m : Nat), b < FIRST_FILE_BLOCK →
      USBMediumAccess_Write fs b p m s = s := by
    intro fs b m hb
    unfold USBMediumAccess_Write
    apply forLoop_fixed
    intro i _ _
    exact Write_body_below fs b p i s hb
  refine ⟨hbelow files start n hstart, ?_⟩
  intro pastReadme pastLEDControl
  have hone : USBMediumAccess_Write (gcsFilesOnDrive pastReadme pastLEDControl) 938 p 1 s
      = USBMediumAccess_Write.body (gcsFilesOnDrive pastReadme pastLEDControl) 938 p 0 s := rfl
  have hbody := Write_body_spiflash pastReadme pastLEDControl 938 p 0 0 s (by decide) rfl
    (by decide)
  rw [Nat.add_zero] at hbody
  refine ⟨?_, ?_, rfl, hbelow _ 544 395 (by decide)⟩
  · rw [hone, hbody]
  · rw [hone, hbody]
    dsimp only
    rw [FlashWriteCallback_erase (512 * 0) p MASS_BLOCK_SIZE s.env (by decide)]
    unfold SPIFlash_Write_Polling SPIFlash_EraseSector_Polling
    dsimp only
    rw [List.append_assoc]
    rfl

/-- Witness for C31: the run `Write(544, buffer, 395)` with the built-in table leaves the
state as it is, although its last block is block 938. -/
theorem Write_start_block_guard_witness :
    USBMediumAccess_Write (gcsFilesOnDrive zeroMemory zeroMemory) 544 0 395
        (initialState (fun i => i % 251)) = initialState (fun i => i % 251) :=
  (Write_start_block_guard (gcsFilesOnDrive zeroMemory zeroMemory) 544 0 395
    (initialState (fun i => i % 251)) (by decide)).1

end USBMediumAccess


/-! ## The time stamp of the built-in files -/

namespace USBMediumAccess

theorem gcsFilesOnDrive_time (pastReadme pastLEDControl : Memory) (f : Nat) (hf : f < 4) :
    (fileAt (gcsFilesOnDrive pastReadme pastLEDControl) f).au8FileTime = [0x78, 0x64] := by
  interval_cases f
  · simp only [fileAt, gcsFilesOnDrive, List.getD_cons_zero]
    decide
  · simp only [fileAt, gcsFilesOnDrive, List.getD_cons_succ, List.getD_cons_zero]
    decide
  · simp only [fileAt, gcsFilesOnDrive, List.getD_cons_succ, List.getD_cons_zero]
    decide
  · simp only [fileAt, gcsFilesOnDrive, List.getD_cons_succ, List.getD_cons_zero]
    decide

theorem gcsFilesOnDrive_dirEntryTime (pastReadme pastLEDControl : Memory) (f : Nat)
    (hf : f < 4) : dirEntryTime (gcsFilesOnDrive pastReadme pastLEDControl) f = 0x6478 := by
  have hv : f < gcu8NumFilesOnDrive (gcsFilesOnDrive pastReadme pastLEDControl) := by
    rw [gcsFilesOnDrive_count]
    exact hf
  unfold dirEntryTime
  rw [rootDirByteAt_eq _ _ (by omega), rootDirByteAt_eq _ _ (by omega),
    ReadRootDir_byte_entry _ f 14 hv (by decide), ReadRootDir_byte_entry _ f 15 hv (by decide)]
  iterate 4 rw [if_neg (by decide)]
  rw [if_pos (by decide)]
  iterate 4 rw [if_neg (by decide)]
  rw [if_pos (by decide), gcsFilesOnDrive_time _ _ f hf]
  rfl

/-- C33 (fails on the code): the time of every file of the built-in table is written as
`TIME_LOW(12, 34, 56), TIME_HIGH(12, 34, 56)`, which are the bytes `0x78, 0x64`: `TIME_LOW`
ors the seconds in unscaled, so 56 = `0b111000` sets bit 5, the lowest bit of the minute, and
leaves 24 in the five bits of the seconds.  The 16-bit time of each directory entry is
`0x6478`, which decodes to hour 12, minute 35 and second 48, not to 12:34:56. -/
theorem builtin_time_decodes_wrong (pastReadme pastLEDControl : Memory) :
    TIME_LOW 12 34 56 = 0x78
    ∧ TIME_HIGH 12 34 56 = 0x64
    ∧ (gcsFilesOnDrive pastReadme pastLEDControl).map (fun d => d.au8FileTime)
        = List.replicate 4 [TIME_LOW 12 34 56, TIME_HIGH 12 34 56]
    ∧ (List.range 4).map (dirEntryTime (gcsFilesOnDrive pastReadme pastLEDControl))
        = List.replicate 4 0x6478
    ∧ dosTimeHour 0x6478 = 12
    ∧ dosTimeMinute 0x6478 = 35
    ∧ dosTimeSecond 0x6478 = 48
    ∧ (dosTimeHour 0x6478, dosTimeMinute 0x6478, dosTimeSecond 0x6478) ≠ (12, 34, 56) := by
  have htimes : (List.range 4).map (dirEntryTime (gcsFilesOnDrive pastReadme pastLEDControl))
      = (List.range 4).map (fun _ => 0x6478) := by
    apply List.map_congr_left
    intro f hf
    rw [List.mem_range] at hf
    exact gcsFilesOnDrive_dirEntryTime pastReadme pastLEDControl f hf
  refine ⟨by decide, by decide, ?_, htimes.trans rfl, by decide, by decide, by decide,
    by decide⟩
  simp only [gcsFilesOnDrive, List.map_cons, List.map_nil]
  rfl

end USBMediumAccess


/-! ## The geometry of the built-in table -/

theorem specTotal_cons (f : S_FILE_DESCRIPTOR) (l : List S_FILE_DESCRIPTOR) :
    specTotal (f :: l) = specClusters f.u32FileSize + specTotal l := by
  simp [specTotal]

theorem specTotal_nil : specTotal [] = 0 := rfl

namespace USBMediumAccess

theorem gcsFilesOnDrive_specTotal (pastReadme pastLEDControl : Memory) :
    specTotal (gcsFilesOnDrive pastReadme pastLEDControl) = 33161 := by
  simp only [gcsFilesOnDrive, specTotal_cons, specTotal_nil, cau8ReadmeFile_length,
    cau8LEDControlFile_length]
  decide

theorem gcsFilesOnDrive_codeSum_visible (pastReadme pastLEDControl : Memory) :
    codeSum ((gcsFilesOnDrive pastReadme pastLEDControl).take
      (gcu8NumFilesOnDrive (gcsFilesOnDrive pastReadme pastLEDControl))) = 33161 := by
  rw [gcsFilesOnDrive_count]
  exact gcsFilesOnDrive_codeSum_4 pastReadme pastLEDControl

/-- The value of `u16FATEntry` for a FAT byte address past the two reserved entries, with
the built-in table: bad cluster, end of chain, or the number of the next cluster, which is
at most 33162. -/
theorem gcsFilesOnDrive_entry (c : Nat) (pastReadme pastLEDControl : Memory) (a : Nat)
    (ha : 4 ≤ a) :
    ReadFAT.entry c (gcsFilesOnDrive pastReadme pastLEDControl) a = 0xFFF7
    ∨ ReadFAT.entry c (gcsFilesOnDrive pastReadme pastLEDControl) a = 0xFFF8
    ∨ (ReadFAT.entry c (gcsFilesOnDrive pastReadme pastLEDControl) a = 2 + (a - 4) / 2 + 1
        ∧ ReadFAT.entry c (gcsFilesOnDrive pastReadme pastLEDControl) a ≤ 33162) := by
  have hall := gcsFilesOnDrive_codeSum_visible pastReadme pastLEDControl
  rcases ReadFile_scan_visible (gcsFilesOnDrive pastReadme pastLEDControl) ((a - 4) / 2)
    with ⟨h1, _⟩ | ⟨j, hj, hlo, hhi, _⟩
  · left
    exact ReadFAT_entry_none c _ a ha h1
  · right
    have hmono := codeSum_take_mono (gcsFilesOnDrive pastReadme pastLEDControl) (j + 1)
      (gcu8NumFilesOnDrive (gcsFilesOnDrive pastReadme pastLEDControl)) (by omega)
    rw [ReadFAT_entry_found c _ a j ha hj hlo hhi]
    by_cases hlast : (a - 4) / 2 + 1
        < codeSum ((gcsFilesOnDrive pastReadme pastLEDControl).take (j + 1))
    · right
      rw [if_pos hlast]
      omega
    · left
      rw [if_neg hlast]

/-- C35: for the built-in file table the declared geometry has room for everything.  The
total cluster count is 33161 (1 + 391 + 1 + 32768), and 2 + 33161 does not exceed the 65536
entries of the 256-block FAT.  For every FAT byte address past the reserved entries the
entry `ReadFAT` computes is `0xFFF7`, `0xFFF8` or the link `2 + cluster + 1`, which is at
most 33162: it is below `0xFFF7`, so it is neither cut by the 16-bit entry nor equal to a
sentinel.  The volume label and one entry per file, 5 entries, fit in the 512 entries of
the root directory. -/
theorem builtin_geometry_fits (MASS_BLOCK_COUNT : Nat) (pastReadme pastLEDControl : Memory) :
    specTotal (gcsFilesOnDrive pastReadme pastLEDControl) = 33161
    ∧ 2 + specTotal (gcsFilesOnDrive pastReadme pastLEDControl)
        ≤ NUM_FAT_BLOCKS * MASS_BLOCK_SIZE / 2
    ∧ NUM_FAT_BLOCKS * MASS_BLOCK_SIZE / 2 = 65536
    ∧ (∀ a, 4 ≤ a →
        ReadFAT.entry MASS_BLOCK_COUNT (gcsFilesOnDrive pastReadme pastLEDControl) a = 0xFFF7
        ∨ ReadFAT.entry MASS_BLOCK_COUNT (gcsFilesOnDrive pastReadme pastLEDControl) a = 0xFFF8
        ∨ (ReadFAT.entry MASS_BLOCK_COUNT (gcsFilesOnDrive pastReadme pastLEDControl) a
              = 2 + (a - 4) / 2 + 1
            ∧ ReadFAT.entry MASS_BLOCK_COUNT (gcsFilesOnDrive pastReadme pastLEDControl) a
              < 0xFFF7))
    ∧ (∀ n, 2 ≤ n → n < 65536 →
        fatEntry16 MASS_BLOCK_COUNT (gcsFilesOnDrive pastReadme pastLEDControl) n = 0xFFF7
        ∨ fatEntry16 MASS_BLOCK_COUNT (gcsFilesOnDrive pastReadme pastLEDControl) n = 0xFFF8
        ∨ (fatEntry16 MASS_BLOCK_COUNT (gcsFilesOnDrive pastReadme pastLEDControl) n = n + 1
            ∧ n + 1 < 0xFFF7))
    ∧ 1 + gcu8NumFilesOnDrive (gcsFilesOnDrive pastReadme pastLEDControl) = 5
    ∧ 1 + gcu8NumFilesOnDrive (gcsFilesOnDrive pastReadme pastLEDControl) ≤ MAX_NUM_FILES_ROOT
    := by
  refine ⟨gcsFilesOnDrive_specTotal _ _, ?_, rfl, ?_, ?_, ?_, ?_⟩
  · rw [gcsFilesOnDrive_specTotal]
    decide
  · intro a ha
    rcases gcsFilesOnDrive_entry MASS_BLOCK_COUNT pastReadme pastLEDControl a ha
      with h | h | ⟨h1, h2⟩
    · exact Or.inl h
    · exact Or.inr (Or.inl h)
    · exact Or.inr (Or.inr ⟨h1, by omega⟩)
  · intro n hn hlt
    have hp0 : 2 * n % 2 = 0 := by omega
    have hp1 : (2 * n + 1) % 2 = 1 := by omega
    have hk : (2 * n + 1 - 4) / 2 = (2 * n - 4) / 2 := by omega
    have hbyte : ∀ e : Nat, e < 65536 → e / 256 ^ 0 % 256 + 256 * (e / 256 ^ 1 % 256) = e := by
      intro e he
      simp only [pow_zero, pow_one, Nat.div_one]
      omega
    have hsame : ReadFAT.entry MASS_BLOCK_COUNT (gcsFilesOnDrive pastReadme pastLEDControl)
          (2 * n + 1)
        = ReadFAT.entry MASS_BLOCK_COUNT (gcsFilesOnDrive pastReadme pastLEDControl) (2 * n)
        := by
      have h1 : ¬ (2 * n + 1 < 2) := by omega
      have h2 : ¬ (2 * n + 1 < 4) := by omega
      have h3 : ¬ (2 * n < 2) := by omega
      have h4 : ¬ (2 * n < 4) := by omega
      unfold ReadFAT.entry
      rw [if_neg h1, if_neg h2, if_neg h3, if_neg h4, hk]
    have hentry : fatEntry16 MASS_BLOCK_COUNT (gcsFilesOnDrive pastReadme pastLEDControl) n
        = ReadFAT.entry MASS_BLOCK_COUNT (gcsFilesOnDrive pastReadme pastLEDControl) (2 * n)
        := by
      unfold fatEntry16
      rw [fatByteAt_eq _ _ _ (by omega), fatByteAt_eq _ _ _ (by omega), hsame, hp0, hp1]
      apply hbyte
      rcases gcsFilesOnDrive_entry MASS_BLOCK_COUNT pastReadme pastLEDControl (2 * n)
        (by omega) with h | h | ⟨_, h2⟩
      · rw [h]
        decide
      · rw [h]
        decide
      · omega
    rw [hentry]
    rcases gcsFilesOnDrive_entry MASS_BLOCK_COUNT pastReadme pastLEDControl (2 * n) (by omega)
      with h | h | ⟨h1, h2⟩
    · exact Or.inl h
    · exact Or.inr (Or.inl h)
    · exact Or.inr (Or.inr ⟨by omega, by omega⟩)
  · rw [gcsFilesOnDrive_count]
  · rw [gcsFilesOnDrive_count]
    decide

/-- Witness for C35: entry 33161 is the highest link of the built-in table, to cluster
33162, the last cluster of SPIFLASH.BIN. -/
theorem builtin_geometry_fits_witness :
    fatEntry16 0 (gcsFilesOnDrive zeroMemory zeroMemory) 33161 = 0xFFF7
    ∨ fatEntry16 0 (gcsFilesOnDrive zeroMemory zeroMemory) 33161 = 0xFFF8
    ∨ (fatEntry16 0 (gcsFilesOnDrive zeroMemory zeroMemory) 33161 = 33161 + 1
        ∧ 33161 + 1 < 0xFFF7) :=
  (builtin_geometry_fits 0 zeroMemory zeroMemory).2.2.2.2.1 33161 (by decide) (by decide)

end USBMediumAccess


/-! ## Files of size zero -/

namespace USBMediumAccess

end USBMediumAccess


namespace USBMediumAccess

end USBMediumAccess


/-! ## Agreement of directory, FAT and file region -/

namespace USBMediumAccess

end USBMediumAccess


/-! ## Rotation of the tetroid -/

namespace Tetris

/-- C37: `RotateTetroid` is invertible on every 4 x 4 tetroid.  Whatever the local array
holds on entry, `RotateTetroid(TRUE)` followed by `RotateTetroid(FALSE)` gives back every
cell of the tetroid, and so does `RotateTetroid(FALSE)` followed by `RotateTetroid(TRUE)`;
the clockwise rotation stores the cell `[x][y]` at `[3 - y][x]`, the other one at
`[y][3 - x]`.  `Tetris_Cycle` undoes a clockwise rotation that hits the playfield by the
anti-clockwise one. -/
theorem RotateTetroid_inverse (gabTetroid junk1 junk2 : Grid) (x y : Nat)
    (hx : x < TETROID_SIZE_X) (hy : y < TETROID_SIZE_Y) :
    RotateTetroid false junk2 (RotateTetroid true junk1 gabTetroid) x y = gabTetroid x y
    ∧ RotateTetroid true junk2 (RotateTetroid false junk1 gabTetroid) x y = gabTetroid x y
    ∧ RotateTetroid true junk1 gabTetroid (TETROID_SIZE_Y - y - 1) x = gabTetroid x y
    ∧ RotateTetroid false junk1 gabTetroid y (TETROID_SIZE_X - x - 1) = gabTetroid x y := by
  simp only [TETROID_SIZE_X, TETROID_SIZE_Y] at hx hy
  interval_cases x <;> interval_cases y <;> exact ⟨rfl, rfl, rfl, rfl⟩

/-- Witness for C37: the cell `[1][3]` of the first tetroid of `RollNewTetroid`. -/
theorem RotateTetroid_inverse_witness :
    RotateTetroid false (fun _ _ => true)
      (RotateTetroid true (fun _ _ => true) (RollNewTetroid 0 (fun _ _ => false))) 1 3
      = RollNewTetroid 0 (fun _ _ => false) 1 3 :=
  (RotateTetroid_inverse (RollNewTetroid 0 (fun _ _ => false)) (fun _ _ => true)
    (fun _ _ => true) 1 3 (by decide) (by decide)).1

end Tetris


/-! ## Debouncing of the buttons -/

namespace Buttons

/-- An iteration of the column loop for another column leaves the variables of button `k`
and the row index as they are. -/
theorem column_other (pinSet : Nat → Bool) (tick c k : Nat) (m : Matrix)
    (h : (m.u32RowIndex * BUTTONS_NUM_ROWS + c) % U32_MOD ≠ k) :
    (Buttons_TimerIT.column pinSet tick c m).gaeButtonsState k = m.gaeButtonsState k
    ∧ (Buttons_TimerIT.column pinSet tick c m).gaeButtonsEvent k = m.gaeButtonsEvent k
    ∧ (Buttons_TimerIT.column pinSet tick c m).gau32ButtonsTimer k = m.gau32ButtonsTimer k
    ∧ (Buttons_TimerIT.column pinSet tick c m).u32RowIndex = m.u32RowIndex := by
  have hk : ¬ (k = (m.u32RowIndex * BUTTONS_NUM_ROWS + c) % U32_MOD) := fun e => h e.symm
  unfold Buttons_TimerIT.column
  dsimp only
  split_ifs <;> simp only [setAt, if_neg hk, and_self]

theorem column_row (pinSet : Nat → Bool) (tick c : Nat) (m : Matrix) :
    (Buttons_TimerIT.column pinSet tick c m).u32RowIndex = m.u32RowIndex := by
  unfold Buttons_TimerIT.column
  dsimp only
  split_ifs <;> rfl

theorem button_index (r d : Nat) (hr : r < 3) (hd : d < 3) :
    (r * BUTTONS_NUM_ROWS + d) % U32_MOD = r * 3 + d := by
  simp only [BUTTONS_NUM_ROWS, U32_MOD]
  omega

/-- The iteration of the column loop for the column of a button, when the column reads
pressed and the button is bouncing: the button becomes active and the pressed event is
raised when the stored deadline is still ahead of the tick; otherwise nothing changes. -/
theorem column_bouncing (pinSet : Nat → Bool) (tick c : Nat) (m : Matrix)
    (hpin : pinSet c = true)
    (hst : m.gaeButtonsState ((m.u32RowIndex * BUTTONS_NUM_ROWS + c) % U32_MOD)
      = E_BUTTONS_STATE.BUTTON_BOUNCING) :
    Buttons_TimerIT.column pinSet tick c m
      = if m.gau32ButtonsTimer ((m.u32RowIndex * BUTTONS_NUM_ROWS + c) % U32_MOD) > tick then
          { m with
            gaeButtonsState := setAt m.gaeButtonsState
              ((m.u32RowIndex * BUTTONS_NUM_ROWS + c) % U32_MOD) E_BUTTONS_STATE.BUTTON_ACTIVE
            gaeButtonsEvent := setAt m.gaeButtonsEvent
              ((m.u32RowIndex * BUTTONS_NUM_ROWS + c) % U32_MOD)
              E_BUTTONS_EVENT.BUTTON_PRESSED }
        else m := by
  unfold Buttons_TimerIT.column
  dsimp only
  rw [if_pos hpin, hst, if_neg (by decide), if_pos rfl]

/-- The iteration of the column loop for the column of a button, when the column reads not
pressed and the button is releasing. -/
theorem column_releasing (pinSet : Nat → Bool) (tick c : Nat) (m : Matrix)
    (hpin : pinSet c = false)
    (hst : m.gaeButtonsState ((m.u32RowIndex * BUTTONS_NUM_ROWS + c) % U32_MOD)
      = E_BUTTONS_STATE.BUTTON_RELEASING) :
    Buttons_TimerIT.column pinSet tick c m
      = if m.gau32ButtonsTimer ((m.u32RowIndex * BUTTONS_NUM_ROWS + c) % U32_MOD) > tick then
          { m with
            gaeButtonsState := setAt m.gaeButtonsState
              ((m.u32RowIndex * BUTTONS_NUM_ROWS + c) % U32_MOD)
              E_BUTTONS_STATE.BUTTON_INACTIVE
            gaeButtonsEvent := setAt m.gaeButtonsEvent
              ((m.u32RowIndex * BUTTONS_NUM_ROWS + c) % U32_MOD)
              E_BUTTONS_EVENT.BUTTON_RELEASED }
        else m := by
  unfold Buttons_TimerIT.column
  dsimp only
  rw [if_neg (by rw [hpin]; decide), hst, if_neg (by decide), if_neg (by decide), if_pos rfl]

/-- The variables of the button in column `c` of the scanned row after `Buttons_TimerIT`
are those after the iteration of the column loop for `c`, entered in a state `m1` in which
the button has the variables it has on entry to `Buttons_TimerIT`. -/
theorem TimerIT_button (pinSet : Nat → Bool) (tick c : Nat) (m : Matrix)
    (hrow : m.u32RowIndex < BUTTONS_NUM_ROWS) (hc : c < BUTTONS_NUM_COLS) :
    ∃ m1 : Matrix,
      m1.u32RowIndex = m.u32RowIndex
      ∧ m1.gaeButtonsState (m.u32RowIndex * 3 + c) = m.gaeButtonsState (m.u32RowIndex * 3 + c)
      ∧ m1.gaeButtonsEvent (m.u32RowIndex * 3 + c) = m.gaeButtonsEvent (m.u32RowIndex * 3 + c)
      ∧ m1.gau32ButtonsTimer (m.u32RowIndex * 3 + c)
          = m.gau32ButtonsTimer (m.u32RowIndex * 3 + c)
      ∧ (Buttons_TimerIT pinSet tick m).gaeButtonsState (m.u32RowIndex * 3 + c)
          = (Buttons_TimerIT.column pinSet tick c m1).gaeButtonsState (m.u32RowIndex * 3 + c)
      ∧ (Buttons_TimerIT pinSet tick m).gaeButtonsEvent (m.u32RowIndex * 3 + c)
          = (Buttons_TimerIT.column pinSet tick c m1).gaeButtonsEvent
              (m.u32RowIndex * 3 + c) := by
  simp only [BUTTONS_NUM_ROWS, BUTTONS_NUM_COLS] at hrow hc
  have hloop : forLoop (Buttons_TimerIT.column pinSet tick) BUTTONS_NUM_COLS 0 m
      = Buttons_TimerIT.column pinSet tick 2
          (Buttons_TimerIT.column pinSet tick 1 (Buttons_TimerIT.column pinSet tick 0 m)) := rfl
  have hfin : ∀ k, (Buttons_TimerIT pinSet tick m).gaeButtonsState k
        = (forLoop (Buttons_TimerIT.column pinSet tick) BUTTONS_NUM_COLS 0 m).gaeButtonsState k
      ∧ (Buttons_TimerIT pinSet tick m).gaeButtonsEvent k
        = (forLoop (Buttons_TimerIT.column pinSet tick) BUTTONS_NUM_COLS 0 m).gaeButtonsEvent k
      := fun k => ⟨rfl, rfl⟩
  have r0 := column_row pinSet tick 0 m
  have r1 := column_row pinSet tick 1 (Buttons_TimerIT.column pinSet tick 0 m)
  rw [r0] at r1
  have o (d e : Nat) (m2 : Matrix) (hm2 : m2.u32RowIndex = m.u32RowIndex) (hd : d < 3)
      (he : e < 3) (hne : d ≠ e) :=
    column_other pinSet tick d (m.u32RowIndex * 3 + e) m2
      (by rw [hm2, button_index _ _ hrow hd]; omega)
  rw [(hfin _).1, (hfin _).2, hloop]
  interval_cases c
  · obtain ⟨a1, b1, _, _⟩ := o 1 0 (Buttons_TimerIT.column pinSet tick 0 m) r0 (by decide)
      (by decide) (by decide)
    obtain ⟨a2, b2, _, _⟩ := o 2 0
      (Buttons_TimerIT.column pinSet tick 1 (Buttons_TimerIT.column pinSet tick 0 m)) r1
      (by decide) (by decide) (by decide)
    exact ⟨m, rfl, rfl, rfl, rfl, a2.trans a1, b2.trans b1⟩
  · obtain ⟨a0, b0, t0, _⟩ := o 0 1 m rfl (by decide) (by decide) (by decide)
    obtain ⟨a2, b2, _, _⟩ := o 2 1
      (Buttons_TimerIT.column pinSet tick 1 (Buttons_TimerIT.column pinSet tick 0 m)) r1
      (by decide) (by decide) (by decide)
    exact ⟨Buttons_TimerIT.column pinSet tick 0 m, r0, a0, b0, t0, a2, b2⟩
  · obtain ⟨a0, b0, t0, _⟩ := o 0 2 m rfl (by decide) (by decide) (by decide)
    obtain ⟨a1, b1, t1, _⟩ := o 1 2 (Buttons_TimerIT.column pinSet tick 0 m) r0 (by decide)
      (by decide) (by decide)
    exact ⟨Buttons_TimerIT.column pinSet tick 1 (Buttons_TimerIT.column pinSet tick 0 m), r1,
      a1.trans a0, b1.trans b0, t1.trans t0, rfl, rfl⟩

/-- C38 (fails on the code): `Buttons_TimerIT` compares the debounce timer the wrong way
round.  For the button in column `c` of the scanned row, in state `BUTTON_BOUNCING` with the
column reading pressed: it moves to `BUTTON_ACTIVE` and `BUTTON_PRESSED` is raised exactly
when the stored deadline is greater than the tick, that is strictly before the deadline;
at or past the deadline it stays `BUTTON_BOUNCING` and its event is left as it was.  In the
same way a button in `BUTTON_RELEASING` whose column reads not pressed moves to
`BUTTON_INACTIVE` with `BUTTON_RELEASED` only before its deadline. -/
theorem TimerIT_reports_before_deadline (pinSet : Nat → Bool) (tick c : Nat) (m : Matrix)
    (hrow : m.u32RowIndex < BUTTONS_NUM_ROWS) (hc : c < BUTTONS_NUM_COLS) :
    (pinSet c = true →
      m.gaeButtonsState (m.u32RowIndex * 3 + c) = E_BUTTONS_STATE.BUTTON_BOUNCING →
      (tick < m.gau32ButtonsTimer (m.u32RowIndex * 3 + c) →
        (Buttons_TimerIT pinSet tick m).gaeButtonsState (m.u32RowIndex * 3 + c)
          = E_BUTTONS_STATE.BUTTON_ACTIVE
        ∧ (Buttons_TimerIT pinSet tick m).gaeButtonsEvent (m.u32RowIndex * 3 + c)
          = E_BUTTONS_EVENT.BUTTON_PRESSED)
      ∧ (m.gau32ButtonsTimer (m.u32RowIndex * 3 + c) ≤ tick →
        (Buttons_TimerIT pinSet tick m).gaeButtonsState (m.u32RowIndex * 3 + c)
          = E_BUTTONS_STATE.BUTTON_BOUNCING
        ∧ (Buttons_TimerIT pinSet tick m).gaeButtonsEvent (m.u32RowIndex * 3 + c)
          = m.gaeButtonsEvent (m.u32RowIndex * 3 + c)))
    ∧ (pinSet c = false →
      m.gaeButtonsState (m.u32RowIndex * 3 + c) = E_BUTTONS_STATE.BUTTON_RELEASING →
      (tick < m.gau32ButtonsTimer (m.u32RowIndex * 3 + c) →
        (Buttons_TimerIT pinSet tick m).gaeButtonsState (m.u32RowIndex * 3 + c)
          = E_BUTTONS_STATE.BUTTON_INACTIVE
        ∧ (Buttons_TimerIT pinSet tick m).gaeButtonsEvent (m.u32RowIndex * 3 + c)
          = E_BUTTONS_EVENT.BUTTON_RELEASED)
      ∧ (m.gau32ButtonsTimer (m.u32RowIndex * 3 + c) ≤ tick →
        (Buttons_TimerIT pinSet tick m).gaeButtonsState (m.u32RowIndex * 3 + c)
          = E_BUTTONS_STATE.BUTTON_RELEASING
        ∧ (Buttons_TimerIT pinSet tick m).gaeButtonsEvent (m.u32RowIndex * 3 + c)
          = m.gaeButtonsEvent (m.u32RowIndex * 3 + c))) := by
  obtain ⟨m1, hr, hs, he, ht, hS, hE⟩ := TimerIT_button pinSet tick c m hrow hc
  simp only [BUTTONS_NUM_ROWS, BUTTONS_NUM_COLS] at hrow hc
  have hidx : (m1.u32RowIndex * BUTTONS_NUM_ROWS + c) % U32_MOD = m.u32RowIndex * 3 + c := by
    rw [hr, button_index _ _ hrow hc]
  rw [hS, hE]
  constructor
  · intro hpin hst
    have hstep := column_bouncing pinSet tick c m1 hpin (by rw [hidx, hs]; exact hst)
    rw [hidx, ht] at hstep
    constructor
    · intro hlt
      rw [hstep, if_pos hlt]
      simp only [setAt, if_pos, and_self]
    · intro hge
      rw [hstep, if_neg (by omega)]
      exact ⟨hs.trans hst, he⟩
  · intro hpin hst
    have hstep := column_releasing pinSet tick c m1 hpin (by rw [hidx, hs]; exact hst)
    rw [hidx, ht] at hstep
    constructor
    · intro hlt
      rw [hstep, if_pos hlt]
      simp only [setAt, if_pos, and_self]
    · intro hge
      rw [hstep, if_neg (by omega)]
      exact ⟨hs.trans hst, he⟩

/-- Witness for C38: button 4 (row 1, column 1) began bouncing at tick 1000, its deadline
is 1050.  At tick 1003, 47 ms before the deadline, it is reported; at tick 1050 it is not. -/
theorem TimerIT_reports_before_deadline_witness :
    ((Buttons_TimerIT (fun _ => true) 1003
        (oneButton 4 E_BUTTONS_STATE.BUTTON_BOUNCING 1050 1)).gaeButtonsState (1 * 3 + 1)
        = E_BUTTONS_STATE.BUTTON_ACTIVE
      ∧ (Buttons_TimerIT (fun _ => true) 1003
        (oneButton 4 E_BUTTONS_STATE.BUTTON_BOUNCING 1050 1)).gaeButtonsEvent (1 * 3 + 1)
        = E_BUTTONS_EVENT.BUTTON_PRESSED)
    ∧ ((Buttons_TimerIT (fun _ => true) 1050
        (oneButton 4 E_BUTTONS_STATE.BUTTON_BOUNCING 1050 1)).gaeButtonsState (1 * 3 + 1)
        = E_BUTTONS_STATE.BUTTON_BOUNCING
      ∧ (Buttons_TimerIT (fun _ => true) 1050
        (oneButton 4 E_BUTTONS_STATE.BUTTON_BOUNCING 1050 1)).gaeButtonsEvent (1 * 3 + 1)
        = E_BUTTONS_EVENT.BUTTON_NOEVENT) :=
  ⟨((TimerIT_reports_before_deadline (fun _ => true) 1003 1
      (oneButton 4 E_BUTTONS_STATE.BUTTON_BOUNCING 1050 1) (by decide) (by decide)).1
      rfl rfl).1 (by decide),
   ((TimerIT_reports_before_deadline (fun _ => true) 1050 1
      (oneButton 4 E_BUTTONS_STATE.BUTTON_BOUNCING 1050 1) (by decide) (by decide)).1
      rfl rfl).2 (by decide)⟩

end Buttons


/-! ## The wavetable index of the mixer -/

namespace SoundSynth

theorem envelope_phase (o : S_SYNTH_OSCILLATOR) :
    (SoundSynth_Sample.envelope o).u32Phase = o.u32Phase
    ∧ (SoundSynth_Sample.envelope o).u16WaveTableSize = o.u16WaveTableSize := by
  unfold SoundSynth_Sample.envelope
  split
  · dsimp only
    split <;> exact ⟨rfl, rfl⟩
  · dsimp only
    split <;> exact ⟨rfl, rfl⟩
  · exact ⟨rfl, rfl⟩
  · dsimp only
    split <;> exact ⟨rfl, rfl⟩

theorem indexes_eq (l : List S_SYNTH_OSCILLATOR) :
    SoundSynth_Sample.indexes l
      = l.map (fun o => (SoundSynth_Sample.phase o).u32Phase >>> 16) := by
  unfold SoundSynth_Sample.indexes SoundSynth_Sample.beforeMixer
  rw [List.map_map, List.map_map]
  apply List.map_congr_left
  intro o _
  simp only [Function.comp, SoundSynth_Sample.mixerIndex, (envelope_phase _).1]

/-- The phase after the first loop, for an oscillator within the bounds of the claim. -/
theorem phase_value (o : S_SYNTH_OSCILLATOR) (hN : o.u16WaveTableSize < 65536) :
    (SoundSynth_Sample.phase o).u32Phase
      = if (o.u32Phase + o.u32PhaseIncrease) % 4294967296 > o.u16WaveTableSize * 65536 then
          (o.u32Phase + o.u32PhaseIncrease) % 4294967296 - o.u16WaveTableSize * 65536
        else (o.u32Phase + o.u32PhaseIncrease) % 4294967296 := by
  have hshift : (o.u16WaveTableSize <<< 16) % U32_MOD = o.u16WaveTableSize * 65536 := by
    rw [Nat.shiftLeft_eq]
    simp only [U32_MOD]
    omega
  unfold SoundSynth_Sample.phase
  dsimp only
  rw [hshift]
  simp only [U32_MOD]
  by_cases h : (o.u32Phase + o.u32PhaseIncrease) % 4294967296 > o.u16WaveTableSize * 65536
  · rw [if_pos h, if_pos h]
    dsimp only
    rw [u32Sub_eq _ _ (by omega) (by simp only [U32_MOD]; omega)]
  · rw [if_neg h, if_neg h]

/-- C39 (fails on the code): the wavetable index of the mixer is not always in bounds.  For
an oscillator with wavetable size `N` (a `U16`), phase at most `N*2^16` and phase increase
below `N*2^16`, the index `u32Phase >> 16` that the mixer reads after the phase update is
`N`, one past the last word of the table, when the phase plus the increase is exactly
`N*2^16`: the update subtracts `N << 16` only when the phase is greater than it.  In every
other case the index is below `N`. -/
theorem mixer_index_bound (o : S_SYNTH_OSCILLATOR) (hN : o.u16WaveTableSize < 65536)
    (hphase : o.u32Phase ≤ o.u16WaveTableSize * 2 ^ 16)
    (hinc : o.u32PhaseIncrease < o.u16WaveTableSize * 2 ^ 16) :
    SoundSynth_Sample.indexes [o] = [(SoundSynth_Sample.phase o).u32Phase >>> 16]
    ∧ (o.u32Phase + o.u32PhaseIncrease = o.u16WaveTableSize * 2 ^ 16 →
        (SoundSynth_Sample.phase o).u32Phase >>> 16 = o.u16WaveTableSize)
    ∧ (o.u32Phase + o.u32PhaseIncrease ≠ o.u16WaveTableSize * 2 ^ 16 →
        (SoundSynth_Sample.phase o).u32Phase >>> 16 < o.u16WaveTableSize) := by
  have hpow : (2 : Nat) ^ 16 = 65536 := by norm_num
  rw [hpow] at hphase hinc
  refine ⟨(indexes_eq [o]).trans rfl, ?_⟩
  rw [hpow, phase_value o hN, Nat.shiftRight_eq_div_pow, hpow]
  refine ⟨?_, ?_⟩
  · intro h
    have hmod : (o.u32Phase + o.u32PhaseIncrease) % 4294967296
        = o.u16WaveTableSize * 65536 := by
      rw [h]
      omega
    rw [hmod, if_neg (by omega)]
    omega
  · intro h
    by_cases hwrap : o.u32Phase + o.u32PhaseIncrease < 4294967296
    · have hmod : (o.u32Phase + o.u32PhaseIncrease) % 4294967296
          = o.u32Phase + o.u32PhaseIncrease := by omega
      rw [hmod]
      split <;> omega
    · have hmod : (o.u32Phase + o.u32PhaseIncrease) % 4294967296
          = o.u32Phase + o.u32PhaseIncrease - 4294967296 := by omega
      rw [hmod, if_neg (by omega)]
      omega

/-- Witness for C39: a table of 4 words, phase `0x20000` and increase `0x20000`: the mixer
reads index 4. -/
theorem mixer_index_bound_witness :
    SoundSynth_Sample.indexes [oscillator 4 0x20000 0x20000] = [4] :=
  ((mixer_index_bound (oscillator 4 0x20000 0x20000) (by decide) (by decide) (by decide)).1
    ).trans (congrArg (fun i => [i])
      ((mixer_index_bound (oscillator 4 0x20000 0x20000) (by decide) (by decide)
        (by decide)).2.1 (by decide)))

end SoundSynth


/-! ## Fixing the tetroid and removing the full lines -/

theorem forLoop_invariant {σ : Type} (P : σ → Prop) (body : Nat → σ → σ)
    (h : ∀ i s, P s → P (body i s)) (n i0 : Nat) (s : σ) (hs : P s) :
    P (forLoop body n i0 s) := by
  induction n generalizing i0 s with
  | zero => exact hs
  | succ n ih =>
    rw [forLoop]
    exact ih (i0 + 1) _ (h i0 s hs)

namespace Tetris

theorem lineFull_loop (b : Grid) (y n i0 : Nat) (acc : Bool) :
    forLoop (fun u8IndexX bFullLine => if b u8IndexX y = false then false else bFullLine)
        n i0 acc = true
      ↔ acc = true ∧ ∀ x, i0 ≤ x → x < i0 + n → b x y = true := by
  induction n generalizing i0 acc with
  | zero =>
    rw [forLoop]
    constructor
    · intro h
      exact ⟨h, fun x h1 h2 => by omega⟩
    · intro h
      exact h.1
  | succ n ih =>
    rw [forLoop, ih]
    constructor
    · rintro ⟨h1, h2⟩
      by_cases hb : b i0 y = false
      · rw [if_pos hb] at h1
        cases h1
      · rw [if_neg hb] at h1
        refine ⟨h1, fun x hx1 hx2 => ?_⟩
        by_cases hx : x = i0
        · rw [hx]
          simpa using hb
        · exact h2 x (by omega) (by omega)
    · rintro ⟨h1, h2⟩
      have hb : ¬ (b i0 y = false) := by
        rw [h2 i0 (Nat.le_refl _) (by omega)]
        decide
      rw [if_neg hb]
      exact ⟨h1, fun x hx1 hx2 => h2 x (by omega) (by omega)⟩

/-- The check of `FixTetroid` finds a line full exactly when its ten blocks are set. -/
theorem lineFull_iff (b : Grid) (y : Nat) :
    FixTetroid.lineFull b y = true ↔ ∀ x, x < PLAYFIELD_SIZE_X → b x y = true := by
  unfold FixTetroid.lineFull
  rw [lineFull_loop]
  constructor
  · intro h x hx
    exact h.2 x (Nat.zero_le _) (by omega)
  · intro h
    exact ⟨rfl, fun x _ hx => h x (by omega)⟩

theorem lineFull_congr (b1 b2 : Grid) (y1 y2 : Nat)
    (h : ∀ x, x < PLAYFIELD_SIZE_X → b1 x y1 = b2 x y2) :
    FixTetroid.lineFull b1 y1 = FixTetroid.lineFull b2 y2 := by
  rw [Bool.eq_iff_iff, lineFull_iff, lineFull_iff]
  constructor
  · intro h1 x hx
    rw [← h x hx]
    exact h1 x hx
  · intro h1 x hx
    rw [h x hx]
    exact h1 x hx

theorem moveDown_row (b : Grid) (it n x0 i j : Nat) :
    forLoop (fun u8IndexX b => setCell b u8IndexX it (b u8IndexX (it + 1))) n x0 b i j
      = if j = it ∧ x0 ≤ i ∧ i < x0 + n then b i (it + 1) else b i j := by
  induction n generalizing x0 b with
  | zero =>
    rw [forLoop, if_neg (by omega)]
  | succ n ih =>
    rw [forLoop, ih]
    by_cases h1 : j = it ∧ x0 + 1 ≤ i ∧ i < x0 + 1 + n
    · rw [if_pos h1, if_pos (by omega)]
      unfold setCell
      rw [if_neg (by omega)]
    · rw [if_neg h1]
      unfold setCell
      by_cases h2 : i = x0 ∧ j = it
      · rw [if_pos h2, if_pos (by omega), h2.1]
      · rw [if_neg h2, if_neg (by omega)]

theorem moveDown_loop (b : Grid) (n y0 i j : Nat) :
    forLoop (fun u8Iter b =>
        forLoop (fun u8IndexX b => setCell b u8IndexX u8Iter (b u8IndexX (u8Iter + 1)))
          PLAYFIELD_SIZE_X 0 b) n y0 b i j
      = if i < PLAYFIELD_SIZE_X ∧ y0 ≤ j ∧ j < y0 + n then b i (j + 1) else b i j := by
  induction n generalizing y0 b with
  | zero =>
    rw [forLoop, if_neg (by omega)]
  | succ n ih =>
    rw [forLoop, ih]
    by_cases h1 : i < PLAYFIELD_SIZE_X ∧ y0 + 1 ≤ j ∧ j < y0 + 1 + n
    · rw [if_pos h1, if_pos (by omega), moveDown_row, if_neg (by omega)]
    · rw [if_neg h1, moveDown_row]
      by_cases h2 : j = y0 ∧ 0 ≤ i ∧ i < 0 + PLAYFIELD_SIZE_X
      · rw [if_pos h2, if_pos (by omega), h2.1]
      · rw [if_neg h2, if_neg (by omega)]

/-- The lines from `u8IndexY` to 18 take the blocks of the line above them; line 19 and the
lines below `u8IndexY` keep theirs. -/
theorem moveDown_apply (b : Grid) (y : Nat) (hy : y ≤ 19) (i j : Nat) :
    FixTetroid.moveDown b y i j
      = if i < PLAYFIELD_SIZE_X ∧ y ≤ j ∧ j < 19 then b i (j + 1) else b i j := by
  unfold FixTetroid.moveDown
  rw [moveDown_loop]
  have h : y + (PLAYFIELD_SIZE_Y - 1 - y) = 19 := by
    simp only [PLAYFIELD_SIZE_Y]
    omega
  rw [h]

theorem lines_zero (st : Grid × Nat × Nat) :
    FixTetroid.lines 0 st = if st.2.1 < PLAYFIELD_SIZE_Y then none else some st := rfl

theorem lines_succ (fuel : Nat) (st : Grid × Nat × Nat) :
    FixTetroid.lines (fuel + 1) st
      = if st.2.1 < PLAYFIELD_SIZE_Y then
          if FixTetroid.lineFull st.1 st.2.1 = true then
            FixTetroid.lines fuel
              (FixTetroid.moveDown st.1 st.2.1, st.2.1, (st.2.2 * 10) % U32_MOD)
          else
            FixTetroid.lines fuel (st.1, (st.2.1 + 1) % U8_MOD, st.2.2)
        else some st := rfl

/-- With the top line full, the `while` loop never ends: every line it reaches that is full
stays full after the lines are moved down, because the top line is copied down and kept. -/
theorem lines_loops (fuel : Nat) :
    ∀ (b : Grid) (y inc : Nat), y < PLAYFIELD_SIZE_Y →
      (∀ x, x < PLAYFIELD_SIZE_X → b x 19 = true) →
      FixTetroid.lines fuel (b, y, inc) = none := by
  induction fuel with
  | zero =>
    intro b y inc hy _
    rw [lines_zero, if_pos hy]
  | succ fuel ih =>
    intro b y inc hy htop
    simp only [PLAYFIELD_SIZE_Y] at hy
    rw [lines_succ, if_pos hy]
    dsimp only
    by_cases hfull : FixTetroid.lineFull b y = true
    · rw [if_pos hfull]
      apply ih _ _ _ hy
      intro x hx
      rw [moveDown_apply b y (by omega), if_neg (by omega)]
      exact htop x hx
    · rw [if_neg hfull]
      have hne : y ≠ 19 := by
        intro h
        rw [h] at hfull
        exact hfull ((lineFull_iff b 19).mpr htop)
      have hmod : (y + 1) % U8_MOD = y + 1 := by
        simp only [U8_MOD]
        omega
      rw [hmod]
      exact ih _ _ _ (by simp only [PLAYFIELD_SIZE_Y]; omega) htop

theorem fullLines_zero (b : Grid) (y : Nat) : fullLines b y 0 = 0 := rfl

theorem fullLines_succ (b : Grid) (y n : Nat) :
    fullLines b y (n + 1)
      = (if FixTetroid.lineFull b y = true then 1 else 0) + fullLines b (y + 1) n := rfl

theorem fullLines_le (b : Grid) (n : Nat) : ∀ y, fullLines b y n ≤ n := by
  induction n with
  | zero => intro y; rw [fullLines_zero]
  | succ n ih =>
    intro y
    rw [fullLines_succ]
    have := ih (y + 1)
    split <;> omega

/-- Moving the lines down from a full line `y0`, with the top line not full, removes one
full line from those at and above `y0`. -/
theorem fullLines_moveDown (b : Grid) (y0 : Nat) (hy0 : y0 ≤ 19)
    (htop : ¬ FixTetroid.lineFull b 19 = true) (n : Nat) :
    ∀ y, y0 ≤ y → y + (n + 1) = 20 →
      fullLines (FixTetroid.moveDown b y0) y (n + 1) = fullLines b (y + 1) n := by
  induction n with
  | zero =>
    intro y hy hsum
    have h19 : y = 19 := by omega
    rw [h19, fullLines_succ, fullLines_zero, fullLines_zero]
    have hsame : FixTetroid.lineFull (FixTetroid.moveDown b y0) 19
        = FixTetroid.lineFull b 19 := by
      apply lineFull_congr
      intro x _
      rw [moveDown_apply b y0 hy0, if_neg (by omega)]
    rw [hsame, if_neg htop]
  | succ n ih =>
    intro y hy hsum
    rw [fullLines_succ, ih (y + 1) (by omega) (by omega), fullLines_succ b (y + 1) n]
    have hsame : FixTetroid.lineFull (FixTetroid.moveDown b y0) y
        = FixTetroid.lineFull b (y + 1) := by
      apply lineFull_congr
      intro x hx
      rw [moveDown_apply b y0 hy0, if_pos ⟨hx, hy, by omega⟩]
    rw [hsame]

/-- With the top line not full, the `while` loop ends within `20 - y` passes plus one pass
per full line: no line is full then, and the score increase has been multiplied by 10 once
for every full line there was. -/
theorem lines_returns (fuel : Nat) :
    ∀ (b : Grid) (y inc : Nat), y ≤ 20 → inc < 4294967296 →
      ¬ FixTetroid.lineFull b 19 = true →
      (∀ r, r < y → ¬ FixTetroid.lineFull b r = true) →
      (20 - y) + fullLines b y (20 - y) ≤ fuel →
      ∃ b' : Grid,
        FixTetroid.lines fuel (b, y, inc)
          = some (b', 20, (inc * 10 ^ fullLines b y (20 - y)) % U32_MOD)
        ∧ ∀ r, r < 20 → ¬ FixTetroid.lineFull b' r = true := by
  induction fuel with
  | zero =>
    intro b y inc hy hinc _ hbelow hfuel
    have h20 : y = 20 := by omega
    subst h20
    refine ⟨b, ?_, hbelow⟩
    have hn20 : ¬ (20 < PLAYFIELD_SIZE_Y) := by decide
    rw [lines_zero]
    dsimp only
    rw [if_neg hn20]
    simp only [Nat.sub_self, fullLines_zero, pow_zero, Nat.mul_one, U32_MOD]
    rw [Nat.mod_eq_of_lt hinc]
  | succ fuel ih =>
    intro b y inc hy hinc htop hbelow hfuel
    by_cases h20 : y = 20
    · subst h20
      refine ⟨b, ?_, hbelow⟩
      have hn20 : ¬ (20 < PLAYFIELD_SIZE_Y) := by decide
      rw [lines_succ]
      dsimp only
      rw [if_neg hn20]
      simp only [Nat.sub_self, fullLines_zero, pow_zero, Nat.mul_one, U32_MOD]
      rw [Nat.mod_eq_of_lt hinc]
    · have hlt : y < 20 := by omega
      obtain ⟨n, hn⟩ : ∃ n, 20 - y = n + 1 := ⟨19 - y, by omega⟩
      rw [hn, fullLines_succ] at hfuel
      rw [hn, fullLines_succ, lines_succ, if_pos hlt]
      dsimp only
      by_cases hfull : FixTetroid.lineFull b y = true
      · rw [if_pos hfull] at hfuel
        rw [if_pos hfull, if_pos hfull]
        have hcount := fullLines_moveDown b y (by omega) htop n y (Nat.le_refl _) (by omega)
        have htop' : ¬ FixTetroid.lineFull (FixTetroid.moveDown b y) 19 = true := by
          have hsame : FixTetroid.lineFull (FixTetroid.moveDown b y) 19
              = FixTetroid.lineFull b 19 := by
            apply lineFull_congr
            intro x _
            rw [moveDown_apply b y (by omega), if_neg (by omega)]
          rw [hsame]
          exact htop
        have hbelow' : ∀ r, r < y → ¬ FixTetroid.lineFull (FixTetroid.moveDown b y) r = true := by
          intro r hr
          have hsame : FixTetroid.lineFull (FixTetroid.moveDown b y) r
              = FixTetroid.lineFull b r := by
            apply lineFull_congr
            intro x _
            rw [moveDown_apply b y (by omega), if_neg (by omega)]
          rw [hsame]
          exact hbelow r hr
        obtain ⟨b', h1, h2⟩ := ih (FixTetroid.moveDown b y) y ((inc * 10) % U32_MOD) hy
          (Nat.mod_lt _ (by decide)) htop' hbelow' (by rw [hn, hcount]; omega)
        refine ⟨b', ?_, h2⟩
        rw [h1, hn, hcount]
        have hpow : inc * 10 ^ (1 + fullLines b (y + 1) n)
            = inc * 10 * 10 ^ fullLines b (y + 1) n := by
          rw [pow_add, pow_one, Nat.mul_assoc]
        rw [hpow, Nat.mod_mul_mod]
      · rw [if_neg hfull] at hfuel
        rw [if_neg hfull, if_neg hfull, Nat.zero_add]
        have hmod : (y + 1) % U8_MOD = y + 1 := by
          simp only [U8_MOD]
          omega
        have hrest : 20 - (y + 1) = n := by omega
        have hbelow' : ∀ r, r < y + 1 → ¬ FixTetroid.lineFull b r = true := by
          intro r hr
          by_cases hry : r = y
          · rw [hry]
            exact hfull
          · exact hbelow r (by omega)
        obtain ⟨b', h1, h2⟩ := ih b (y + 1) inc (by omega) hinc htop hbelow'
          (by rw [hrest]; omega)
        rw [hrest] at h1
        refine ⟨b', ?_, h2⟩
        rw [hmod, h1]

/-- The blocks of the playfield stay set when the tetroid is made part of it. -/
theorem merge_keeps (g : Game) (x y : Nat) (h : g.gabBlocks x y = true) :
    FixTetroid.merge g x y = true := by
  unfold FixTetroid.merge
  apply forLoop_invariant (fun b : Grid => b x y = true)
  · intro i s hs
    apply forLoop_invariant (fun b : Grid => b x y = true)
    · intro j t ht
      dsimp only
      split
      · split
        · unfold setCell
          split
          · rfl
          · exact ht
        · exact ht
      · exact ht
    · exact hs
  · exact h

end Tetris


namespace Tetris

set_option maxRecDepth 1000000 in
theorem lastGap_fullLines : fullLines (FixTetroid.merge lastGap) 0 20 = 1 := by
  decide

theorem lastGap_top : ¬ ∀ x, x < PLAYFIELD_SIZE_X → FixTetroid.merge lastGap x 19 = true := by
  intro h
  have h0 := h 0 (by decide)
  revert h0
  decide

/-- C36 (fails on the code): `FixTetroid` does not return for every playfield.  When the top
line (line 19) is full once the tetroid is part of the playfield, which is so whenever the
top line of the playfield was full already, the `while` loop does not end within any number
of passes: moving the lines down copies line 19 to line 18 and leaves line 19 as it is.
When the top line is not full, the function returns within 20 passes plus one for each full
line; no line of the playfield is full then and the score has grown, modulo 2^32, by 10^k
for the k full lines there were. -/
theorem FixTetroid_top_line_full (g : Game) (rand : Nat) :
    ((∀ x, x < PLAYFIELD_SIZE_X → g.gabBlocks x 19 = true) →
        ∀ x, x < PLAYFIELD_SIZE_X → FixTetroid.merge g x 19 = true)
    ∧ ((∀ x, x < PLAYFIELD_SIZE_X → FixTetroid.merge g x 19 = true) →
        ∀ fuel, FixTetroid fuel rand g = none)
    ∧ ((¬ ∀ x, x < PLAYFIELD_SIZE_X → FixTetroid.merge g x 19 = true) →
        ∀ fuel, 20 + fullLines (FixTetroid.merge g) 0 20 ≤ fuel →
          ∃ g' : Game, FixTetroid fuel rand g = some g'
            ∧ (∀ y, y < PLAYFIELD_SIZE_Y →
                ¬ ∀ x, x < PLAYFIELD_SIZE_X → g'.gabBlocks x y = true)
            ∧ g'.gu32Score
                = (g.gu32Score + 10 ^ fullLines (FixTetroid.merge g) 0 20) % U32_MOD) := by
  refine ⟨fun h x hx => merge_keeps g x 19 (h x hx), ?_, ?_⟩
  · intro htop fuel
    unfold FixTetroid
    rw [lines_loops fuel (FixTetroid.merge g) 0 1 (by decide) htop]
  · intro htop fuel hfuel
    have htop' : ¬ FixTetroid.lineFull (FixTetroid.merge g) 19 = true := by
      rw [lineFull_iff]
      exact htop
    obtain ⟨b', h1, h2⟩ := lines_returns fuel (FixTetroid.merge g) 0 1 (by omega) (by omega)
      htop' (fun r hr => by omega) hfuel
    unfold FixTetroid
    rw [h1]
    refine ⟨_, rfl, ?_, ?_⟩
    · intro y hy hfull
      exact h2 y hy ((lineFull_iff b' y).mpr hfull)
    · dsimp only
      simp only [Nat.one_mul, Nat.sub_zero, U32_MOD]
      rw [Nat.add_mod_mod]

theorem FixTetroid_top_line_full_witness :
    FixTetroid 1000 0 fullPlayfield = none
    ∧ ∃ g' : Game, FixTetroid 21 0 lastGap = some g' ∧ g'.gu32Score = 17 :=
  ⟨(FixTetroid_top_line_full fullPlayfield 0).2.1
      ((FixTetroid_top_line_full fullPlayfield 0).1 (fun _ _ => rfl)) 1000,
    by
      obtain ⟨g', h1, _, h3⟩ := (FixTetroid_top_line_full lastGap 0).2.2 lastGap_top 21
        (by rw [lastGap_fullLines])
      refine ⟨g', h1, ?_⟩
      rw [h3, lastGap_fullLines]
      rfl⟩

end Tetris

end Ketyere
